import Mathlib

/-!
Shallow embedding of the `eng_unit_converter` package
(`src/eng_unit_converter/converters.py` and `src/eng_unit_converter/measure.py`),
together with theorems settling the frozen claims about its specification.

Modelling conventions:
* Python floats are modelled as real numbers with exact arithmetic.
* Python's `round(x, 2)` (round half to even on the scaled value) is modelled
  by `pyRound`/`round2`.
* Fallible code (`raise ValueError`, `raise TypeError`, and the `ValueError`
  that `math.sqrt` raises on a negative argument) is modelled with
  `Except PyErr`.
* `math.sqrt` is modelled by `mathSqrt`: on a nonnegative argument it returns
  `Real.sqrt`, on a negative argument it returns the math module's
  `ValueError('math domain error')`, modelled as `PyErr.mathDomain`.
-/

/-- Errors raised by the embedded code.
* `valueLow`    models `ValueError(f'Value must be >= {low_limit}')`
* `valueHigh`   models `ValueError(f'Value must be <= {hi_limit}')`
* `zeroCoeff`   models `ValueError('from_base_coeff must be non zero!')`
* `mathDomain`  models the `ValueError('math domain error')` raised inside
  `math.sqrt` when its argument is negative
* `typeMismatch` models the `TypeError` of `Measure.__add__`/`__sub__` for
  operands of different subtypes, and also the `TypeError` Python raises when
  `self.__class__(result_base_value, self.base_unit)` is called with two
  arguments on a class whose `__init__` requires five
  (`AnalogSensorMeasure`)
* `keyLookup`   models the `KeyError` of `self._converters[unit]` for a unit
  that is not in the registry -/
inductive PyErr where
  | valueLow
  | valueHigh
  | zeroCoeff
  | mathDomain
  | typeMismatch
  | keyLookup
deriving DecidableEq, Repr

open Classical in
/-- Python's `round` to an integer: round half to even (banker's rounding). -/
noncomputable def pyRound (x : ℝ) : ℤ :=
  if x - ⌊x⌋ < 1/2 then ⌊x⌋
  else if 1/2 < x - ⌊x⌋ then ⌊x⌋ + 1
  else if Even ⌊x⌋ then ⌊x⌋ else ⌊x⌋ + 1

/-- Python's `round(x, 2)`: the fixed `precision = 2` used throughout the
converters (`_check_limits` is always called with its default precision). -/
noncomputable def round2 (x : ℝ) : ℝ := (pyRound (x * 100) : ℝ) / 100

open Classical in
/-- Models `Converter._check_limits(value, low_limit, hi_limit, precision=2)`:
raises `ValueError('Value must be >= …')` when the rounded value is strictly
below the rounded low limit, then `ValueError('Value must be <= …')` when the
rounded value is strictly above the rounded high limit; `None` limits are
unchecked. -/
noncomputable def check_limits (value : ℝ) (low_limit hi_limit : Option ℝ) :
    Except PyErr Unit :=
  if (match low_limit with
      | some l => round2 value < round2 l
      | none => False) then .error .valueLow
  else if (match hi_limit with
      | some h => round2 h < round2 value
      | none => False) then .error .valueHigh
  else .ok ()

/-- A constructed `Converter` object: the `_from_base`/`_to_base`
implementations of the concrete subclass together with the `base_low`,
`base_hi` fields and the `converted_low`, `converted_hi` fields that
`Converter.__init__` computes once by applying `from_base` to the base
bounds (for the converters embedded here those calls succeed and return
`_from_base` of the bound, which is the value stored below; `None` base
bounds give `None` converted bounds). -/
structure Conv where
  fromBaseRaw : ℝ → Except PyErr ℝ
  toBaseRaw : ℝ → Except PyErr ℝ
  base_low : Option ℝ
  base_hi : Option ℝ
  converted_low : Option ℝ
  converted_hi : Option ℝ

/-- Models `Converter.from_base(value, precision=2)`: check the base-space
limits, then run `_from_base`. -/
noncomputable def Conv.from_base (c : Conv) (value : ℝ) : Except PyErr ℝ :=
  match check_limits value c.base_low c.base_hi with
  | .error e => .error e
  | .ok _ => c.fromBaseRaw value

/-- Models `Converter.to_base(value, precision=2)`: check the converted-space
limits, then run `_to_base`. -/
noncomputable def Conv.to_base (c : Conv) (value : ℝ) : Except PyErr ℝ :=
  match check_limits value c.converted_low c.converted_hi with
  | .error e => .error e
  | .ok _ => c.toBaseRaw value

/-- Models `from_base(to_base(v))`: the unit-space round trip of a converter
through the public checked interface. -/
noncomputable def roundTrip (c : Conv) (v : ℝ) : Except PyErr ℝ :=
  match c.to_base v with
  | .error e => .error e
  | .ok t => c.from_base t

/-- The `Converter` object built by `LinearConverter.__init__` (after its
zero-coefficient guard has passed): `_from_base(v) = v*coeff + offset`,
`_to_base(v) = (v - offset)/coeff`, with the converted bounds obtained by
mapping `_from_base` over the base bounds. -/
noncomputable def LinearConverter (coeff offset : ℝ) (lo hi : Option ℝ) : Conv where
  fromBaseRaw := fun v => .ok (v * coeff + offset)
  toBaseRaw := fun v => .ok ((v - offset) / coeff)
  base_low := lo
  base_hi := hi
  converted_low := lo.map (fun b => b * coeff + offset)
  converted_hi := hi.map (fun b => b * coeff + offset)

/-- Models `LinearConverter(from_base_coeff, from_base_offset, …)` including
the `ValueError('from_base_coeff must be non zero!')` guard. -/
noncomputable def mkLinearConverter (coeff offset : ℝ) (lo hi : Option ℝ) :
    Except PyErr Conv :=
  if coeff = 0 then .error .zeroCoeff else .ok (LinearConverter coeff offset lo hi)

/-- Models `MultConverter(from_base_coeff, …)`: a `LinearConverter` with
offset `0` (the subclass repeats the zero-coefficient guard and then calls
`LinearConverter.__init__` with `from_base_offset=0`). -/
noncomputable def mkMultConverter (coeff : ℝ) (lo hi : Option ℝ) :
    Except PyErr Conv :=
  if coeff = 0 then .error .zeroCoeff else .ok (LinearConverter coeff 0 lo hi)

/-- The unchecked `MultConverter` object for a nonzero coefficient (the form
in which all registry entries below use it). -/
noncomputable def MultConverter (coeff : ℝ) : Conv :=
  LinearConverter coeff 0 none none

open Classical in
/-- Models `math.sqrt`: `ValueError('math domain error')` on a negative
argument, the real square root otherwise. -/
noncomputable def mathSqrt (x : ℝ) : Except PyErr ℝ :=
  if x < 0 then .error .mathDomain else .ok (Real.sqrt x)

/-- The accumulation loop
`for i, d in enumerate(D): t = t + d*(x)**(i+1)` starting from index `i` and
accumulator `t` (the stray `i = i+1` in `PtResistConverter._to_base` has no
effect: `enumerate` drives `i`). -/
def seriesLoop : ℕ → ℝ → List ℝ → ℝ → ℝ
  | _, t, [], _ => t
  | i, t, d :: ds, x => seriesLoop (i + 1) (t + d * x ^ (i + 1)) ds x

/-- The coefficients `(R0, A, B, C, D)` of a resistance-curve converter. -/
structure RtdParams where
  R0 : ℝ
  A : ℝ
  B : ℝ
  C : ℝ
  D : List ℝ

open Classical in
/-- Models `PtResistConverter._from_base(t)` (its `_check_limits` call is
commented out in the source): the Callendar-Van Dusen forward polynomial,
quartic on `-200 <= t <= 0` and quadratic otherwise. -/
noncomputable def ptFromBaseRaw (p : RtdParams) (t : ℝ) : ℝ :=
  if -200 ≤ t ∧ t ≤ 0 then
    p.R0 * (1 + p.A * t + p.B * t ^ 2 + p.C * (t - 100) * t ^ 3)
  else
    p.R0 * (1 + p.A * t + p.B * t ^ 2)

open Classical in
/-- Models `PtResistConverter._to_base(R)` (its `_check_limits` call is
commented out in the source): quadratic-formula inverse on `R/R0 >= 1`,
power-series loop over `D` otherwise. -/
noncomputable def ptToBaseRaw (p : RtdParams) (R : ℝ) : Except PyErr ℝ :=
  if 1 ≤ R / p.R0 then
    match mathSqrt (p.A ^ 2 - 4 * p.B * (1 - R / p.R0)) with
    | .error e => .error e
    | .ok s => .ok ((s - p.A) / (2 * p.B))
  else
    .ok (seriesLoop 0 0 p.D (R / p.R0 - 1))

/-- The `Converter` object built by
`PtResistConverter(R0, A, B, C, D, base_low, base_hi)`. -/
noncomputable def PtResistConverter (p : RtdParams) (lo hi : ℝ) : Conv where
  fromBaseRaw := fun t => .ok (ptFromBaseRaw p t)
  toBaseRaw := ptToBaseRaw p
  base_low := some lo
  base_hi := some hi
  converted_low := some (ptFromBaseRaw p lo)
  converted_hi := some (ptFromBaseRaw p hi)

open Classical in
/-- Models `CuResistConverter._from_base(t)`: this method keeps its own
`_check_limits(t, self.base_low, self.base_hi)` call, then evaluates the
cubic branch on `-180 <= t <= 0` and the linear branch otherwise. -/
noncomputable def cuFromBaseRaw (p : RtdParams) (lo hi : ℝ) (t : ℝ) :
    Except PyErr ℝ :=
  match check_limits t (some lo) (some hi) with
  | .error e => .error e
  | .ok _ =>
    if -180 ≤ t ∧ t ≤ 0 then
      .ok (p.R0 * (1 + p.A * t + p.B * t * (t + 6.7) + p.C * t ^ 3))
    else
      .ok (p.R0 * (1 + p.A * t))

open Classical in
/-- Models `CuResistConverter._to_base(R)`: this method keeps its own
`_check_limits(R, self.converted_low, self.converted_hi)` call, then inverts
the linear branch on `R/R0 >= 1` and evaluates the power-series loop over `D`
otherwise. -/
noncomputable def cuToBaseRaw (p : RtdParams) (clo chi : ℝ) (R : ℝ) :
    Except PyErr ℝ :=
  match check_limits R (some clo) (some chi) with
  | .error e => .error e
  | .ok _ =>
    if 1 ≤ R / p.R0 then .ok ((R / p.R0 - 1) / p.A)
    else .ok (seriesLoop 0 0 p.D (R / p.R0 - 1))

open Classical in
/-- The pure value of the copper forward polynomial (used for the converted
bounds computed at construction, where the internal checks pass). -/
noncomputable def cuFromBaseVal (p : RtdParams) (t : ℝ) : ℝ :=
  if -180 ≤ t ∧ t ≤ 0 then p.R0 * (1 + p.A * t + p.B * t * (t + 6.7) + p.C * t ^ 3)
  else p.R0 * (1 + p.A * t)

/-- The `Converter` object built by
`CuResistConverter(R0, A, B, C, D, base_low, base_hi)`. -/
noncomputable def CuResistConverter (p : RtdParams) (lo hi : ℝ) : Conv where
  fromBaseRaw := cuFromBaseRaw p lo hi
  toBaseRaw := cuToBaseRaw p (cuFromBaseVal p lo) (cuFromBaseVal p hi)
  base_low := some lo
  base_hi := some hi
  converted_low := some (cuFromBaseVal p lo)
  converted_hi := some (cuFromBaseVal p hi)

open Classical in
/-- Models `NiResistConverter._from_base(t)` (its `_check_limits` call is
commented out in the source): quadratic on `-60 <= t <= 100`, with the extra
`C*(t-100)*t**2` term above the `100` breakpoint. -/
noncomputable def niFromBaseRaw (p : RtdParams) (t : ℝ) : ℝ :=
  if -60 ≤ t ∧ t ≤ 100 then
    p.R0 * (1 + p.A * t + p.B * t ^ 2)
  else
    p.R0 * (1 + p.A * t + p.B * t ^ 2 + p.C * (t - 100) * t ^ 2)

open Classical in
/-- Models `NiResistConverter._to_base(R)` (its `_check_limits` call is
commented out in the source): quadratic-formula inverse on `R <= 161.72`
(the source comment says `# t<=100`), otherwise `100` plus the power-series
loop over `D` in `R/R0 - 1.6172`. -/
noncomputable def niToBaseRaw (p : RtdParams) (R : ℝ) : Except PyErr ℝ :=
  if R ≤ 161.72 then
    match mathSqrt (p.A ^ 2 - 4 * p.B * (1 - R / p.R0)) with
    | .error e => .error e
    | .ok s => .ok ((s - p.A) / (2 * p.B))
  else
    .ok (100 + seriesLoop 0 0 p.D (R / p.R0 - 1.6172))

/-- The `Converter` object built by
`NiResistConverter(R0, A, B, C, D, base_low, base_hi)`. -/
noncomputable def NiResistConverter (p : RtdParams) (lo hi : ℝ) : Conv where
  fromBaseRaw := fun t => .ok (niFromBaseRaw p t)
  toBaseRaw := niToBaseRaw p
  base_low := some lo
  base_hi := some hi
  converted_low := some (niFromBaseRaw p lo)
  converted_hi := some (niFromBaseRaw p hi)

/-- The coefficients of the `P100_Ohm`/`P50_Ohm` converters
(`ThermoResistor._get_converters`, alpha = 0.00391), parametrised by `R0`. -/
noncomputable def pParams (R0 : ℝ) : RtdParams where
  R0 := R0
  A := 3.9690e-3
  B := -5.841e-7
  C := -4.330e-12
  D := [251.903, 8.80035, -2.91506, 1.67611]

/-- The coefficients of the `Pt100_Ohm`/`Pt50_Ohm` converters
(`ThermoResistor._get_converters`, alpha = 0.00385), parametrised by `R0`. -/
noncomputable def ptParams (R0 : ℝ) : RtdParams where
  R0 := R0
  A := 3.9083e-3
  B := -5.775e-7
  C := -4.183e-12
  D := [255.819, 9.14550, -2.92363, 1.79090]

/-- The coefficients of the `Cu100_Ohm` converter. -/
noncomputable def cuParams : RtdParams where
  R0 := 100
  A := 4.28e-3
  B := -6.2032e-7
  C := 8.5154e-10
  D := [233.87, 7.9370, -2.0062, -0.3953]

/-- The coefficients of the `Ni100_Ohm` converter. -/
noncomputable def niParams : RtdParams where
  R0 := 100
  A := 5.4963e-3
  B := 6.7556e-6
  C := 9.2004e-9
  D := [144.096, -25.502, 4.4876]

/-- The `Measure` subtypes of `measure.py` (`Temperature`, `Pressure`,
`MassFlow`, `ThermoResistor`, `AnalogSensorMeasure`). -/
inductive MKind where
  | temperature
  | pressure
  | massFlow
  | thermoResistor
  | analogSensor
deriving DecidableEq, Repr

/-- All members of the `SupportedUnits` enumerations of the five `Measure`
subtypes, prefixed by subtype. -/
inductive MUnit where
  | tC | tF | tK
  | pPa | pkPa | pMPa | pKgsSm2 | pKgsM2 | pBar | pMmHg | pMmH2O | pMH2O | pAtm
  | fKgH | fTH | fKgD | fKgS | fTS
  | rC | rF | rK | rP100 | rP50 | rPt100 | rPt50 | rNi100 | rCu100
  | aPersent | aMA420 | aMA020 | aV15 | aMEASURE
deriving DecidableEq, Repr

/-- The subtype owning each unit. -/
def unitKind : MUnit → MKind
  | .tC | .tF | .tK => .temperature
  | .pPa | .pkPa | .pMPa | .pKgsSm2 | .pKgsM2 | .pBar | .pMmHg | .pMmH2O
  | .pMH2O | .pAtm => .pressure
  | .fKgH | .fTH | .fKgD | .fKgS | .fTS => .massFlow
  | .rC | .rF | .rK | .rP100 | .rP50 | .rPt100 | .rPt50 | .rNi100
  | .rCu100 => .thermoResistor
  | .aPersent | .aMA420 | .aMA020 | .aV15 | .aMEASURE => .analogSensor

/-- The `base_unit` set by each subtype's `_set_base_unit`. -/
def baseUnitOf : MKind → MUnit
  | .temperature => .tC
  | .pressure => .pPa
  | .massFlow => .fKgH
  | .thermoResistor => .rC
  | .analogSensor => .aPersent

/-- Models `Temperature._get_converters`. -/
noncomputable def temperatureRegistry : MUnit → Option Conv
  | .tC => some (LinearConverter 1 0 none none)
  | .tF => some (LinearConverter 1.8 32 none none)
  | .tK => some (LinearConverter 1 273.15 none none)
  | _ => none

/-- Models `Pressure._get_converters`. -/
noncomputable def pressureRegistry : MUnit → Option Conv
  | .pPa => some (MultConverter 1)
  | .pkPa => some (MultConverter 1e-3)
  | .pMPa => some (MultConverter 1e-6)
  | .pKgsSm2 => some (MultConverter 0.000000010197162)
  | .pKgsM2 => some (MultConverter 0.10197162)
  | .pBar => some (MultConverter 0.00001)
  | .pMmHg => some (MultConverter 0.0075006158)
  | .pMmH2O => some (MultConverter 0.10197162)
  | .pMH2O => some (MultConverter 0.00010197162)
  | .pAtm => some (MultConverter 0.0000098692327)
  | _ => none

/-- Models `MassFlow._get_converters`. -/
noncomputable def massFlowRegistry : MUnit → Option Conv
  | .fKgH => some (MultConverter 1)
  | .fTH => some (MultConverter 0.001)
  | .fKgD => some (MultConverter 24)
  | .fKgS => some (MultConverter (1/3600))
  | .fTS => some (MultConverter (0.001/3600))
  | _ => none

/-- Models `ThermoResistor._get_converters` (the resistance-curve converters
are constructed with their default `base_low`/`base_hi`). -/
noncomputable def thermoResistorRegistry : MUnit → Option Conv
  | .rC => some (MultConverter 1)
  | .rF => some (LinearConverter 1.8 32 none none)
  | .rK => some (LinearConverter 1 273.15 none none)
  | .rP100 => some (PtResistConverter (pParams 100) (-200) 850)
  | .rP50 => some (PtResistConverter (pParams 50) (-200) 850)
  | .rPt100 => some (PtResistConverter (ptParams 100) (-200) 850)
  | .rPt50 => some (PtResistConverter (ptParams 50) (-200) 850)
  | .rNi100 => some (NiResistConverter niParams (-60) 180)
  | .rCu100 => some (CuResistConverter cuParams (-180) 200)
  | _ => none

/-- Models `AnalogSensorMeasure._get_converters`, reading the already swapped
instance attributes `self.measure_scale_low` and `self.measure_scale_hi`
(see `analogInit`).  Building the dictionary constructs the `MEASURE`
`LinearConverter`, whose zero-coefficient guard fails when the two scale
attributes coincide. -/
noncomputable def analogRegistry (scaleLowAttr scaleHiAttr : ℝ) :
    Except PyErr (MUnit → Option Conv) :=
  match mkLinearConverter ((scaleLowAttr - scaleHiAttr) / 100) scaleHiAttr
      none none with
  | .error e => .error e
  | .ok measureConv => .ok (fun u =>
      match u with
      | .aPersent => some (MultConverter 1)
      | .aMA420 => some (LinearConverter 0.16 4 none none)
      | .aMA020 => some (LinearConverter 0.2 0 none none)
      | .aV15 => some (LinearConverter 0.04 1 none none)
      | .aMEASURE => some measureConv
      | _ => none)

/-- The registry of the four subtypes whose `__init__` takes `(value, unit)`
alone. -/
noncomputable def fixedRegistry : MKind → MUnit → Option Conv
  | .temperature => temperatureRegistry
  | .pressure => pressureRegistry
  | .massFlow => massFlowRegistry
  | .thermoResistor => thermoResistorRegistry
  | .analogSensor => fun _ => none

/-- A constructed `Measure` instance: `value`, `unit`, `base_value`, plus the
`measure_scale_low`/`measure_scale_hi` attributes that only
`AnalogSensorMeasure.__init__` sets (zero for the other subtypes). -/
structure MState where
  kind : MKind
  value : ℝ
  unit : MUnit
  base_value : ℝ
  measure_scale_low : ℝ := 0
  measure_scale_hi : ℝ := 0

/-- Models `Measure.__init__(value, unit)` for the four subtypes whose
constructor takes `(value, unit)`: look up the unit's converter, compute
`base_value = converter.to_base(value)`. -/
noncomputable def mkMeasure (k : MKind) (value : ℝ) (unit : MUnit) :
    Except PyErr MState :=
  match fixedRegistry k unit with
  | none => .error .keyLookup
  | some c =>
    match c.to_base value with
    | .error e => .error e
    | .ok b => .ok { kind := k, value := value, unit := unit, base_value := b }

/-- Models `AnalogSensorMeasure.__init__(value, unit, measure_scale_low,
measure_scale_hi, measure_eu)`.  The first argument `measureLabel` is the
current string held by the shared class-level `SupportedUnits.MEASURE.value`
`UnitsHolder`; the constructor overwrites it with `measure_eu` and the new
label is returned alongside the instance.  Note the source assigns the
arguments swapped: `self.measure_scale_low = measure_scale_hi` and
`self.measure_scale_hi = measure_scale_low`. -/
noncomputable def analogInit (_measureLabel : String) (value : ℝ) (unit : MUnit)
    (measure_scale_low measure_scale_hi : ℝ) (measure_eu : String) :
    Except PyErr (String × MState) :=
  let lowAttr := measure_scale_hi
  let hiAttr := measure_scale_low
  let newLabel := measure_eu
  match analogRegistry lowAttr hiAttr with
  | .error e => .error e
  | .ok reg =>
    match reg unit with
    | none => .error .keyLookup
    | some c =>
      match c.to_base value with
      | .error e => .error e
      | .ok b => .ok (newLabel,
          { kind := .analogSensor, value := value, unit := unit,
            base_value := b, measure_scale_low := lowAttr,
            measure_scale_hi := hiAttr })

/-- Models `Measure.convert_to(unit)` for the four `(value, unit)` subtypes:
`converter = self._converters[unit]`, `converted_value =
converter.from_base(self.base_value)`, then
`self.__class__(converted_value, unit)`. -/
noncomputable def convertTo (m : MState) (unit : MUnit) : Except PyErr MState :=
  match fixedRegistry m.kind unit with
  | none => .error .keyLookup
  | some c =>
    match c.from_base m.base_value with
    | .error e => .error e
    | .ok v => mkMeasure m.kind v unit

/-- Models `AnalogSensorMeasure.convert_to(unit)` under the current shared
`MEASURE` label: it re-reads `self.SupportedUnits.MEASURE.value.eu` and
passes `(converted_value, unit, self.measure_scale_hi,
self.measure_scale_low, measure_eng_units)` to the constructor (the argument
swap cancels the constructor's attribute swap). -/
noncomputable def analogConvertTo (measureLabel : String) (m : MState)
    (unit : MUnit) : Except PyErr (String × MState) :=
  match analogRegistry m.measure_scale_low m.measure_scale_hi with
  | .error e => .error e
  | .ok reg =>
    match reg unit with
    | none => .error .keyLookup
    | some c =>
      match c.from_base m.base_value with
      | .error e => .error e
      | .ok v =>
        analogInit measureLabel v unit m.measure_scale_hi m.measure_scale_low
          measureLabel

/-- Models `Measure.__add__`: `TypeError` unless `other` is an instance of
`self.__class__`; otherwise `self.__class__(self.base_value +
other.base_value, self.base_unit).convert_to(self.unit)`.  For
`AnalogSensorMeasure` (which does not override `__add__`) the two-argument
call `self.__class__(result_base_value, self.base_unit)` itself raises
`TypeError`, because `AnalogSensorMeasure.__init__` requires the three
additional arguments. -/
noncomputable def measureAdd (a b : MState) : Except PyErr MState :=
  if a.kind ≠ b.kind then .error .typeMismatch
  else if a.kind = .analogSensor then .error .typeMismatch
  else
    match mkMeasure a.kind (a.base_value + b.base_value) (baseUnitOf a.kind) with
    | .error e => .error e
    | .ok s => convertTo s a.unit

/-- Models `Measure.__sub__` (same shape as `__add__` with the difference of
the base values). -/
noncomputable def measureSub (a b : MState) : Except PyErr MState :=
  if a.kind ≠ b.kind then .error .typeMismatch
  else if a.kind = .analogSensor then .error .typeMismatch
  else
    match mkMeasure a.kind (a.base_value - b.base_value) (baseUnitOf a.kind) with
    | .error e => .error e
    | .ok s => convertTo s a.unit

/-- The string stored in each `UnitsHolder` of the `SupportedUnits`
enumerations, as rendered by `Measure.__str__` via `{self.unit.value}`.
The `MEASURE` holder is shared, mutable state: its current string is the
`measureLabel` argument. -/
def unitLabel (measureLabel : String) : MUnit → String
  | .tC => ("C") | .tF => ("F") | .tK => ("K")
  | .pPa => ("Pa") | .pkPa => ("kPa") | .pMPa => ("MPa")
  | .pKgsSm2 => ("kgs/sm2") | .pKgsM2 => ("kgs/m2") | .pBar => ("bar")
  | .pMmHg => ("mm.hg") | .pMmH2O => ("mm.H2O") | .pMH2O => ("m.H2O")
  | .pAtm => ("atm")
  | .fKgH => ("kg/h") | .fTH => ("t/h") | .fKgD => ("kg/d")
  | .fKgS => ("kg/s") | .fTS => ("t/s")
  | .rC => ("C") | .rF => ("F") | .rK => ("K")
  | .rP100 | .rP50 | .rPt100 | .rPt50 | .rNi100 | .rCu100 => ("Ohms")
  | .aPersent => ("%") | .aMA420 => ("mA") | .aMA020 => ("mA")
  | .aV15 => ("V")
  | .aMEASURE => measureLabel

/-- The unit-label part of `Measure.__str__` (`f'{self.value}
{self.unit.value}'`) for an instance, under the current shared `MEASURE`
label. -/
def strUnitPart (measureLabel : String) (m : MState) : String :=
  unitLabel measureLabel m.unit

/-! Helper lemmas about `pyRound`, `round2` and `check_limits`. -/

lemma pyRound_eq_of_lt_half (n : ℤ) (x : ℝ) (h1 : (n : ℝ) ≤ x)
    (h2 : x < n + 1/2) : pyRound x = n := by
  have hf : ⌊x⌋ = n := Int.floor_eq_iff.mpr ⟨h1, by linarith⟩
  simp only [pyRound, hf]
  rw [if_pos (by linarith)]

lemma pyRound_eq_of_gt_half (n : ℤ) (x : ℝ) (h1 : (n : ℝ) + 1/2 < x)
    (h2 : x < n + 1) : pyRound x = n + 1 := by
  have hf : ⌊x⌋ = n := Int.floor_eq_iff.mpr ⟨by linarith,
    by linarith⟩
  simp only [pyRound, hf]
  rw [if_neg (by linarith), if_pos (by linarith)]

lemma pyRound_half_even (n : ℤ) (hn : Even n) : pyRound ((n : ℝ) + 1/2) = n := by
  have hf : ⌊(n : ℝ) + 1/2⌋ = n := Int.floor_eq_iff.mpr ⟨by linarith,
    by linarith⟩
  simp only [pyRound, hf]
  rw [if_neg (by norm_num), if_neg (by norm_num), if_pos hn]

lemma pyRound_intCast (n : ℤ) : pyRound (n : ℝ) = n :=
  pyRound_eq_of_lt_half n _ le_rfl (by norm_num)

lemma pyRound_le_add_one (x : ℝ) : pyRound x ≤ ⌊x⌋ + 1 := by
  unfold pyRound
  split_ifs <;> omega

lemma le_pyRound (x : ℝ) : ⌊x⌋ ≤ pyRound x := by
  unfold pyRound
  split_ifs <;> omega

lemma pyRound_mono {x y : ℝ} (hxy : x ≤ y) : pyRound x ≤ pyRound y := by
  rcases lt_or_eq_of_le (Int.floor_le_floor hxy) with hf | hf
  · have h1 := pyRound_le_add_one x
    have h2 := le_pyRound y
    omega
  · have hfr : x - ⌊x⌋ ≤ y - ⌊y⌋ := by
      rw [hf] at *
      linarith
    unfold pyRound
    rw [hf]
    split_ifs <;> first | omega | linarith

lemma round2_mono {x y : ℝ} (hxy : x ≤ y) : round2 x ≤ round2 y := by
  unfold round2
  have := pyRound_mono (show x * 100 ≤ y * 100 by linarith)
  have : (pyRound (x * 100) : ℝ) ≤ (pyRound (y * 100) : ℝ) := by exact_mod_cast this
  linarith

lemma round2_eq (n : ℤ) (x : ℝ) (h : x * 100 = (n : ℝ)) :
    round2 x = (n : ℝ) / 100 := by
  unfold round2
  rw [h, pyRound_intCast]

lemma check_limits_none (v : ℝ) : check_limits v none none = .ok () := by
  simp [check_limits]

lemma check_limits_ok_round {v lo hi : ℝ} (hl : round2 lo ≤ round2 v)
    (hh : round2 v ≤ round2 hi) :
    check_limits v (some lo) (some hi) = .ok () := by
  simp only [check_limits]
  rw [if_neg (not_lt.mpr hl), if_neg (not_lt.mpr hh)]

lemma check_limits_ok_of_le {v lo hi : ℝ} (hl : lo ≤ v) (hh : v ≤ hi) :
    check_limits v (some lo) (some hi) = .ok () :=
  check_limits_ok_round (round2_mono hl) (round2_mono hh)

lemma check_limits_low {v l : ℝ} (hi : Option ℝ)
    (h : round2 v < round2 l) :
    check_limits v (some l) hi = .error .valueLow := by
  simp only [check_limits]
  rw [if_pos h]

lemma check_limits_high {v l h : ℝ}
    (h1 : ¬ round2 v < round2 l) (h2 : round2 h < round2 v) :
    check_limits v (some l) (some h) = .error .valueHigh := by
  simp only [check_limits]
  rw [if_neg h1, if_pos h2]

/-! Helper lemmas for the series loop and further rounding facts. -/

lemma seriesLoop_eq_sum (D : List ℝ) (x : ℝ) : ∀ (i : ℕ) (t : ℝ),
    seriesLoop i t D x =
      t + ∑ j ∈ Finset.range D.length, D.getD j 0 * x ^ (i + j + 1) := by
  induction D with
  | nil => intro i t; simp [seriesLoop]
  | cons d ds ih =>
    intro i t
    rw [seriesLoop, ih, List.length_cons, Finset.sum_range_succ']
    simp only [List.getD_cons_succ, List.getD_cons_zero]
    have he : ∀ j : ℕ, i + 1 + j + 1 = i + (j + 1) + 1 := fun j => by omega
    simp only [he]
    ring

lemma pyRound_half_odd (n : ℤ) (hn : ¬ Even n) :
    pyRound ((n : ℝ) + 1/2) = n + 1 := by
  have hf : ⌊(n : ℝ) + 1/2⌋ = n := Int.floor_eq_iff.mpr ⟨by linarith, by linarith⟩
  simp only [pyRound, hf]
  rw [if_neg (by norm_num), if_neg (by norm_num), if_neg hn]

lemma round2_zero : round2 0 = 0 := by
  rw [round2_eq 0 0 (by norm_num)]
  norm_num

lemma round2_low_bound_iff {ε : ℝ} (hε : 0 < ε) :
    round2 (0 - ε) < round2 0 ↔ 1/200 < ε := by
  rw [round2_zero]
  constructor
  · intro h
    by_contra hc
    push_neg at hc
    have h0 : pyRound ((0 - ε) * 100) = 0 := by
      rcases eq_or_lt_of_le hc with he | hlt
      · have : (0 - ε) * 100 = ((-1 : ℤ) : ℝ) + 1/2 := by rw [he]; push_cast; ring
        rw [this, pyRound_half_odd (-1) (by decide)]
        norm_num
      · have := pyRound_eq_of_gt_half (-1) ((0 - ε) * 100)
          (by push_cast; linarith) (by push_cast; linarith)
        omega
    rw [round2, h0] at h
    norm_num at h
  · intro h
    rcases lt_or_le ((0 - ε) * 100) (-1) with hlt | hge
    · have hfl : ⌊(0 - ε) * 100⌋ < -1 := by
        rw [Int.floor_lt]
        push_cast
        linarith
      have := pyRound_le_add_one ((0 - ε) * 100)
      rw [round2]
      have hle : pyRound ((0 - ε) * 100) ≤ -1 := by omega
      have : (pyRound ((0 - ε) * 100) : ℝ) ≤ -1 := by exact_mod_cast hle
      nlinarith
    · rcases eq_or_lt_of_le hge with he | hlt
      · rw [round2, show (0 - ε) * 100 = ((-1 : ℤ) : ℝ) from by rw [← he]; norm_num,
          pyRound_intCast]
        norm_num
      · have := pyRound_eq_of_lt_half (-1) ((0 - ε) * 100)
          (by push_cast; linarith) (by push_cast; linarith)
        rw [round2, this]
        norm_num

lemma round2_five : round2 5 = 5 := by
  rw [round2_eq 500 5 (by norm_num)]
  norm_num

lemma round2_hi_bound_iff {ε : ℝ} (hε : 0 < ε) :
    round2 5 < round2 (5 + ε) ↔ 1/200 < ε := by
  rw [round2_five]
  constructor
  · intro h
    by_contra hc
    push_neg at hc
    have h0 : pyRound ((5 + ε) * 100) = 500 := by
      rcases eq_or_lt_of_le hc with he | hlt
      · have : (5 + ε) * 100 = ((500 : ℤ) : ℝ) + 1/2 := by rw [he]; push_cast; ring
        rw [this, pyRound_half_even 500 (by decide)]
      · exact pyRound_eq_of_lt_half 500 ((5 + ε) * 100)
          (by push_cast; linarith) (by push_cast; linarith)
    rw [round2, h0] at h
    norm_num at h
  · intro h
    rcases lt_or_le ((5 + ε) * 100) 501 with hlt | hge
    · have := pyRound_eq_of_gt_half 500 ((5 + ε) * 100)
        (by push_cast; linarith) (by push_cast; linarith)
      rw [round2, this]
      norm_num
    · have hfl : (501 : ℤ) ≤ ⌊(5 + ε) * 100⌋ := by
        rw [Int.le_floor]
        push_cast
        linarith
      have := le_pyRound ((5 + ε) * 100)
      rw [round2]
      have hle : (501 : ℤ) ≤ pyRound ((5 + ε) * 100) := by omega
      have : (501 : ℝ) ≤ (pyRound ((5 + ε) * 100) : ℝ) := by exact_mod_cast hle
      nlinarith

/-- C2: for every platinum resistance-curve converter, `_to_base` branches on
the ratio `R/R0`: for `R/R0 >= 1` (and a nonnegative discriminant, so that
`math.sqrt` is defined) it returns exactly
`(sqrt(A^2 - 4*B*(1 - R/R0)) - A)/(2*B)`, and for `R/R0 < 1` it returns the
full power series `sum_i D_i * (R/R0 - 1)^(i+1)` over the whole coefficient
tuple `D`, in ascending power order with no early termination. -/
theorem claim_C2 (p : RtdParams) (R : ℝ) :
    (1 ≤ R / p.R0 → 0 ≤ p.A ^ 2 - 4 * p.B * (1 - R / p.R0) →
      ptToBaseRaw p R =
        .ok ((Real.sqrt (p.A ^ 2 - 4 * p.B * (1 - R / p.R0)) - p.A) /
          (2 * p.B))) ∧
    (R / p.R0 < 1 →
      ptToBaseRaw p R =
        .ok (∑ j ∈ Finset.range p.D.length,
          p.D.getD j 0 * (R / p.R0 - 1) ^ (j + 1))) := by
  constructor
  · intro h1 h2
    rw [ptToBaseRaw, if_pos h1, mathSqrt, if_neg (not_lt.mpr h2)]
  · intro h
    rw [ptToBaseRaw, if_neg (not_le.mpr h), seriesLoop_eq_sum]
    simp only [Nat.zero_add, zero_add]

/-- Witness for C2 at the `Pt100` coefficients: the quadratic branch at
`R = 200` and the series branch at `R = 80`. -/
theorem claim_C2_witness :
    (ptToBaseRaw (ptParams 100) 200 =
      .ok ((Real.sqrt ((ptParams 100).A ^ 2 -
        4 * (ptParams 100).B * (1 - 200 / (ptParams 100).R0)) -
          (ptParams 100).A) / (2 * (ptParams 100).B))) ∧
    (ptToBaseRaw (ptParams 100) 80 =
      .ok (∑ j ∈ Finset.range (ptParams 100).D.length,
        (ptParams 100).D.getD j 0 * (80 / (ptParams 100).R0 - 1) ^ (j + 1))) :=
  ⟨(claim_C2 (ptParams 100) 200).1 (by simp [ptParams]; norm_num)
      (by simp [ptParams]; norm_num),
    (claim_C2 (ptParams 100) 80).2 (by simp [ptParams]; norm_num)⟩

/-- Counterexample to C3: for the bounded converter
`LinearConverter(1, 2, base_low=0, base_hi=5)` of the repository's test
suite and `epsilon = 1/1000 > 0`, `from_base(base_low - epsilon)` does not
raise: the comparison rounds both sides to 2 decimals, `round2 (-0.001) = 0`
equals `round2 0`, and the call returns `1.999`. -/
theorem claim_C3_counterexample :
    (0 : ℝ) < 1/1000 ∧
    (LinearConverter 1 2 (some 0) (some 5)).from_base (0 - 1/1000) =
      .ok (1999/1000) := by
  refine ⟨by norm_num, ?_⟩
  have h0 : round2 (0 - 1/1000) = 0 := by
    have := pyRound_eq_of_gt_half (-1) ((0 - 1/1000) * 100)
      (by norm_num) (by norm_num)
    rw [round2, this]
    norm_num
  have hck : check_limits (0 - 1/1000) (some 0) (some 5) = .ok () :=
    check_limits_ok_round (by rw [h0, round2_zero]) (by rw [h0, round2_five]; norm_num)
  simp only [Conv.from_base, LinearConverter, hck]
  norm_num

/-- C3 amended: for the bounded test converter
`LinearConverter(1, 2, base_low=0, base_hi=5)`, `from_base(base_low - ε)`
and `from_base(base_hi + ε)` raise the range `ValueError` exactly when
`ε > 1/200` (for smaller `ε` the value and the bound round to the same 2
decimals, so the call succeeds); calls exactly at the bounds succeed. -/
theorem claim_C3_amended (ε : ℝ) (hε : 0 < ε) :
    ((LinearConverter 1 2 (some 0) (some 5)).from_base (0 - ε) =
      if ε ≤ 1/200 then .ok (2 - ε) else .error .valueLow) ∧
    ((LinearConverter 1 2 (some 0) (some 5)).from_base (5 + ε) =
      if ε ≤ 1/200 then .ok (7 + ε) else .error .valueHigh) ∧
    (LinearConverter 1 2 (some 0) (some 5)).from_base 0 = .ok 2 ∧
    (LinearConverter 1 2 (some 0) (some 5)).from_base 5 = .ok 7 := by
  refine ⟨?_, ?_, ?_, ?_⟩
  · rcases le_or_lt ε (1/200) with hle | hgt
    · rw [if_pos hle]
      have hlow : ¬ round2 (0 - ε) < round2 0 := by
        rw [round2_low_bound_iff hε]
        linarith
      have hhi : round2 (0 - ε) ≤ round2 5 :=
        round2_mono (by linarith)
      have hck : check_limits (0 - ε) (some 0) (some 5) = .ok () := by
        simp only [check_limits]
        rw [if_neg hlow, if_neg (not_lt.mpr hhi)]
      simp only [Conv.from_base, LinearConverter, hck]
      norm_num
      ring
    · rw [if_neg (not_le.mpr hgt)]
      have hlow : round2 (0 - ε) < round2 0 := (round2_low_bound_iff hε).mpr hgt
      have hck := @check_limits_low (0 - ε) 0 (some 5) hlow
      simp only [Conv.from_base, LinearConverter, hck]
  · rcases le_or_lt ε (1/200) with hle | hgt
    · rw [if_pos hle]
      have hhi : ¬ round2 5 < round2 (5 + ε) := by
        rw [round2_hi_bound_iff hε]
        linarith
      have hlow : round2 0 ≤ round2 (5 + ε) := round2_mono (by linarith)
      have hck : check_limits (5 + ε) (some 0) (some 5) = .ok () := by
        simp only [check_limits]
        rw [if_neg (not_lt.mpr hlow), if_neg hhi]
      simp only [Conv.from_base, LinearConverter, hck]
      norm_num
      ring
    · rw [if_neg (not_le.mpr hgt)]
      have hhi : round2 5 < round2 (5 + ε) := (round2_hi_bound_iff hε).mpr hgt
      have hlow : ¬ round2 (5 + ε) < round2 0 :=
        not_lt.mpr (round2_mono (by linarith))
      have hck := check_limits_high hlow hhi
      simp only [Conv.from_base, LinearConverter, hck]
  · have hck : check_limits (0 : ℝ) (some 0) (some 5) = .ok () :=
      check_limits_ok_of_le le_rfl (by norm_num)
    simp only [Conv.from_base, LinearConverter, hck]
    norm_num
  · have hck : check_limits (5 : ℝ) (some 0) (some 5) = .ok () :=
      check_limits_ok_of_le (by norm_num) le_rfl
    simp only [Conv.from_base, LinearConverter, hck]
    norm_num

/-- Witness for the amended C3 at `ε = 1/100`. -/
theorem claim_C3_witness :
    ((LinearConverter 1 2 (some 0) (some 5)).from_base (0 - 1/100) =
      if (1/100 : ℝ) ≤ 1/200 then .ok (2 - 1/100) else .error .valueLow) ∧
    ((LinearConverter 1 2 (some 0) (some 5)).from_base (5 + 1/100) =
      if (1/100 : ℝ) ≤ 1/200 then .ok (7 + 1/100) else .error .valueHigh) ∧
    (LinearConverter 1 2 (some 0) (some 5)).from_base 0 = .ok 2 ∧
    (LinearConverter 1 2 (some 0) (some 5)).from_base 5 = .ok 7 :=
  claim_C3_amended (1/100) (by norm_num)

lemma round2_eval_lt (n : ℤ) (x : ℝ) (h1 : (n : ℝ) ≤ x * 100)
    (h2 : x * 100 < n + 1/2) : round2 x = (n : ℝ) / 100 := by
  rw [round2, pyRound_eq_of_lt_half n _ h1 h2]

lemma round2_eval_gt (n : ℤ) (x : ℝ) (h1 : (n : ℝ) + 1/2 < x * 100)
    (h2 : x * 100 < n + 1) : round2 x = ((n : ℝ) + 1) / 100 := by
  rw [round2, pyRound_eq_of_gt_half n _ h1 h2]
  push_cast
  ring

/-- Counterexample to C6: the nickel backward branch does not switch exactly
at the resistance at 100 °C.  The code's threshold is the literal `161.72`,
but `_from_base(100) = 161.7186`: at `R = 161.719` the resistance exceeds
the resistance at 100 °C, yet `_to_base` still takes the quadratic
square-root branch (not the fitted series). -/
theorem claim_C6_counterexample :
    niFromBaseRaw niParams 100 < 161.719 ∧ (161.719 : ℝ) ≤ 161.72 ∧
    niToBaseRaw niParams 161.719 =
      .ok ((Real.sqrt (niParams.A ^ 2 -
        4 * niParams.B * (1 - 161.719 / niParams.R0)) - niParams.A) /
          (2 * niParams.B)) := by
  refine ⟨?_, by norm_num, ?_⟩
  · rw [niFromBaseRaw, if_pos (by norm_num)]
    simp only [niParams]
    norm_num
  · rw [niToBaseRaw, if_pos (by norm_num), mathSqrt,
      if_neg (by simp only [niParams]; norm_num)]

/-- C6 amended: the nickel forward conversion has its breakpoint at 100 °C,
with the 2-term quadratic below and the 3-term polynomial (extra
`C*(t-100)*t^2` term) above; the backward conversion switches to the fitted
series exactly when the resistance exceeds the literal `161.72`, which is
the resistance at 100 °C (`161.7186` ohms) rounded to 2 decimals — not the
exact resistance at 100 °C, and not `R0`. -/
theorem claim_C6_amended :
    (∀ t : ℝ, -60 ≤ t → t ≤ 100 →
      niFromBaseRaw niParams t =
        niParams.R0 * (1 + niParams.A * t + niParams.B * t ^ 2)) ∧
    (∀ t : ℝ, 100 < t →
      niFromBaseRaw niParams t =
        niParams.R0 * (1 + niParams.A * t + niParams.B * t ^ 2 +
          niParams.C * (t - 100) * t ^ 2)) ∧
    (∀ R : ℝ, 161.72 < R →
      niToBaseRaw niParams R =
        .ok (100 + seriesLoop 0 0 niParams.D (R / niParams.R0 - 1.6172))) ∧
    (∀ R : ℝ, R ≤ 161.72 →
      0 ≤ niParams.A ^ 2 - 4 * niParams.B * (1 - R / niParams.R0) →
      niToBaseRaw niParams R =
        .ok ((Real.sqrt (niParams.A ^ 2 -
          4 * niParams.B * (1 - R / niParams.R0)) - niParams.A) /
            (2 * niParams.B))) ∧
    niFromBaseRaw niParams 100 = 808593/5000 ∧
    round2 (niFromBaseRaw niParams 100) = 161.72 ∧
    niFromBaseRaw niParams 100 ≠ 161.72 := by
  have hval : niFromBaseRaw niParams 100 = 808593/5000 := by
    rw [niFromBaseRaw, if_pos (by norm_num)]
    simp only [niParams]
    norm_num
  refine ⟨?_, ?_, ?_, ?_, hval, ?_, ?_⟩
  · intro t h1 h2
    rw [niFromBaseRaw, if_pos ⟨h1, h2⟩]
  · intro t h
    rw [niFromBaseRaw, if_neg (by intro hc; linarith [hc.2])]
  · intro R h
    rw [niToBaseRaw, if_neg (not_le.mpr h)]
  · intro R h1 h2
    rw [niToBaseRaw, if_pos h1, mathSqrt, if_neg (not_lt.mpr h2)]
  · rw [hval, round2_eval_gt 16171 _ (by norm_num) (by norm_num)]
    norm_num
  · rw [hval]
    norm_num

/-- Witness for the amended C6: the quadratic branch at `t = 50`, the 3-term
branch at `t = 150`, the series branch at `R = 200`, and the square-root
branch at `R = 100`. -/
theorem claim_C6_witness :
    niFromBaseRaw niParams 50 =
      niParams.R0 * (1 + niParams.A * 50 + niParams.B * 50 ^ 2) ∧
    niFromBaseRaw niParams 150 =
      niParams.R0 * (1 + niParams.A * 150 + niParams.B * 150 ^ 2 +
        niParams.C * (150 - 100) * 150 ^ 2) ∧
    niToBaseRaw niParams 200 =
      .ok (100 + seriesLoop 0 0 niParams.D (200 / niParams.R0 - 1.6172)) ∧
    niToBaseRaw niParams 100 =
      .ok ((Real.sqrt (niParams.A ^ 2 -
        4 * niParams.B * (1 - 100 / niParams.R0)) - niParams.A) /
          (2 * niParams.B)) :=
  ⟨claim_C6_amended.1 50 (by norm_num) (by norm_num),
    claim_C6_amended.2.1 150 (by norm_num),
    claim_C6_amended.2.2.1 200 (by norm_num),
    claim_C6_amended.2.2.2.1 100 (by norm_num)
      (by simp only [niParams]; norm_num)⟩

/-- Counterexample to C7: at `R = 800` on the `Pt100` converter the ratio
`R/R0 = 8 >= 1` and the discriminant `A^2 - 4*B*(1 - R/R0)` is negative,
yet the backward conversion does not raise a MathDomainError: the public
`to_base` rejects the value with the range `ValueError('Value must be <=
…')` (any discriminant-negative resistance lies far above the converted
upper bound), performing no discriminant detection of its own. -/
theorem claim_C7_counterexample :
    1 ≤ (800 : ℝ) / (ptParams 100).R0 ∧
    (ptParams 100).A ^ 2 -
      4 * (ptParams 100).B * (1 - 800 / (ptParams 100).R0) < 0 ∧
    (PtResistConverter (ptParams 100) (-200) 850).to_base 800 =
      .error .valueHigh := by
  refine ⟨by simp only [ptParams]; norm_num, by simp only [ptParams]; norm_num, ?_⟩
  have hlo : ptFromBaseRaw (ptParams 100) (-200) = 231501/12500 := by
    rw [ptFromBaseRaw, if_pos (by norm_num)]
    simp only [ptParams]
    norm_num
  have hhi : ptFromBaseRaw (ptParams 100) 850 = 3123849/8000 := by
    rw [ptFromBaseRaw, if_neg (by intro hc; linarith [hc.2])]
    simp only [ptParams]
    norm_num
  have hck : check_limits 800 (some (ptFromBaseRaw (ptParams 100) (-200)))
      (some (ptFromBaseRaw (ptParams 100) 850)) = .error .valueHigh := by
    rw [hlo, hhi]
    refine check_limits_high ?_ ?_
    · rw [round2_eq 80000 800 (by norm_num),
        round2_eval_lt 1852 _ (by norm_num) (by norm_num)]
      norm_num
    · rw [round2_eq 80000 800 (by norm_num),
        round2_eval_lt 39048 _ (by norm_num) (by norm_num)]
      norm_num
  simp only [Conv.to_base, PtResistConverter, hck]

/-- C7 amended: for every `R` with `R/R0 >= 1` and negative discriminant on
the `Pt100` converter, the public backward conversion raises the range
`ValueError` (such `R` necessarily exceeds the converted upper bound, which
is checked first), and the raw `_to_base` — reached only by bypassing the
checks — propagates the `ValueError('math domain error')` raised inside
`math.sqrt` itself: the converter code performs no discriminant detection
and raises no domain-specific error of its own. -/
theorem claim_C7_amended (R : ℝ)
    (h1 : 1 ≤ R / (ptParams 100).R0)
    (h2 : (ptParams 100).A ^ 2 -
      4 * (ptParams 100).B * (1 - R / (ptParams 100).R0) < 0) :
    (PtResistConverter (ptParams 100) (-200) 850).to_base R =
      .error .valueHigh ∧
    ptToBaseRaw (ptParams 100) R = .error .mathDomain := by
  constructor
  · have hR : (761 : ℝ) ≤ R := by
      simp only [ptParams] at h2
      nlinarith
    have hlo : ptFromBaseRaw (ptParams 100) (-200) = 231501/12500 := by
      rw [ptFromBaseRaw, if_pos (by norm_num)]
      simp only [ptParams]
      norm_num
    have hhi : ptFromBaseRaw (ptParams 100) 850 = 3123849/8000 := by
      rw [ptFromBaseRaw, if_neg (by intro hc; linarith [hc.2])]
      simp only [ptParams]
      norm_num
    have h761 : round2 (761 : ℝ) = 761 := by
      rw [round2_eq 76100 761 (by norm_num)]
      norm_num
    have hmono := round2_mono hR
    rw [h761] at hmono
    have hck : check_limits R (some (ptFromBaseRaw (ptParams 100) (-200)))
        (some (ptFromBaseRaw (ptParams 100) 850)) = .error .valueHigh := by
      rw [hlo, hhi]
      refine check_limits_high ?_ ?_
      · rw [round2_eval_lt 1852 (231501/12500) (by norm_num) (by norm_num)]
        intro hc
        norm_num at hc
        linarith
      · rw [round2_eval_lt 39048 (3123849/8000) (by norm_num) (by norm_num)]
        norm_num
        linarith
    simp only [Conv.to_base, PtResistConverter, hck]
  · rw [ptToBaseRaw, if_pos h1, mathSqrt, if_pos h2]

/-- Witness for the amended C7 at `R = 800`. -/
theorem claim_C7_witness :
    (PtResistConverter (ptParams 100) (-200) 850).to_base 800 =
      .error .valueHigh ∧
    ptToBaseRaw (ptParams 100) 800 = .error .mathDomain :=
  claim_C7_amended 800 (by simp only [ptParams]; norm_num)
    (by simp only [ptParams]; norm_num)

/-! Helper lemmas for the analog-sensor model. -/

lemma analogRegistry_eval {lo hi : ℝ} (h : ¬ (lo - hi) / 100 = 0) :
    analogRegistry lo hi = .ok (fun u =>
      match u with
      | .aPersent => some (MultConverter 1)
      | .aMA420 => some (LinearConverter 0.16 4 none none)
      | .aMA020 => some (LinearConverter 0.2 0 none none)
      | .aV15 => some (LinearConverter 0.04 1 none none)
      | .aMEASURE => some (LinearConverter ((lo - hi) / 100) hi none none)
      | _ => none) := by
  rw [analogRegistry, mkLinearConverter, if_neg h]

lemma analogInit_ok_elim {g : String} {v : ℝ} {u : MUnit} {lo hi : ℝ}
    {eu g' : String} {m : MState}
    (h : analogInit g v u lo hi eu = .ok (g', m)) :
    g' = eu ∧ m.kind = .analogSensor ∧ m.value = v ∧ m.unit = u ∧
    m.measure_scale_low = hi ∧ m.measure_scale_hi = lo := by
  simp only [analogInit] at h
  split at h
  · exact absurd h (by simp)
  · split at h
    · exact absurd h (by simp)
    · split at h
      · exact absurd h (by simp)
      · simp only [Except.ok.injEq, Prod.mk.injEq] at h
        obtain ⟨hg, hm⟩ := h
        subst hg
        subst hm
        exact ⟨rfl, rfl, rfl, rfl, rfl, rfl⟩

/-- Counterexample to C8: for an `AnalogSensorMeasure` built with caller
scale endpoints `scale_low = 50`, `scale_high = 250` at 0 percent,
`convert_to(MEASURE)` yields the engineering value `50` (the low endpoint),
whereas the converter the claim describes — `from_base` coefficient
`(scale_low - scale_high)/100` with offset `scale_high` — would yield
`0 * ((50 - 250)/100) + 250 = 250`.  The span is increasing, not inverted:
the constructor assigns its scale arguments to the swapped attributes. -/
theorem claim_C8_counterexample :
    analogInit (r"u") 0 .aPersent 50 250 (r"u") =
      .ok ((r"u"), ⟨.analogSensor, 0, .aPersent, 0, 250, 50⟩) ∧
    analogConvertTo (r"u") ⟨.analogSensor, 0, .aPersent, 0, 250, 50⟩
        .aMEASURE =
      .ok ((r"u"), ⟨.analogSensor, 50, .aMEASURE, 0, 250, 50⟩) ∧
    (50 : ℝ) ≠ 0 * ((50 - 250) / 100) + 250 := by
  have hreg := @analogRegistry_eval 250 50 (by norm_num)
  refine ⟨?_, ?_, by norm_num⟩
  · simp only [analogInit, hreg, Conv.to_base, MultConverter, LinearConverter,
      Option.map_none', check_limits_none]
    norm_num
  · simp only [analogConvertTo, analogInit, hreg, Conv.from_base, Conv.to_base,
      MultConverter, LinearConverter, Option.map_none', check_limits_none]
    norm_num

/-- C8 amended: because `AnalogSensorMeasure.__init__` assigns
`self.measure_scale_low = measure_scale_hi` and `self.measure_scale_hi =
measure_scale_low`, the engineering-units converter built for caller
endpoints `(scale_low, scale_high)` is the Linear converter with `from_base`
coefficient `(scale_high - scale_low)/100` and offset `scale_low`: the
engineering value increases with the percent base value whenever
`scale_low < scale_high` (the normal 0-100 percent span, matching the
repository's tests), and the instance's attributes hold the endpoints
swapped. -/
theorem claim_C8_amended (g : String) (v : ℝ) (u : MUnit) (lo hi : ℝ)
    (eu : String) (hne : hi ≠ lo) :
    (∃ reg, analogRegistry hi lo = .ok reg ∧
      reg .aMEASURE = some (LinearConverter ((hi - lo) / 100) lo none none)) ∧
    (∀ b : ℝ, (LinearConverter ((hi - lo) / 100) lo none none).fromBaseRaw b =
      .ok (b * ((hi - lo) / 100) + lo)) ∧
    (∀ g' m, analogInit g v u lo hi eu = .ok (g', m) →
      m.measure_scale_low = hi ∧ m.measure_scale_hi = lo) ∧
    (lo < hi → StrictMono (fun b : ℝ => b * ((hi - lo) / 100) + lo)) := by
  have hc : ¬ (hi - lo) / 100 = 0 := by
    rw [div_eq_zero_iff]
    push_neg
    exact ⟨sub_ne_zero.mpr hne, by norm_num⟩
  refine ⟨⟨_, analogRegistry_eval hc, rfl⟩, fun b => rfl, ?_, ?_⟩
  · intro g' m h
    exact ⟨(analogInit_ok_elim h).2.2.2.2.1, (analogInit_ok_elim h).2.2.2.2.2⟩
  · intro hlt b1 b2 hb
    simp only
    have h0 : 0 < (hi - lo) / 100 := div_pos (by linarith) (by norm_num)
    nlinarith

/-- C10: `AnalogSensorMeasure.__init__` writes its `measure_eu` argument
into the shared class-level `SupportedUnits.MEASURE.value` label object, so
after a second instance is constructed with a different label, a previously
constructed instance's string rendering (when its unit is `MEASURE`) and its
`convert_to(MEASURE)` observe the most recently supplied label, not the
label the earlier instance was constructed with. -/
theorem claim_C10 (g0 : String) (v1 : ℝ) (u1 : MUnit) (lo1 hi1 : ℝ)
    (eu1 : String) (v2 : ℝ) (u2 : MUnit) (lo2 hi2 : ℝ) (eu2 : String)
    (g1 g2 : String) (m1 m2 : MState)
    (h1 : analogInit g0 v1 u1 lo1 hi1 eu1 = .ok (g1, m1))
    (h2 : analogInit g1 v2 u2 lo2 hi2 eu2 = .ok (g2, m2))
    (hne : eu1 ≠ eu2) :
    g1 = eu1 ∧ g2 = eu2 ∧
    (m1.unit = .aMEASURE →
      strUnitPart g2 m1 = eu2 ∧ strUnitPart g2 m1 ≠ eu1) ∧
    (∀ g3 m3, analogConvertTo g2 m1 .aMEASURE = .ok (g3, m3) →
      g3 = eu2 ∧ m3.unit = .aMEASURE ∧ strUnitPart g3 m3 = eu2) := by
  have e1 := (analogInit_ok_elim h1).1
  have e2 := (analogInit_ok_elim h2).1
  subst e1
  subst e2
  refine ⟨rfl, rfl, ?_, ?_⟩
  · intro hu
    rw [strUnitPart, hu]
    exact ⟨rfl, hne.symm⟩
  · intro g3 m3 hc
    simp only [analogConvertTo] at hc
    split at hc
    · exact absurd hc (by simp)
    · split at hc
      · exact absurd hc (by simp)
      · split at hc
        · exact absurd hc (by simp)
        · have e3 := analogInit_ok_elim hc
          refine ⟨e3.1, e3.2.2.2.1, ?_⟩
          rw [strUnitPart, e3.2.2.2.1, e3.1]
          rfl

/-- Witness for C10: two concrete constructions with labels `kPa` then
`bar`; the first instance, converted to `MEASURE`, renders with `bar`. -/
theorem claim_C10_witness :
    ((r"kPa") : String) = (r"kPa") ∧
    ((r"bar") : String) = (r"bar") ∧
    ((⟨.analogSensor, 0, .aMEASURE, 0, 100, 0⟩ : MState).unit = .aMEASURE →
      strUnitPart (r"bar") ⟨.analogSensor, 0, .aMEASURE, 0, 100, 0⟩ = (r"bar") ∧
      strUnitPart (r"bar") ⟨.analogSensor, 0, .aMEASURE, 0, 100, 0⟩ ≠ (r"kPa")) ∧
    (∀ g3 m3,
      analogConvertTo (r"bar") ⟨.analogSensor, 0, .aMEASURE, 0, 100, 0⟩
          .aMEASURE = .ok (g3, m3) →
      g3 = (r"bar") ∧ m3.unit = .aMEASURE ∧ strUnitPart g3 m3 = (r"bar")) := by
  have hreg := @analogRegistry_eval 100 0 (by norm_num)
  have hinit1 : analogInit (r"a") 0 .aMEASURE 0 100 (r"kPa") =
      .ok ((r"kPa"), ⟨.analogSensor, 0, .aMEASURE, 0, 100, 0⟩) := by
    simp only [analogInit, hreg, Conv.to_base, MultConverter, LinearConverter,
      Option.map_none', check_limits_none]
    norm_num
  have hinit2 : analogInit (r"kPa") 0 .aMEASURE 0 100 (r"bar") =
      .ok ((r"bar"), ⟨.analogSensor, 0, .aMEASURE, 0, 100, 0⟩) := by
    simp only [analogInit, hreg, Conv.to_base, MultConverter, LinearConverter,
      Option.map_none', check_limits_none]
    norm_num
  exact claim_C10 (r"a") 0 .aMEASURE 0 100 (r"kPa") 0 .aMEASURE 0 100 (r"bar")
    (r"kPa") (r"bar") ⟨.analogSensor, 0, .aMEASURE, 0, 100, 0⟩
    ⟨.analogSensor, 0, .aMEASURE, 0, 100, 0⟩ hinit1 hinit2 (by decide)

/-! Helper lemmas for the measure layer. -/

lemma mkMeasure_ok_elim {k : MKind} {v : ℝ} {u : MUnit} {m : MState}
    (h : mkMeasure k v u = .ok m) :
    m.kind = k ∧ m.value = v ∧ m.unit = u ∧
    ∃ c, fixedRegistry k u = some c ∧ c.to_base v = .ok m.base_value := by
  rw [mkMeasure] at h
  split at h
  next => exact absurd h (by simp)
  next c hr =>
    split at h
    next e hb => exact absurd h (by simp)
    next b hb =>
      simp only [Except.ok.injEq] at h
      subst h
      exact ⟨rfl, rfl, rfl, c, hr, hb⟩

lemma convertTo_ok_elim {m : MState} {u : MUnit} {r : MState}
    (h : convertTo m u = .ok r) :
    r.kind = m.kind ∧ r.unit = u ∧
    ∃ c, fixedRegistry m.kind u = some c ∧
      ∃ v', c.from_base m.base_value = .ok v' ∧ r.value = v' ∧
        c.to_base v' = .ok r.base_value := by
  rw [convertTo] at h
  split at h
  next => exact absurd h (by simp)
  next c hr =>
    split at h
    next e hv => exact absurd h (by simp)
    next v' hv =>
      obtain ⟨hk, hval, hu, c', hr', hb'⟩ := mkMeasure_ok_elim h
      rw [hr] at hr'
      simp only [Option.some.injEq] at hr'
      subst hr'
      exact ⟨hk, hu, c, hr, v', hv, hval, hb'⟩

lemma check_limits_cases (v : ℝ) (lo hi : Option ℝ) :
    check_limits v lo hi = .ok () ∨ check_limits v lo hi = .error .valueLow ∨
    check_limits v lo hi = .error .valueHigh := by
  unfold check_limits
  split_ifs <;> simp

/-- `c` raises no `TypeError`: the only errors its checked conversions can
produce are the range and math-domain `ValueError`s. -/
def convNoType (c : Conv) : Prop :=
  ∀ v, c.from_base v ≠ .error .typeMismatch ∧ c.to_base v ≠ .error .typeMismatch

lemma from_base_noType {c : Conv}
    (hraw : ∀ v, c.fromBaseRaw v ≠ .error .typeMismatch) (v : ℝ) :
    c.from_base v ≠ .error .typeMismatch := by
  rw [Conv.from_base]
  rcases check_limits_cases v c.base_low c.base_hi with h | h | h <;> rw [h]
  · exact hraw v
  · simp
  · simp

lemma to_base_noType {c : Conv}
    (hraw : ∀ v, c.toBaseRaw v ≠ .error .typeMismatch) (v : ℝ) :
    c.to_base v ≠ .error .typeMismatch := by
  rw [Conv.to_base]
  rcases check_limits_cases v c.converted_low c.converted_hi with h | h | h <;>
    rw [h]
  · exact hraw v
  · simp
  · simp

lemma raw_linear_noType (coeff offset : ℝ) (lo hi : Option ℝ) :
    convNoType (LinearConverter coeff offset lo hi) :=
  fun v => ⟨from_base_noType (fun _ => by simp [LinearConverter]) v,
    to_base_noType (fun _ => by simp [LinearConverter]) v⟩

lemma mathSqrt_cases (x : ℝ) :
    mathSqrt x = .ok (Real.sqrt x) ∨ mathSqrt x = .error .mathDomain := by
  rw [mathSqrt]
  split_ifs <;> simp

lemma ptToBaseRaw_noType (p : RtdParams) (R : ℝ) :
    ptToBaseRaw p R ≠ .error .typeMismatch := by
  rw [ptToBaseRaw]
  split_ifs with h
  · rcases mathSqrt_cases (p.A ^ 2 - 4 * p.B * (1 - R / p.R0)) with hs | hs <;>
      rw [hs] <;> simp
  · simp

lemma pt_noType (p : RtdParams) (lo hi : ℝ) :
    convNoType (PtResistConverter p lo hi) :=
  fun v => ⟨from_base_noType (fun _ => by simp [PtResistConverter]) v,
    to_base_noType (fun w => by
      simp only [PtResistConverter]
      exact ptToBaseRaw_noType p w) v⟩

lemma niToBaseRaw_noType (p : RtdParams) (R : ℝ) :
    niToBaseRaw p R ≠ .error .typeMismatch := by
  rw [niToBaseRaw]
  split_ifs with h
  · rcases mathSqrt_cases (p.A ^ 2 - 4 * p.B * (1 - R / p.R0)) with hs | hs <;>
      rw [hs] <;> simp
  · simp

lemma ni_noType (p : RtdParams) (lo hi : ℝ) :
    convNoType (NiResistConverter p lo hi) :=
  fun v => ⟨from_base_noType (fun _ => by simp [NiResistConverter]) v,
    to_base_noType (fun w => by
      simp only [NiResistConverter]
      exact niToBaseRaw_noType p w) v⟩

lemma cuFromBaseRaw_noType (p : RtdParams) (lo hi t : ℝ) :
    cuFromBaseRaw p lo hi t ≠ .error .typeMismatch := by
  rw [cuFromBaseRaw]
  rcases check_limits_cases t (some lo) (some hi) with h | h | h <;> rw [h]
  · split_ifs <;> simp
  · simp
  · simp

lemma cuToBaseRaw_noType (p : RtdParams) (clo chi R : ℝ) :
    cuToBaseRaw p clo chi R ≠ .error .typeMismatch := by
  rw [cuToBaseRaw]
  rcases check_limits_cases R (some clo) (some chi) with h | h | h <;> rw [h]
  · split_ifs <;> simp
  · simp
  · simp

lemma cu_noType (p : RtdParams) (lo hi : ℝ) :
    convNoType (CuResistConverter p lo hi) :=
  fun v => ⟨from_base_noType (fun w => by
      simp only [CuResistConverter]
      exact cuFromBaseRaw_noType p lo hi w) v,
    to_base_noType (fun w => by
      simp only [CuResistConverter]
      exact cuToBaseRaw_noType p _ _ w) v⟩

lemma fixedRegistry_noType {k : MKind} {u : MUnit} {c : Conv}
    (h : fixedRegistry k u = some c) : convNoType c := by
  cases k <;> cases u <;>
    simp only [fixedRegistry, temperatureRegistry, pressureRegistry,
      massFlowRegistry, thermoResistorRegistry, Option.some.injEq,
      reduceCtorEq] at h <;>
    rw [← h] <;>
    first
      | exact raw_linear_noType _ _ _ _
      | exact pt_noType _ _ _
      | exact ni_noType _ _ _
      | exact cu_noType _ _ _

lemma mkMeasure_not_type (k : MKind) (v : ℝ) (u : MUnit) :
    mkMeasure k v u ≠ .error .typeMismatch := by
  rw [mkMeasure]
  split
  next => simp
  next c hr =>
    split
    next e hb =>
      have h2 := (fixedRegistry_noType hr v).2
      have hne : e ≠ .typeMismatch := fun hc => h2 (by rw [hb, hc])
      simp [hne]
    next b hb => simp

lemma convertTo_not_type (m : MState) (u : MUnit) :
    convertTo m u ≠ .error .typeMismatch := by
  rw [convertTo]
  split
  next => simp
  next c hr =>
    split
    next e hv =>
      have h2 := (fixedRegistry_noType hr m.base_value).1
      have hne : e ≠ .typeMismatch := fun hc => h2 (by rw [hv, hc])
      simp [hne]
    next v' hv => exact mkMeasure_not_type m.kind v' u

lemma linear_from_base_eval (coeff offset x : ℝ) :
    (LinearConverter coeff offset none none).from_base x =
      .ok (x * coeff + offset) := by
  simp [Conv.from_base, LinearConverter, check_limits_none]

lemma linear_to_base_eval (coeff offset x : ℝ) :
    (LinearConverter coeff offset none none).to_base x =
      .ok ((x - offset) / coeff) := by
  simp [Conv.to_base, LinearConverter, Option.map_none', check_limits_none]

lemma lin_cancel (coeff offset x : ℝ) (hc : coeff ≠ 0) :
    (x * coeff + offset - offset) / coeff = x := by
  field_simp

lemma temp_registry_cases {u : MUnit} {c : Conv}
    (h : fixedRegistry .temperature u = some c) :
    ∃ coeff offset, c = LinearConverter coeff offset none none ∧ coeff ≠ 0 := by
  cases u <;>
    simp only [fixedRegistry, temperatureRegistry, Option.some.injEq,
      reduceCtorEq] at h
  · exact ⟨1, 0, h.symm, by norm_num⟩
  · exact ⟨1.8, 32, h.symm, by norm_num⟩
  · exact ⟨1, 273.15, h.symm, by norm_num⟩

lemma measureAdd_eq (m1 m2 : MState) (hk : m1.kind = m2.kind)
    (hna : m1.kind ≠ .analogSensor) :
    measureAdd m1 m2 =
      (match mkMeasure m1.kind (m1.base_value + m2.base_value)
          (baseUnitOf m1.kind) with
        | .error e => .error e
        | .ok s => convertTo s m1.unit) := by
  rw [measureAdd, if_neg (by simp [hk]), if_neg hna]

lemma measureSub_eq (m1 m2 : MState) (hk : m1.kind = m2.kind)
    (hna : m1.kind ≠ .analogSensor) :
    measureSub m1 m2 =
      (match mkMeasure m1.kind (m1.base_value - m2.base_value)
          (baseUnitOf m1.kind) with
        | .error e => .error e
        | .ok s => convertTo s m1.unit) := by
  rw [measureSub, if_neg (by simp [hk]), if_neg hna]

lemma temp_mk_base (b : ℝ) :
    mkMeasure .temperature b .tC =
      .ok ⟨.temperature, b, .tC, b, 0, 0⟩ := by
  rw [mkMeasure]
  simp only [fixedRegistry, temperatureRegistry, linear_to_base_eval]
  norm_num

lemma temp_convert_ok (uu : MUnit) (b : ℝ) (coeff offset : ℝ)
    (hcne : coeff ≠ 0)
    (hr1 : fixedRegistry .temperature uu =
      some (LinearConverter coeff offset none none)) :
    convertTo ⟨.temperature, b, .tC, b, 0, 0⟩ uu =
      .ok ⟨.temperature, b * coeff + offset, uu, b, 0, 0⟩ := by
  rw [convertTo]
  simp only [hr1, linear_from_base_eval]
  rw [mkMeasure]
  simp only [hr1, linear_to_base_eval]
  rw [lin_cancel coeff offset b hcne]

/-- Each of the four `(value, unit)` subtypes maps its base unit through
`MultConverter(1)`, so the intermediate `self.__class__(base, base_unit)`
built by `__add__`/`__sub__` stores the combined base value unchanged. -/
lemma base_mk (k : MKind) (hk : k ≠ .analogSensor) (b : ℝ) :
    mkMeasure k b (baseUnitOf k) = .ok ⟨k, b, baseUnitOf k, b, 0, 0⟩ := by
  cases k
  case analogSensor => exact absurd rfl hk
  all_goals
    rw [mkMeasure]
    simp only [fixedRegistry, baseUnitOf, temperatureRegistry,
      pressureRegistry, massFlowRegistry, thermoResistorRegistry,
      MultConverter, linear_to_base_eval]
    norm_num

/-- Counterexample to C4: two same-subtype `AnalogSensorMeasure` instances
cannot be added at all: `Measure.__add__` re-invokes
`self.__class__(result_base_value, self.base_unit)` with two arguments, and
`AnalogSensorMeasure.__init__` requires five, so the operation raises a
`TypeError` instead of producing an instance whose `base_value` is the sum. -/
theorem claim_C4_counterexample :
    analogInit (r"u") 0 .aPersent 0 100 (r"u") =
      .ok ((r"u"), ⟨.analogSensor, 0, .aPersent, 0, 100, 0⟩) ∧
    measureAdd ⟨.analogSensor, 0, .aPersent, 0, 100, 0⟩
        ⟨.analogSensor, 0, .aPersent, 0, 100, 0⟩ = .error .typeMismatch := by
  constructor
  · have hreg := @analogRegistry_eval 100 0 (by norm_num)
    simp only [analogInit, hreg, Conv.to_base, MultConverter, LinearConverter,
      Option.map_none', check_limits_none]
    norm_num
  · rw [measureAdd, if_neg (by simp), if_pos rfl]

/-- Counterexample to C5: adding two same-subtype `AnalogSensorMeasure`
instances does not succeed: the inherited `Measure.__add__` calls
`self.__class__(result_base_value, self.base_unit)` with two arguments,
which raises a `TypeError` for the five-argument
`AnalogSensorMeasure.__init__` even though the operands have the same
subtype — so the claimed `TypeError iff different subtypes` fails. -/
theorem claim_C5_counterexample :
    analogInit (r"kPa") 12 .aMA420 0 100 (r"kPa") =
      .ok ((r"kPa"), ⟨.analogSensor, 12, .aMA420, 50, 100, 0⟩) ∧
    measureAdd ⟨.analogSensor, 12, .aMA420, 50, 100, 0⟩
        ⟨.analogSensor, 12, .aMA420, 50, 100, 0⟩ = .error .typeMismatch := by
  constructor
  · have hreg := @analogRegistry_eval 100 0 (by norm_num)
    simp only [analogInit, hreg, Conv.to_base, LinearConverter,
      Option.map_none', check_limits_none]
    norm_num
  · rw [measureAdd, if_neg (by simp), if_pos rfl]

/-- C5 amended: `__add__`/`__sub__` raise a `TypeError` exactly when the
operands are of different subtypes or both are `AnalogSensorMeasure` (whose
constructor re-invocation fails); whenever they return an instance it is of
the left operand's subtype, in the left operand's unit. -/
theorem claim_C5_amended (a b : MState) :
    (measureAdd a b = .error .typeMismatch ↔
      a.kind ≠ b.kind ∨ a.kind = .analogSensor) ∧
    (measureSub a b = .error .typeMismatch ↔
      a.kind ≠ b.kind ∨ a.kind = .analogSensor) ∧
    (∀ r, measureAdd a b = .ok r → r.kind = a.kind ∧ r.unit = a.unit) ∧
    (∀ r, measureSub a b = .ok r → r.kind = a.kind ∧ r.unit = a.unit) := by
  refine ⟨?_, ?_, ?_, ?_⟩
  · rw [measureAdd]
    split_ifs with h1 h2
    · simp [h1]
    · simp [h2]
    · constructor
      · intro hc
        exfalso
        split at hc
        next e heq =>
          simp only [Except.error.injEq] at hc
          subst hc
          exact mkMeasure_not_type _ _ _ heq
        next s heq => exact convertTo_not_type s a.unit hc
      · intro hor
        rcases hor with h | h
        · exact absurd h h1
        · exact absurd h h2
  · rw [measureSub]
    split_ifs with h1 h2
    · simp [h1]
    · simp [h2]
    · constructor
      · intro hc
        exfalso
        split at hc
        next e heq =>
          simp only [Except.error.injEq] at hc
          subst hc
          exact mkMeasure_not_type _ _ _ heq
        next s heq => exact convertTo_not_type s a.unit hc
      · intro hor
        rcases hor with h | h
        · exact absurd h h1
        · exact absurd h h2
  · intro r hr
    by_cases h1 : a.kind ≠ b.kind
    · rw [measureAdd, if_pos h1] at hr
      exact absurd hr (by simp)
    · by_cases h2 : a.kind = .analogSensor
      · rw [measureAdd, if_neg h1, if_pos h2] at hr
        exact absurd hr (by simp)
      · rw [measureAdd, if_neg h1, if_neg h2] at hr
        split at hr
        next => exact absurd hr (by simp)
        next s heq =>
          obtain ⟨hk', hu', _⟩ := convertTo_ok_elim hr
          obtain ⟨hks, _, _, _⟩ := mkMeasure_ok_elim heq
          exact ⟨by rw [hk', hks], hu'⟩
  · intro r hr
    by_cases h1 : a.kind ≠ b.kind
    · rw [measureSub, if_pos h1] at hr
      exact absurd hr (by simp)
    · by_cases h2 : a.kind = .analogSensor
      · rw [measureSub, if_neg h1, if_pos h2] at hr
        exact absurd hr (by simp)
      · rw [measureSub, if_neg h1, if_neg h2] at hr
        split at hr
        next => exact absurd hr (by simp)
        next s heq =>
          obtain ⟨hk', hu', _⟩ := convertTo_ok_elim hr
          obtain ⟨hks, _, _, _⟩ := mkMeasure_ok_elim heq
          exact ⟨by rw [hk', hks], hu'⟩

/-- Witness for the amended C5: a `Temperature` and a `Pressure` instance
raise the `TypeError`, and a same-subtype `Temperature` addition does not. -/
theorem claim_C5_witness :
    measureAdd ⟨.temperature, 10, .tC, 10, 0, 0⟩ ⟨.pressure, 1, .pPa, 1, 0, 0⟩ =
      .error .typeMismatch ∧
    ¬ measureAdd ⟨.temperature, 10, .tC, 10, 0, 0⟩
        ⟨.temperature, 20, .tC, 20, 0, 0⟩ = .error .typeMismatch := by
  constructor
  · exact (claim_C5_amended ⟨.temperature, 10, .tC, 10, 0, 0⟩
      ⟨.pressure, 1, .pPa, 1, 0, 0⟩).1.mpr (Or.inl (by simp))
  · intro hc
    rcases (claim_C5_amended ⟨.temperature, 10, .tC, 10, 0, 0⟩
      ⟨.temperature, 20, .tC, 20, 0, 0⟩).1.mp hc with h | h
    · exact h rfl
    · exact absurd h (by simp)

lemma pt100_conv_low : ptFromBaseRaw (ptParams 100) (-200) = 231501/12500 := by
  rw [ptFromBaseRaw, if_pos (by norm_num)]
  simp only [ptParams]
  norm_num

lemma pt100_conv_hi : ptFromBaseRaw (ptParams 100) 850 = 3123849/8000 := by
  rw [ptFromBaseRaw, if_neg (by intro hc; linarith [hc.2])]
  simp only [ptParams]
  norm_num

/-- Counterexample to C9: a `ThermoResistor` of `-100 C` converted to the
`Pt100_Ohm` unit yields a new instance whose `base_value` is the series
inverse of the re-projected resistance, `-100.00026086…`, not the original
base value `-100`: for RTD resistance units `convert_to` preserves the base
value only approximately. -/
theorem claim_C9_counterexample :
    mkMeasure .thermoResistor (-100) .rC =
      .ok ⟨.thermoResistor, -100, .rC, -100, 0, 0⟩ ∧
    convertTo ⟨.thermoResistor, -100, .rC, -100, 0, 0⟩ .rPt100 =
      .ok ⟨.thermoResistor, 376599/6250, .rPt100,
        -152588288679385144999606672191/1525878906250000000000000000, 0, 0⟩ ∧
    (-152588288679385144999606672191/1525878906250000000000000000 : ℝ) ≠
      -100 := by
  refine ⟨?_, ?_, by norm_num⟩
  · rw [mkMeasure]
    simp only [fixedRegistry, thermoResistorRegistry, MultConverter,
      linear_to_base_eval]
    norm_num
  · have hfrom : (PtResistConverter (ptParams 100) (-200) 850).from_base
        (-100) = .ok (376599/6250) := by
      rw [Conv.from_base]
      simp only [PtResistConverter]
      rw [check_limits_ok_of_le (by norm_num : (-200 : ℝ) ≤ -100)
        (by norm_num : (-100 : ℝ) ≤ 850)]
      rw [ptFromBaseRaw, if_pos (by norm_num)]
      simp only [ptParams]
      norm_num
    have hck : check_limits (376599/6250)
        (some (ptFromBaseRaw (ptParams 100) (-200)))
        (some (ptFromBaseRaw (ptParams 100) 850)) = .ok () := by
      rw [pt100_conv_low, pt100_conv_hi]
      refine check_limits_ok_round ?_ ?_
      · rw [round2_eval_lt 1852 (231501/12500) (by norm_num) (by norm_num),
          round2_eval_gt 6025 (376599/6250) (by norm_num) (by norm_num)]
        norm_num
      · rw [round2_eval_lt 39048 (3123849/8000) (by norm_num) (by norm_num),
          round2_eval_gt 6025 (376599/6250) (by norm_num) (by norm_num)]
        norm_num
    have hmk : mkMeasure .thermoResistor (376599/6250) .rPt100 =
        .ok ⟨.thermoResistor, 376599/6250, .rPt100,
          -152588288679385144999606672191/1525878906250000000000000000,
          0, 0⟩ := by
      rw [mkMeasure]
      simp only [fixedRegistry, thermoResistorRegistry, Conv.to_base,
        PtResistConverter, hck]
      rw [ptToBaseRaw, if_neg (by simp only [ptParams]; norm_num)]
      simp only [ptParams, seriesLoop]
      norm_num
    rw [convertTo]
    simp only [fixedRegistry, thermoResistorRegistry, hfrom, hmk]

/-- C9 amended: `convert_to(u)` returns a new instance of the same subtype
in unit `u` whose `value` is `from_base(base_value)` and whose `base_value`
is `to_base(from_base(base_value))`; the base value is preserved exactly
whenever `u`'s converter is an unbounded linear converter (all
`Temperature`, `Pressure`, `MassFlow` units and the linear `ThermoResistor`
units), but for RTD resistance units below 0 °C it is preserved only within
the fitted-series tolerance (see the counterexample). -/
theorem claim_C9_amended (m : MState) (u : MUnit) (r : MState)
    (h : convertTo m u = .ok r) :
    r.kind = m.kind ∧ r.unit = u ∧
    (∃ c, fixedRegistry m.kind u = some c ∧
      ∃ v', c.from_base m.base_value = .ok v' ∧ r.value = v' ∧
        c.to_base v' = .ok r.base_value) ∧
    (∀ coeff offset,
      fixedRegistry m.kind u = some (LinearConverter coeff offset none none) →
      coeff ≠ 0 → r.base_value = m.base_value) := by
  obtain ⟨hk, hu, c, hc, v', hv, hval, hb⟩ := convertTo_ok_elim h
  refine ⟨hk, hu, ⟨c, hc, v', hv, hval, hb⟩, ?_⟩
  intro coeff offset hreg hcz
  rw [hreg] at hc
  simp only [Option.some.injEq] at hc
  subst hc
  rw [linear_from_base_eval] at hv
  simp only [Except.ok.injEq] at hv
  rw [linear_to_base_eval] at hb
  simp only [Except.ok.injEq] at hb
  have hrb : r.base_value = (v' - offset) / coeff := hb.symm
  rw [hrb, ← hv, lin_cancel coeff offset m.base_value hcz]

/-- Witness for the amended C9: converting `Temperature(10, C)` to `F`. -/
theorem claim_C9_witness :
    (⟨.temperature, 10 * 1.8 + 32, .tF, 10, 0, 0⟩ : MState).kind =
      (⟨.temperature, 10, .tC, 10, 0, 0⟩ : MState).kind ∧
    (⟨.temperature, 10 * 1.8 + 32, .tF, 10, 0, 0⟩ : MState).unit = .tF ∧
    (∃ c, fixedRegistry (⟨.temperature, 10, .tC, 10, 0, 0⟩ : MState).kind
        .tF = some c ∧
      ∃ v', c.from_base
          (⟨.temperature, 10, .tC, 10, 0, 0⟩ : MState).base_value = .ok v' ∧
        (⟨.temperature, 10 * 1.8 + 32, .tF, 10, 0, 0⟩ : MState).value = v' ∧
        c.to_base v' =
          .ok (⟨.temperature, 10 * 1.8 + 32, .tF, 10, 0, 0⟩ :
            MState).base_value) ∧
    (∀ coeff offset,
      fixedRegistry (⟨.temperature, 10, .tC, 10, 0, 0⟩ : MState).kind .tF =
        some (LinearConverter coeff offset none none) →
      coeff ≠ 0 →
      (⟨.temperature, 10 * 1.8 + 32, .tF, 10, 0, 0⟩ : MState).base_value =
        (⟨.temperature, 10, .tC, 10, 0, 0⟩ : MState).base_value) :=
  claim_C9_amended ⟨.temperature, 10, .tC, 10, 0, 0⟩ .tF
    ⟨.temperature, 10 * 1.8 + 32, .tF, 10, 0, 0⟩
    (temp_convert_ok .tF 10 1.8 32 (by norm_num) rfl)

/-- Witness for the amended C8 at caller endpoints `(50, 250)`. -/
theorem claim_C8_witness :
    (∃ reg, analogRegistry 250 50 = .ok reg ∧
      reg .aMEASURE =
        some (LinearConverter (((250 : ℝ) - 50) / 100) 50 none none)) ∧
    (∀ b : ℝ, (LinearConverter (((250 : ℝ) - 50) / 100) 50 none
        none).fromBaseRaw b = .ok (b * ((250 - 50) / 100) + 50)) ∧
    (∀ g' m, analogInit (r"u") 0 .aPersent 50 250 (r"u") = .ok (g', m) →
      m.measure_scale_low = 250 ∧ m.measure_scale_hi = 50) ∧
    ((50 : ℝ) < 250 →
      StrictMono (fun b : ℝ => b * (((250 : ℝ) - 50) / 100) + 50)) :=
  claim_C8_amended (r"u") 0 .aPersent 50 250 (r"u") (by norm_num)

/-! Certified polynomial bounds for the fitted-series round trips.  Each
bound is proved from an exact Bernstein-form identity: the target expression
times a positive power of the interval length equals a sum of terms
`c_k * u^k * v^(n-k)` with nonnegative rational coefficients, where `u` and
`v` are the distances of `x` to the interval ends; the identity is checked
by `ring` and every summand is nonnegative on the interval. -/

/-- The fitted inverse series of the `Pt100`/`Pt50` coefficient set, as a
polynomial in `x = R/R0 - 1`. -/
noncomputable def pt385p (x : ℝ) : ℝ :=
  255.819 * x + 9.14550 * x ^ 2 + (-2.92363) * x ^ 3 + 1.79090 * x ^ 4

/-- Normalised round-trip error `_from_base(series(x))/R0 - (1 + x)` of the
`Pt100`/`Pt50` set on the negative-temperature branch. -/
noncomputable def pt385E (x : ℝ) : ℝ :=
  3.9083e-3 * pt385p x + (-5.775e-7) * (pt385p x) ^ 2 +
    (-4.183e-12) * (pt385p x - 100) * (pt385p x) ^ 3 - x

/-- The fitted inverse series of the `P100`/`P50` coefficient set. -/
noncomputable def p391p (x : ℝ) : ℝ :=
  251.903 * x + 8.80035 * x ^ 2 + (-2.91506) * x ^ 3 + 1.67611 * x ^ 4

/-- Normalised round-trip error of the `P100`/`P50` set on the
negative-temperature branch. -/
noncomputable def p391E (x : ℝ) : ℝ :=
  3.9690e-3 * p391p x + (-5.841e-7) * (p391p x) ^ 2 +
    (-4.330e-12) * (p391p x - 100) * (p391p x) ^ 3 - x

/-- The fitted inverse series of the `Cu100` coefficient set. -/
noncomputable def cuSp (x : ℝ) : ℝ :=
  233.87 * x + 7.9370 * x ^ 2 + (-2.0062) * x ^ 3 + (-0.3953) * x ^ 4

/-- Normalised round-trip error of the `Cu100` set on the
negative-temperature branch. -/
noncomputable def cuE (x : ℝ) : ℝ :=
  4.28e-3 * cuSp x + (-6.2032e-7) * cuSp x * (cuSp x + 6.7) +
    8.5154e-10 * (cuSp x) ^ 3 - x

/-- The fitted inverse series of the `Ni100` coefficient set, as a
polynomial in `x = R/R0 - 1.6172` (the temperature is `100 + niSp x`). -/
noncomputable def niSp (x : ℝ) : ℝ :=
  144.096 * x + (-25.502) * x ^ 2 + 4.4876 * x ^ 3

/-- Normalised round-trip error of the `Ni100` set on the
above-breakpoint branch. -/
noncomputable def niE (x : ℝ) : ℝ :=
  5.4963e-3 * (100 + niSp x) + 6.7556e-6 * (100 + niSp x) ^ 2 +
    9.2004e-9 * niSp x * (100 + niSp x) ^ 2 + (1 - 1.6172) - x


lemma pt385E_le (x : ℝ) (h1 : (-1018499/1250000 : ℝ) ≤ x) (h2 : x ≤ 0) :
    pt385E x ≤ 1/10000 := by
  have hu : (0:ℝ) ≤ (x + 1018499/1250000) := by linarith
  have hv : (0:ℝ) ≤ (-x) := by linarith
  have hterm : ∀ c : ℝ, 0 ≤ c → ∀ k m : ℕ,
      0 ≤ c * (x + 1018499/1250000) ^ k * (-x) ^ m :=
    fun c hc k m => mul_nonneg (mul_nonneg hc (pow_nonneg hu k)) (pow_nonneg hv m)
  have key : (1/10000 - pt385E x) * (1018499/1250000 : ℝ) ^ 16 =
      (33321736643921272094452779353160868972663807162375717488393140847807908536019237179212456058424977960498387821639944747617863/355271367880050092935562133789062500000000000000000000000000000000000000000000000000000000000000000000000000000000000000000000000 : ℝ) * (x + 1018499/1250000) ^ 0 * (-x) ^ 16 + ((1278694418324438601785342477017717124912123975660769298742814552166490163129001590831540760076673104750952016373114122459/710542735760100185871124267578125000000000000000000000000000000000000000000000000000000000000000000000000000000000000000000 : ℝ) * (x + 1018499/1250000) ^ 1 * (-x) ^ 15 + ((153902209918104657171684068902034777622553672969906105848773962274014121279210627001488402497269219520020607817817861/11368683772161602973937988281250000000000000000000000000000000000000000000000000000000000000000000000000000000000000000 : ℝ) * (x + 1018499/1250000) ^ 2 * (-x) ^ 14 + ((2689436833074148166092617006375074045021035874110953155347640029674727017707231239954911735059762197170464046991/45474735088646411895751953125000000000000000000000000000000000000000000000000000000000000000000000000000000000000 : ℝ) * (x + 1018499/1250000) ^ 3 * (-x) ^ 13 + ((258800890459785731638788599527391893830128000982392086230116672799617256148522985748622689138043392787677063/1455191522836685180664062500000000000000000000000000000000000000000000000000000000000000000000000000000000000 : ℝ) * (x + 1018499/1250000) ^ 4 * (-x) ^ 12 + ((2359559823789060301638740205645861676999621964722731582351406644286682229269428728666878483782049829/5820766091346740722656250000000000000000000000000000000000000000000000000000000000000000000000000000 : ℝ) * (x + 1018499/1250000) ^ 5 * (-x) ^ 11 + ((3434538328456470930706054239570808438145565210239820058261300634110290356533387828213090540687/4656612873077392578125000000000000000000000000000000000000000000000000000000000000000000000000 : ℝ) * (x + 1018499/1250000) ^ 6 * (-x) ^ 10 + ((20268951655786310992992393684241011560923902429282208412273954511008143157278860726657/18626451492309570312500000000000000000000000000000000000000000000000000000000000000000 : ℝ) * (x + 1018499/1250000) ^ 7 * (-x) ^ 9 + ((76934427015014359432972443196783966085330104784021883568837721248291272880840557/59604644775390625000000000000000000000000000000000000000000000000000000000000000 : ℝ) * (x + 1018499/1250000) ^ 8 * (-x) ^ 8 + ((143977773333928709423104449368665404130960148998277678210111225126484099/119209289550781250000000000000000000000000000000000000000000000000000000 : ℝ) * (x + 1018499/1250000) ^ 9 * (-x) ^ 7 + ((166487924522583997855998726400681791580638517111427463643856261503/190734863281250000000000000000000000000000000000000000000000000000 : ℝ) * (x + 1018499/1250000) ^ 10 * (-x) ^ 6 + ((727496220119830345149265114900907610169141780985609037027/1525878906250000000000000000000000000000000000000000000000 : ℝ) * (x + 1018499/1250000) ^ 11 * (-x) ^ 5 + ((469179347828412207026889438442083539324950625791143/2441406250000000000000000000000000000000000000000000 : ℝ) * (x + 1018499/1250000) ^ 12 * (-x) ^ 4 + ((1085520899526759156836278351776050906103/19531250000000000000000000000000000000000 : ℝ) * (x + 1018499/1250000) ^ 13 * (-x) ^ 3 + ((6955843036977713756758791/625000000000000000000000000 : ℝ) * (x + 1018499/1250000) ^ 14 * (-x) ^ 2 + ((18140197400523/12500000000000000 : ℝ) * (x + 1018499/1250000) ^ 15 * (-x) ^ 1 + ((1/10000 : ℝ) * (x + 1018499/1250000) ^ 16 * (-x) ^ 0)))))))))))))))) := by
    simp only [pt385p, pt385E, p391p, p391E, cuSp, cuE, niSp, niE]
    ring
  have hsum : (0:ℝ) ≤ (33321736643921272094452779353160868972663807162375717488393140847807908536019237179212456058424977960498387821639944747617863/355271367880050092935562133789062500000000000000000000000000000000000000000000000000000000000000000000000000000000000000000000000 : ℝ) * (x + 1018499/1250000) ^ 0 * (-x) ^ 16 + ((1278694418324438601785342477017717124912123975660769298742814552166490163129001590831540760076673104750952016373114122459/710542735760100185871124267578125000000000000000000000000000000000000000000000000000000000000000000000000000000000000000000 : ℝ) * (x + 1018499/1250000) ^ 1 * (-x) ^ 15 + ((153902209918104657171684068902034777622553672969906105848773962274014121279210627001488402497269219520020607817817861/11368683772161602973937988281250000000000000000000000000000000000000000000000000000000000000000000000000000000000000000 : ℝ) * (x + 1018499/1250000) ^ 2 * (-x) ^ 14 + ((2689436833074148166092617006375074045021035874110953155347640029674727017707231239954911735059762197170464046991/45474735088646411895751953125000000000000000000000000000000000000000000000000000000000000000000000000000000000000 : ℝ) * (x + 1018499/1250000) ^ 3 * (-x) ^ 13 + ((258800890459785731638788599527391893830128000982392086230116672799617256148522985748622689138043392787677063/1455191522836685180664062500000000000000000000000000000000000000000000000000000000000000000000000000000000000 : ℝ) * (x + 1018499/1250000) ^ 4 * (-x) ^ 12 + ((2359559823789060301638740205645861676999621964722731582351406644286682229269428728666878483782049829/5820766091346740722656250000000000000000000000000000000000000000000000000000000000000000000000000000 : ℝ) * (x + 1018499/1250000) ^ 5 * (-x) ^ 11 + ((3434538328456470930706054239570808438145565210239820058261300634110290356533387828213090540687/4656612873077392578125000000000000000000000000000000000000000000000000000000000000000000000000 : ℝ) * (x + 1018499/1250000) ^ 6 * (-x) ^ 10 + ((20268951655786310992992393684241011560923902429282208412273954511008143157278860726657/18626451492309570312500000000000000000000000000000000000000000000000000000000000000000 : ℝ) * (x + 1018499/1250000) ^ 7 * (-x) ^ 9 + ((76934427015014359432972443196783966085330104784021883568837721248291272880840557/59604644775390625000000000000000000000000000000000000000000000000000000000000000 : ℝ) * (x + 1018499/1250000) ^ 8 * (-x) ^ 8 + ((143977773333928709423104449368665404130960148998277678210111225126484099/119209289550781250000000000000000000000000000000000000000000000000000000 : ℝ) * (x + 1018499/1250000) ^ 9 * (-x) ^ 7 + ((166487924522583997855998726400681791580638517111427463643856261503/190734863281250000000000000000000000000000000000000000000000000000 : ℝ) * (x + 1018499/1250000) ^ 10 * (-x) ^ 6 + ((727496220119830345149265114900907610169141780985609037027/1525878906250000000000000000000000000000000000000000000000 : ℝ) * (x + 1018499/1250000) ^ 11 * (-x) ^ 5 + ((469179347828412207026889438442083539324950625791143/2441406250000000000000000000000000000000000000000000 : ℝ) * (x + 1018499/1250000) ^ 12 * (-x) ^ 4 + ((1085520899526759156836278351776050906103/19531250000000000000000000000000000000000 : ℝ) * (x + 1018499/1250000) ^ 13 * (-x) ^ 3 + ((6955843036977713756758791/625000000000000000000000000 : ℝ) * (x + 1018499/1250000) ^ 14 * (-x) ^ 2 + ((18140197400523/12500000000000000 : ℝ) * (x + 1018499/1250000) ^ 15 * (-x) ^ 1 + ((1/10000 : ℝ) * (x + 1018499/1250000) ^ 16 * (-x) ^ 0)))))))))))))))) := by
    repeat refine add_nonneg (hterm _ (by norm_num) _ _) ?_
    exact hterm _ (by norm_num) _ _
  have hL : (0:ℝ) < (1018499/1250000 : ℝ) ^ 16 := by positivity
  by_contra hc
  push_neg at hc
  have hneg : (1/10000 - pt385E x) * (1018499/1250000 : ℝ) ^ 16 < 0 := mul_neg_of_neg_of_pos (by linarith) hL
  rw [key] at hneg
  linarith


lemma pt385E_ge (x : ℝ) (h1 : (-1018499/1250000 : ℝ) ≤ x) (h2 : x ≤ 0) :
    -(1/10000) ≤ pt385E x := by
  have hu : (0:ℝ) ≤ (x + 1018499/1250000) := by linarith
  have hv : (0:ℝ) ≤ (-x) := by linarith
  have hterm : ∀ c : ℝ, 0 ≤ c → ∀ k m : ℕ,
      0 ≤ c * (x + 1018499/1250000) ^ k * (-x) ^ m :=
    fun c hc k m => mul_nonneg (mul_nonneg hc (pow_nonneg hu k)) (pow_nonneg hv m)
  have key : (pt385E x + 1/10000) * (1018499/1250000 : ℝ) ^ 16 =
      (37732536932088746492659647404651631027336192837624282511606859152192091463980762820787543941575022039501612178360055252382137/355271367880050092935562133789062500000000000000000000000000000000000000000000000000000000000000000000000000000000000000000000000 : ℝ) * (x + 1018499/1250000) ^ 0 * (-x) ^ 16 + ((995042336107881993002255179232282875087876024339230701257185447833509836870998409168459239923326895249047983626885877541/710542735760100185871124267578125000000000000000000000000000000000000000000000000000000000000000000000000000000000000000000 : ℝ) * (x + 1018499/1250000) ^ 1 * (-x) ^ 15 + ((118946200613773814202827649847965222377446327030093894151226037725985878720789372998511597502730780479979392182182139/11368683772161602973937988281250000000000000000000000000000000000000000000000000000000000000000000000000000000000000000 : ℝ) * (x + 1018499/1250000) ^ 2 * (-x) ^ 14 + ((2403733496854249966231601743624925954978964125889046844652359970325272982292768760045088264940237802829535953009/45474735088646411895751953125000000000000000000000000000000000000000000000000000000000000000000000000000000000000 : ℝ) * (x + 1018499/1250000) ^ 3 * (-x) ^ 13 + ((270888823852767674122930150472608106169871999017607913769883327200382743851477014251377310861956607212322937/1455191522836685180664062500000000000000000000000000000000000000000000000000000000000000000000000000000000000 : ℝ) * (x + 1018499/1250000) ^ 4 * (-x) ^ 12 + ((2725461433611452393673759794354138323000378035277268417648593355713317770730571271333121516217950171/5820766091346740722656250000000000000000000000000000000000000000000000000000000000000000000000000000 : ℝ) * (x + 1018499/1250000) ^ 5 * (-x) ^ 11 + ((4023492849064281022418945760429191561854434789760179941738699365889709643466612171786909459313/4656612873077392578125000000000000000000000000000000000000000000000000000000000000000000000000 : ℝ) * (x + 1018499/1250000) ^ 6 * (-x) ^ 10 + ((22348369358617985882007606315758988439076097570717791587726045488991856842721139273343/18626451492309570312500000000000000000000000000000000000000000000000000000000000000000 : ℝ) * (x + 1018499/1250000) ^ 7 * (-x) ^ 9 + ((76487928636841109317027556803216033914669895215978116431162278751708727119159443/59604644775390625000000000000000000000000000000000000000000000000000000000000000 : ℝ) * (x + 1018499/1250000) ^ 8 * (-x) ^ 8 + ((128773081158258790576895550631334595869039851001722321789888774873515901/119209289550781250000000000000000000000000000000000000000000000000000000 : ℝ) * (x + 1018499/1250000) ^ 9 * (-x) ^ 7 + ((138993032508666002144001273599318208419361482888572536356143738497/190734863281250000000000000000000000000000000000000000000000000000 : ℝ) * (x + 1018499/1250000) ^ 10 * (-x) ^ 6 + ((605511592380169654850734885099092389830858219014390962973/1525878906250000000000000000000000000000000000000000000000 : ℝ) * (x + 1018499/1250000) ^ 11 * (-x) ^ 5 + ((419492527171587792973110561557916460675049374208857/2441406250000000000000000000000000000000000000000000 : ℝ) * (x + 1018499/1250000) ^ 12 * (-x) ^ 4 + ((1101979100473240843163721648223949093897/19531250000000000000000000000000000000000 : ℝ) * (x + 1018499/1250000) ^ 13 * (-x) ^ 3 + ((8044156963022286243241209/625000000000000000000000000 : ℝ) * (x + 1018499/1250000) ^ 14 * (-x) ^ 2 + ((21859802599477/12500000000000000 : ℝ) * (x + 1018499/1250000) ^ 15 * (-x) ^ 1 + ((1/10000 : ℝ) * (x + 1018499/1250000) ^ 16 * (-x) ^ 0)))))))))))))))) := by
    simp only [pt385p, pt385E, p391p, p391E, cuSp, cuE, niSp, niE]
    ring
  have hsum : (0:ℝ) ≤ (37732536932088746492659647404651631027336192837624282511606859152192091463980762820787543941575022039501612178360055252382137/355271367880050092935562133789062500000000000000000000000000000000000000000000000000000000000000000000000000000000000000000000000 : ℝ) * (x + 1018499/1250000) ^ 0 * (-x) ^ 16 + ((995042336107881993002255179232282875087876024339230701257185447833509836870998409168459239923326895249047983626885877541/710542735760100185871124267578125000000000000000000000000000000000000000000000000000000000000000000000000000000000000000000 : ℝ) * (x + 1018499/1250000) ^ 1 * (-x) ^ 15 + ((118946200613773814202827649847965222377446327030093894151226037725985878720789372998511597502730780479979392182182139/11368683772161602973937988281250000000000000000000000000000000000000000000000000000000000000000000000000000000000000000 : ℝ) * (x + 1018499/1250000) ^ 2 * (-x) ^ 14 + ((2403733496854249966231601743624925954978964125889046844652359970325272982292768760045088264940237802829535953009/45474735088646411895751953125000000000000000000000000000000000000000000000000000000000000000000000000000000000000 : ℝ) * (x + 1018499/1250000) ^ 3 * (-x) ^ 13 + ((270888823852767674122930150472608106169871999017607913769883327200382743851477014251377310861956607212322937/1455191522836685180664062500000000000000000000000000000000000000000000000000000000000000000000000000000000000 : ℝ) * (x + 1018499/1250000) ^ 4 * (-x) ^ 12 + ((2725461433611452393673759794354138323000378035277268417648593355713317770730571271333121516217950171/5820766091346740722656250000000000000000000000000000000000000000000000000000000000000000000000000000 : ℝ) * (x + 1018499/1250000) ^ 5 * (-x) ^ 11 + ((4023492849064281022418945760429191561854434789760179941738699365889709643466612171786909459313/4656612873077392578125000000000000000000000000000000000000000000000000000000000000000000000000 : ℝ) * (x + 1018499/1250000) ^ 6 * (-x) ^ 10 + ((22348369358617985882007606315758988439076097570717791587726045488991856842721139273343/18626451492309570312500000000000000000000000000000000000000000000000000000000000000000 : ℝ) * (x + 1018499/1250000) ^ 7 * (-x) ^ 9 + ((76487928636841109317027556803216033914669895215978116431162278751708727119159443/59604644775390625000000000000000000000000000000000000000000000000000000000000000 : ℝ) * (x + 1018499/1250000) ^ 8 * (-x) ^ 8 + ((128773081158258790576895550631334595869039851001722321789888774873515901/119209289550781250000000000000000000000000000000000000000000000000000000 : ℝ) * (x + 1018499/1250000) ^ 9 * (-x) ^ 7 + ((138993032508666002144001273599318208419361482888572536356143738497/190734863281250000000000000000000000000000000000000000000000000000 : ℝ) * (x + 1018499/1250000) ^ 10 * (-x) ^ 6 + ((605511592380169654850734885099092389830858219014390962973/1525878906250000000000000000000000000000000000000000000000 : ℝ) * (x + 1018499/1250000) ^ 11 * (-x) ^ 5 + ((419492527171587792973110561557916460675049374208857/2441406250000000000000000000000000000000000000000000 : ℝ) * (x + 1018499/1250000) ^ 12 * (-x) ^ 4 + ((1101979100473240843163721648223949093897/19531250000000000000000000000000000000000 : ℝ) * (x + 1018499/1250000) ^ 13 * (-x) ^ 3 + ((8044156963022286243241209/625000000000000000000000000 : ℝ) * (x + 1018499/1250000) ^ 14 * (-x) ^ 2 + ((21859802599477/12500000000000000 : ℝ) * (x + 1018499/1250000) ^ 15 * (-x) ^ 1 + ((1/10000 : ℝ) * (x + 1018499/1250000) ^ 16 * (-x) ^ 0)))))))))))))))) := by
    repeat refine add_nonneg (hterm _ (by norm_num) _ _) ?_
    exact hterm _ (by norm_num) _ _
  have hL : (0:ℝ) < (1018499/1250000 : ℝ) ^ 16 := by positivity
  by_contra hc
  push_neg at hc
  have hneg : (pt385E x + 1/10000) * (1018499/1250000 : ℝ) ^ 16 < 0 := mul_neg_of_neg_of_pos (by linarith) hL
  rw [key] at hneg
  linarith


lemma pt385p_lower (x : ℝ) (h1 : (-1018499/1250000 : ℝ) ≤ x) (h2 : x ≤ 0) :
    0 ≤ pt385p x + 200 := by
  have hu : (0:ℝ) ≤ (x + 1018499/1250000) := by linarith
  have hv : (0:ℝ) ≤ (-x) := by linarith
  have hterm : ∀ c : ℝ, 0 ≤ c → ∀ k m : ℕ,
      0 ≤ c * (x + 1018499/1250000) ^ k * (-x) ^ m :=
    fun c hc k m => mul_nonneg (mul_nonneg hc (pow_nonneg hu k)) (pow_nonneg hv m)
  have key : (pt385p x + 200) * (1018499/1250000 : ℝ) ^ 4 =
      (35054752915111413187376909/24414062500000000000000000000 : ℝ) * (x + 1018499/1250000) ^ 0 * (-x) ^ 4 + ((36797172275533957854604137/195312500000000000000000 : ℝ) * (x + 1018499/1250000) ^ 1 * (-x) ^ 3 + ((1814838522228501291/3125000000000000 : ℝ) * (x + 1018499/1250000) ^ 2 * (-x) ^ 2 + ((739448604319/1250000000 : ℝ) * (x + 1018499/1250000) ^ 3 * (-x) ^ 1 + ((200 : ℝ) * (x + 1018499/1250000) ^ 4 * (-x) ^ 0)))) := by
    simp only [pt385p, pt385E, p391p, p391E, cuSp, cuE, niSp, niE]
    ring
  have hsum : (0:ℝ) ≤ (35054752915111413187376909/24414062500000000000000000000 : ℝ) * (x + 1018499/1250000) ^ 0 * (-x) ^ 4 + ((36797172275533957854604137/195312500000000000000000 : ℝ) * (x + 1018499/1250000) ^ 1 * (-x) ^ 3 + ((1814838522228501291/3125000000000000 : ℝ) * (x + 1018499/1250000) ^ 2 * (-x) ^ 2 + ((739448604319/1250000000 : ℝ) * (x + 1018499/1250000) ^ 3 * (-x) ^ 1 + ((200 : ℝ) * (x + 1018499/1250000) ^ 4 * (-x) ^ 0)))) := by
    repeat refine add_nonneg (hterm _ (by norm_num) _ _) ?_
    exact hterm _ (by norm_num) _ _
  have hL : (0:ℝ) < (1018499/1250000 : ℝ) ^ 4 := by positivity
  by_contra hc
  push_neg at hc
  have hneg : (pt385p x + 200) * (1018499/1250000 : ℝ) ^ 4 < 0 := mul_neg_of_neg_of_pos (by linarith) hL
  rw [key] at hneg
  linarith


lemma pt385p_upper (x : ℝ) (h1 : (-1018499/1250000 : ℝ) ≤ x) (h2 : x ≤ 0) :
    0 ≤ -(pt385p x) := by
  have hu : (0:ℝ) ≤ (x + 1018499/1250000) := by linarith
  have hv : (0:ℝ) ≤ (-x) := by linarith
  have hterm : ∀ c : ℝ, 0 ≤ c → ∀ k m : ℕ,
      0 ≤ c * (x + 1018499/1250000) ^ k * (-x) ^ m :=
    fun c hc k m => mul_nonneg (mul_nonneg hc (pow_nonneg hu k)) (pow_nonneg hv m)
  have key : (-(pt385p x)) * (1018499/1250000 : ℝ) ^ 4 =
      (4882777445247084888586812623091/24414062500000000000000000000 : ℝ) * (x + 1018499/1250000) ^ 0 * (-x) ^ 4 + ((119452827724466042145395863/195312500000000000000000 : ℝ) * (x + 1018499/1250000) ^ 1 * (-x) ^ 3 + ((1935161477771498709/3125000000000000 : ℝ) * (x + 1018499/1250000) ^ 2 * (-x) ^ 2 + ((260551395681/1250000000 : ℝ) * (x + 1018499/1250000) ^ 3 * (-x) ^ 1 + ((0 : ℝ) * (x + 1018499/1250000) ^ 4 * (-x) ^ 0)))) := by
    simp only [pt385p, pt385E, p391p, p391E, cuSp, cuE, niSp, niE]
    ring
  have hsum : (0:ℝ) ≤ (4882777445247084888586812623091/24414062500000000000000000000 : ℝ) * (x + 1018499/1250000) ^ 0 * (-x) ^ 4 + ((119452827724466042145395863/195312500000000000000000 : ℝ) * (x + 1018499/1250000) ^ 1 * (-x) ^ 3 + ((1935161477771498709/3125000000000000 : ℝ) * (x + 1018499/1250000) ^ 2 * (-x) ^ 2 + ((260551395681/1250000000 : ℝ) * (x + 1018499/1250000) ^ 3 * (-x) ^ 1 + ((0 : ℝ) * (x + 1018499/1250000) ^ 4 * (-x) ^ 0)))) := by
    repeat refine add_nonneg (hterm _ (by norm_num) _ _) ?_
    exact hterm _ (by norm_num) _ _
  have hL : (0:ℝ) < (1018499/1250000 : ℝ) ^ 4 := by positivity
  by_contra hc
  push_neg at hc
  have hneg : (-(pt385p x)) * (1018499/1250000 : ℝ) ^ 4 < 0 := mul_neg_of_neg_of_pos (by linarith) hL
  rw [key] at hneg
  linarith


lemma p391E_le (x : ℝ) (h1 : (-206889/250000 : ℝ) ≤ x) (h2 : x ≤ 0) :
    p391E x ≤ 1/10000 := by
  have hu : (0:ℝ) ≤ (x + 206889/250000) := by linarith
  have hv : (0:ℝ) ≤ (-x) := by linarith
  have hterm : ∀ c : ℝ, 0 ≤ c → ∀ k m : ℕ,
      0 ≤ c * (x + 206889/250000) ^ k * (-x) ^ m :=
    fun c hc k m => mul_nonneg (mul_nonneg hc (pow_nonneg hu k)) (pow_nonneg hv m)
  have key : (1/10000 - p391E x) * (206889/250000 : ℝ) ^ 16 =
      (219433019324772868130694327031123949016105071239957604522211055332260784279862064346238491184781754696848386708864033/2328306436538696289062500000000000000000000000000000000000000000000000000000000000000000000000000000000000000000000000000 : ℝ) * (x + 206889/250000) ^ 0 * (-x) ^ 16 + ((2086765317400989065905105930609166402641954002378571531624255328109037365249446935521916102297525047362541291731/1164153218269348144531250000000000000000000000000000000000000000000000000000000000000000000000000000000000000000000 : ℝ) * (x + 206889/250000) ^ 1 * (-x) ^ 15 + ((124616165676046127020287148026924742514691304098424839568330812651286191124764508079693809728083515719690207/9313225746154785156250000000000000000000000000000000000000000000000000000000000000000000000000000000000000000 : ℝ) * (x + 206889/250000) ^ 2 * (-x) ^ 14 + ((1081745632962443420961694553056046725209916257312417775207119514565319123626298328126487071829504781331/18626451492309570312500000000000000000000000000000000000000000000000000000000000000000000000000000000000 : ℝ) * (x + 206889/250000) ^ 3 * (-x) ^ 13 + ((51846315218218230162928811234283364921377630742935718749551281232235307340503125505909167370155619/298023223876953125000000000000000000000000000000000000000000000000000000000000000000000000000000000 : ℝ) * (x + 206889/250000) ^ 4 * (-x) ^ 12 + ((23641321781967848105745634117024300468082960939818040759408611524715499273782843866893199027/59604644775390625000000000000000000000000000000000000000000000000000000000000000000000000000 : ℝ) * (x + 206889/250000) ^ 5 * (-x) ^ 11 + ((69126236509085517956484769043461742722631384442179287353876107341361763275932885617967/95367431640625000000000000000000000000000000000000000000000000000000000000000000000000 : ℝ) * (x + 206889/250000) ^ 6 * (-x) ^ 10 + ((41063467586159130018425083471495413075553294159285527487401009967056136078013161/38146972656250000000000000000000000000000000000000000000000000000000000000000000 : ℝ) * (x + 206889/250000) ^ 7 * (-x) ^ 9 + ((313700458799067950712686464929752102169826465150786065950422726885697937777/244140625000000000000000000000000000000000000000000000000000000000000000000 : ℝ) * (x + 206889/250000) ^ 8 * (-x) ^ 8 + ((14742482994390406002738232449173423127407566655873637483398341791479/12207031250000000000000000000000000000000000000000000000000000000000 : ℝ) * (x + 206889/250000) ^ 9 * (-x) ^ 7 + ((4270471310863186384160468034665722290875071368529566699110951/4882812500000000000000000000000000000000000000000000000000000 : ℝ) * (x + 206889/250000) ^ 10 * (-x) ^ 6 + ((233142469764278210134805654182915003158443192892481737/488281250000000000000000000000000000000000000000000000 : ℝ) * (x + 206889/250000) ^ 11 * (-x) ^ 5 + ((74968981437612229770288413245546402210464735593/390625000000000000000000000000000000000000000000 : ℝ) * (x + 206889/250000) ^ 12 * (-x) ^ 4 + ((863370240804479716592310809616307079/15625000000000000000000000000000000000 : ℝ) * (x + 206889/250000) ^ 13 * (-x) ^ 3 + ((6885741362171643525842049/625000000000000000000000000 : ℝ) * (x + 206889/250000) ^ 14 * (-x) ^ 2 + ((359244315223/250000000000000 : ℝ) * (x + 206889/250000) ^ 15 * (-x) ^ 1 + ((1/10000 : ℝ) * (x + 206889/250000) ^ 16 * (-x) ^ 0)))))))))))))))) := by
    simp only [pt385p, pt385E, p391p, p391E, cuSp, cuE, niSp, niE]
    ring
  have hsum : (0:ℝ) ≤ (219433019324772868130694327031123949016105071239957604522211055332260784279862064346238491184781754696848386708864033/2328306436538696289062500000000000000000000000000000000000000000000000000000000000000000000000000000000000000000000000000 : ℝ) * (x + 206889/250000) ^ 0 * (-x) ^ 16 + ((2086765317400989065905105930609166402641954002378571531624255328109037365249446935521916102297525047362541291731/1164153218269348144531250000000000000000000000000000000000000000000000000000000000000000000000000000000000000000000 : ℝ) * (x + 206889/250000) ^ 1 * (-x) ^ 15 + ((124616165676046127020287148026924742514691304098424839568330812651286191124764508079693809728083515719690207/9313225746154785156250000000000000000000000000000000000000000000000000000000000000000000000000000000000000000 : ℝ) * (x + 206889/250000) ^ 2 * (-x) ^ 14 + ((1081745632962443420961694553056046725209916257312417775207119514565319123626298328126487071829504781331/18626451492309570312500000000000000000000000000000000000000000000000000000000000000000000000000000000000 : ℝ) * (x + 206889/250000) ^ 3 * (-x) ^ 13 + ((51846315218218230162928811234283364921377630742935718749551281232235307340503125505909167370155619/298023223876953125000000000000000000000000000000000000000000000000000000000000000000000000000000000 : ℝ) * (x + 206889/250000) ^ 4 * (-x) ^ 12 + ((23641321781967848105745634117024300468082960939818040759408611524715499273782843866893199027/59604644775390625000000000000000000000000000000000000000000000000000000000000000000000000000 : ℝ) * (x + 206889/250000) ^ 5 * (-x) ^ 11 + ((69126236509085517956484769043461742722631384442179287353876107341361763275932885617967/95367431640625000000000000000000000000000000000000000000000000000000000000000000000000 : ℝ) * (x + 206889/250000) ^ 6 * (-x) ^ 10 + ((41063467586159130018425083471495413075553294159285527487401009967056136078013161/38146972656250000000000000000000000000000000000000000000000000000000000000000000 : ℝ) * (x + 206889/250000) ^ 7 * (-x) ^ 9 + ((313700458799067950712686464929752102169826465150786065950422726885697937777/244140625000000000000000000000000000000000000000000000000000000000000000000 : ℝ) * (x + 206889/250000) ^ 8 * (-x) ^ 8 + ((14742482994390406002738232449173423127407566655873637483398341791479/12207031250000000000000000000000000000000000000000000000000000000000 : ℝ) * (x + 206889/250000) ^ 9 * (-x) ^ 7 + ((4270471310863186384160468034665722290875071368529566699110951/4882812500000000000000000000000000000000000000000000000000000 : ℝ) * (x + 206889/250000) ^ 10 * (-x) ^ 6 + ((233142469764278210134805654182915003158443192892481737/488281250000000000000000000000000000000000000000000000 : ℝ) * (x + 206889/250000) ^ 11 * (-x) ^ 5 + ((74968981437612229770288413245546402210464735593/390625000000000000000000000000000000000000000000 : ℝ) * (x + 206889/250000) ^ 12 * (-x) ^ 4 + ((863370240804479716592310809616307079/15625000000000000000000000000000000000 : ℝ) * (x + 206889/250000) ^ 13 * (-x) ^ 3 + ((6885741362171643525842049/625000000000000000000000000 : ℝ) * (x + 206889/250000) ^ 14 * (-x) ^ 2 + ((359244315223/250000000000000 : ℝ) * (x + 206889/250000) ^ 15 * (-x) ^ 1 + ((1/10000 : ℝ) * (x + 206889/250000) ^ 16 * (-x) ^ 0)))))))))))))))) := by
    repeat refine add_nonneg (hterm _ (by norm_num) _ _) ?_
    exact hterm _ (by norm_num) _ _
  have hL : (0:ℝ) < (206889/250000 : ℝ) ^ 16 := by positivity
  by_contra hc
  push_neg at hc
  have hneg : (1/10000 - p391E x) * (206889/250000 : ℝ) ^ 16 < 0 := mul_neg_of_neg_of_pos (by linarith) hL
  rw [key] at hneg
  linarith


lemma p391E_ge (x : ℝ) (h1 : (-206889/250000 : ℝ) ≤ x) (h2 : x ≤ 0) :
    -(1/10000) ≤ p391E x := by
  have hu : (0:ℝ) ≤ (x + 206889/250000) := by linarith
  have hv : (0:ℝ) ≤ (-x) := by linarith
  have hterm : ∀ c : ℝ, 0 ≤ c → ∀ k m : ℕ,
      0 ≤ c * (x + 206889/250000) ^ k * (-x) ^ m :=
    fun c hc k m => mul_nonneg (mul_nonneg hc (pow_nonneg hu k)) (pow_nonneg hv m)
  have key : (p391E x + 1/10000) * (206889/250000 : ℝ) ^ 16 =
      (246228267982966389681805672968876050983894928760042395477788944667739215720137935653761508815218245303151613291135967/2328306436538696289062500000000000000000000000000000000000000000000000000000000000000000000000000000000000000000000000000 : ℝ) * (x + 206889/250000) ^ 0 * (-x) ^ 16 + ((1638524981060924996594894069390833597358045997621428468375744671890962634750553064478083897702474952637458708269/1164153218269348144531250000000000000000000000000000000000000000000000000000000000000000000000000000000000000000000 : ℝ) * (x + 206889/250000) ^ 1 * (-x) ^ 15 + ((98901252231668716729712851973075257485308695901575160431669187348713808875235491920306190271916484280309793/9313225746154785156250000000000000000000000000000000000000000000000000000000000000000000000000000000000000000 : ℝ) * (x + 206889/250000) ^ 2 * (-x) ^ 14 + ((1004416934176228454038305446943953274790083742687582224792880485434680876373701671873512928170495218669/18626451492309570312500000000000000000000000000000000000000000000000000000000000000000000000000000000000 : ℝ) * (x + 206889/250000) ^ 3 * (-x) ^ 13 + ((56634138272992707337071188765716635078622369257064281250448718767764692659496874494090832629844381/298023223876953125000000000000000000000000000000000000000000000000000000000000000000000000000000000 : ℝ) * (x + 206889/250000) ^ 4 * (-x) ^ 12 + ((28429295893813401894254365882975699531917039060181959240591388475284500726217156133106800973/59604644775390625000000000000000000000000000000000000000000000000000000000000000000000000000 : ℝ) * (x + 206889/250000) ^ 5 * (-x) ^ 11 + ((83614242006539482043515230956538257277368615557820712646123892658638236724067114382033/95367431640625000000000000000000000000000000000000000000000000000000000000000000000000 : ℝ) * (x + 206889/250000) ^ 6 * (-x) ^ 10 + ((46216805851340869981574916528504586924446705840714472512598990032943863921986839/38146972656250000000000000000000000000000000000000000000000000000000000000000000 : ℝ) * (x + 206889/250000) ^ 7 * (-x) ^ 9 + ((314717509950932049287313535070247897830173534849213934049577273114302062223/244140625000000000000000000000000000000000000000000000000000000000000000000 : ℝ) * (x + 206889/250000) ^ 8 * (-x) ^ 8 + ((13187204505609593997261767550826576872592433344126362516601658208521/12207031250000000000000000000000000000000000000000000000000000000000 : ℝ) * (x + 206889/250000) ^ 9 * (-x) ^ 7 + ((3549841189136813615839531965334277709124928631470433300889049/4882812500000000000000000000000000000000000000000000000000000 : ℝ) * (x + 206889/250000) ^ 10 * (-x) ^ 6 + ((193420030235721789865194345817084996841556807107518263/488281250000000000000000000000000000000000000000000000 : ℝ) * (x + 206889/250000) ^ 11 * (-x) ^ 5 + ((67218518562387770229711586754453597789535264407/390625000000000000000000000000000000000000000000 : ℝ) * (x + 206889/250000) ^ 12 * (-x) ^ 4 + ((886629759195520283407689190383692921/15625000000000000000000000000000000000 : ℝ) * (x + 206889/250000) ^ 13 * (-x) ^ 3 + ((8114258637828356474157951/625000000000000000000000000 : ℝ) * (x + 206889/250000) ^ 14 * (-x) ^ 2 + ((440755684777/250000000000000 : ℝ) * (x + 206889/250000) ^ 15 * (-x) ^ 1 + ((1/10000 : ℝ) * (x + 206889/250000) ^ 16 * (-x) ^ 0)))))))))))))))) := by
    simp only [pt385p, pt385E, p391p, p391E, cuSp, cuE, niSp, niE]
    ring
  have hsum : (0:ℝ) ≤ (246228267982966389681805672968876050983894928760042395477788944667739215720137935653761508815218245303151613291135967/2328306436538696289062500000000000000000000000000000000000000000000000000000000000000000000000000000000000000000000000000 : ℝ) * (x + 206889/250000) ^ 0 * (-x) ^ 16 + ((1638524981060924996594894069390833597358045997621428468375744671890962634750553064478083897702474952637458708269/1164153218269348144531250000000000000000000000000000000000000000000000000000000000000000000000000000000000000000000 : ℝ) * (x + 206889/250000) ^ 1 * (-x) ^ 15 + ((98901252231668716729712851973075257485308695901575160431669187348713808875235491920306190271916484280309793/9313225746154785156250000000000000000000000000000000000000000000000000000000000000000000000000000000000000000 : ℝ) * (x + 206889/250000) ^ 2 * (-x) ^ 14 + ((1004416934176228454038305446943953274790083742687582224792880485434680876373701671873512928170495218669/18626451492309570312500000000000000000000000000000000000000000000000000000000000000000000000000000000000 : ℝ) * (x + 206889/250000) ^ 3 * (-x) ^ 13 + ((56634138272992707337071188765716635078622369257064281250448718767764692659496874494090832629844381/298023223876953125000000000000000000000000000000000000000000000000000000000000000000000000000000000 : ℝ) * (x + 206889/250000) ^ 4 * (-x) ^ 12 + ((28429295893813401894254365882975699531917039060181959240591388475284500726217156133106800973/59604644775390625000000000000000000000000000000000000000000000000000000000000000000000000000 : ℝ) * (x + 206889/250000) ^ 5 * (-x) ^ 11 + ((83614242006539482043515230956538257277368615557820712646123892658638236724067114382033/95367431640625000000000000000000000000000000000000000000000000000000000000000000000000 : ℝ) * (x + 206889/250000) ^ 6 * (-x) ^ 10 + ((46216805851340869981574916528504586924446705840714472512598990032943863921986839/38146972656250000000000000000000000000000000000000000000000000000000000000000000 : ℝ) * (x + 206889/250000) ^ 7 * (-x) ^ 9 + ((314717509950932049287313535070247897830173534849213934049577273114302062223/244140625000000000000000000000000000000000000000000000000000000000000000000 : ℝ) * (x + 206889/250000) ^ 8 * (-x) ^ 8 + ((13187204505609593997261767550826576872592433344126362516601658208521/12207031250000000000000000000000000000000000000000000000000000000000 : ℝ) * (x + 206889/250000) ^ 9 * (-x) ^ 7 + ((3549841189136813615839531965334277709124928631470433300889049/4882812500000000000000000000000000000000000000000000000000000 : ℝ) * (x + 206889/250000) ^ 10 * (-x) ^ 6 + ((193420030235721789865194345817084996841556807107518263/488281250000000000000000000000000000000000000000000000 : ℝ) * (x + 206889/250000) ^ 11 * (-x) ^ 5 + ((67218518562387770229711586754453597789535264407/390625000000000000000000000000000000000000000000 : ℝ) * (x + 206889/250000) ^ 12 * (-x) ^ 4 + ((886629759195520283407689190383692921/15625000000000000000000000000000000000 : ℝ) * (x + 206889/250000) ^ 13 * (-x) ^ 3 + ((8114258637828356474157951/625000000000000000000000000 : ℝ) * (x + 206889/250000) ^ 14 * (-x) ^ 2 + ((440755684777/250000000000000 : ℝ) * (x + 206889/250000) ^ 15 * (-x) ^ 1 + ((1/10000 : ℝ) * (x + 206889/250000) ^ 16 * (-x) ^ 0)))))))))))))))) := by
    repeat refine add_nonneg (hterm _ (by norm_num) _ _) ?_
    exact hterm _ (by norm_num) _ _
  have hL : (0:ℝ) < (206889/250000 : ℝ) ^ 16 := by positivity
  by_contra hc
  push_neg at hc
  have hneg : (p391E x + 1/10000) * (206889/250000 : ℝ) ^ 16 < 0 := mul_neg_of_neg_of_pos (by linarith) hL
  rw [key] at hneg
  linarith


lemma p391p_lower (x : ℝ) (h1 : (-206889/250000 : ℝ) ≤ x) (h2 : x ≤ 0) :
    0 ≤ p391p x + 200 := by
  have hu : (0:ℝ) ≤ (x + 206889/250000) := by linarith
  have hv : (0:ℝ) ≤ (-x) := by linarith
  have hterm : ∀ c : ℝ, 0 ≤ c → ∀ k m : ℕ,
      0 ≤ c * (x + 206889/250000) ^ k * (-x) ^ m :=
    fun c hc k m => mul_nonneg (mul_nonneg hc (pow_nonneg hu k)) (pow_nonneg hv m)
  have key : (p391p x + 200) * (206889/250000 : ℝ) ^ 4 =
      (511647569072275652501051/390625000000000000000000000 : ℝ) * (x + 206889/250000) ^ 0 * (-x) ^ 4 + ((147120637599931976201857/781250000000000000000 : ℝ) * (x + 206889/250000) ^ 1 * (-x) ^ 3 + ((725794241380904247/1250000000000000 : ℝ) * (x + 206889/250000) ^ 2 * (-x) ^ 2 + ((147884040233/250000000 : ℝ) * (x + 206889/250000) ^ 3 * (-x) ^ 1 + ((200 : ℝ) * (x + 206889/250000) ^ 4 * (-x) ^ 0)))) := by
    simp only [pt385p, pt385E, p391p, p391E, cuSp, cuE, niSp, niE]
    ring
  have hsum : (0:ℝ) ≤ (511647569072275652501051/390625000000000000000000000 : ℝ) * (x + 206889/250000) ^ 0 * (-x) ^ 4 + ((147120637599931976201857/781250000000000000000 : ℝ) * (x + 206889/250000) ^ 1 * (-x) ^ 3 + ((725794241380904247/1250000000000000 : ℝ) * (x + 206889/250000) ^ 2 * (-x) ^ 2 + ((147884040233/250000000 : ℝ) * (x + 206889/250000) ^ 3 * (-x) ^ 1 + ((200 : ℝ) * (x + 206889/250000) ^ 4 * (-x) ^ 0)))) := by
    repeat refine add_nonneg (hterm _ (by norm_num) _ _) ?_
    exact hterm _ (by norm_num) _ _
  have hL : (0:ℝ) < (206889/250000 : ℝ) ^ 4 := by positivity
  by_contra hc
  push_neg at hc
  have hneg : (p391p x + 200) * (206889/250000 : ℝ) ^ 4 < 0 := mul_neg_of_neg_of_pos (by linarith) hL
  rw [key] at hneg
  linarith


lemma p391p_upper (x : ℝ) (h1 : (-206889/250000 : ℝ) ≤ x) (h2 : x ≤ 0) :
    0 ≤ -(p391p x) := by
  have hu : (0:ℝ) ≤ (x + 206889/250000) := by linarith
  have hv : (0:ℝ) ≤ (-x) := by linarith
  have hterm : ∀ c : ℝ, 0 ≤ c → ∀ k m : ℕ,
      0 ≤ c * (x + 206889/250000) ^ k * (-x) ^ m :=
    fun c hc k m => mul_nonneg (mul_nonneg hc (pow_nonneg hu k)) (pow_nonneg hv m)
  have key : (-(p391p x)) * (206889/250000 : ℝ) ^ 4 =
      (78124488352430927724347498949/390625000000000000000000000 : ℝ) * (x + 206889/250000) ^ 0 * (-x) ^ 4 + ((477879362400068023798143/781250000000000000000 : ℝ) * (x + 206889/250000) ^ 1 * (-x) ^ 3 + ((774205758619095753/1250000000000000 : ℝ) * (x + 206889/250000) ^ 2 * (-x) ^ 2 + ((52115959767/250000000 : ℝ) * (x + 206889/250000) ^ 3 * (-x) ^ 1 + ((0 : ℝ) * (x + 206889/250000) ^ 4 * (-x) ^ 0)))) := by
    simp only [pt385p, pt385E, p391p, p391E, cuSp, cuE, niSp, niE]
    ring
  have hsum : (0:ℝ) ≤ (78124488352430927724347498949/390625000000000000000000000 : ℝ) * (x + 206889/250000) ^ 0 * (-x) ^ 4 + ((477879362400068023798143/781250000000000000000 : ℝ) * (x + 206889/250000) ^ 1 * (-x) ^ 3 + ((774205758619095753/1250000000000000 : ℝ) * (x + 206889/250000) ^ 2 * (-x) ^ 2 + ((52115959767/250000000 : ℝ) * (x + 206889/250000) ^ 3 * (-x) ^ 1 + ((0 : ℝ) * (x + 206889/250000) ^ 4 * (-x) ^ 0)))) := by
    repeat refine add_nonneg (hterm _ (by norm_num) _ _) ?_
    exact hterm _ (by norm_num) _ _
  have hL : (0:ℝ) < (206889/250000 : ℝ) ^ 4 := by positivity
  by_contra hc
  push_neg at hc
  have hneg : (-(p391p x)) * (206889/250000 : ℝ) ^ 4 < 0 := mul_neg_of_neg_of_pos (by linarith) hL
  rw [key] at hneg
  linarith


lemma cuE_le (x : ℝ) (h1 : (-4966977771/6250000000 : ℝ) ≤ x) (h2 : x ≤ 0) :
    cuE x ≤ 1/10000 := by
  have hu : (0:ℝ) ≤ (x + 4966977771/6250000000) := by linarith
  have hv : (0:ℝ) ≤ (-x) := by linarith
  have hterm : ∀ c : ℝ, 0 ≤ c → ∀ k m : ℕ,
      0 ≤ c * (x + 4966977771/6250000000) ^ k * (-x) ^ m :=
    fun c hc k m => mul_nonneg (mul_nonneg hc (pow_nonneg hu k)) (pow_nonneg hv m)
  have key : (1/10000 - cuE x) * (4966977771/6250000000 : ℝ) ^ 12 =
      (16341543511746492453677519024076368186613620853426432098758128987193142147349367594831069439808611030417563211488533015932079244697437152689/177635683940025046467781066894531250000000000000000000000000000000000000000000000000000000000000000000000000000000000000000000000000000000000000 : ℝ) * (x + 4966977771/6250000000) ^ 0 * (-x) ^ 12 + ((15779125058984357731399980830125705614678495997912812369424754454531874544622596223411392518715057684572544164411897933540579119321/14210854715202003717422485351562500000000000000000000000000000000000000000000000000000000000000000000000000000000000000000000000000000 : ℝ) * (x + 4966977771/6250000000) ^ 1 * (-x) ^ 11 + ((14009693420924154299212658751386031505402031716733738840890639881478293182340656626355377345627520141139109324278927100431/2273736754432320594787597656250000000000000000000000000000000000000000000000000000000000000000000000000000000000000000000000 : ℝ) * (x + 4966977771/6250000000) ^ 2 * (-x) ^ 10 + ((3769113023666408839113422266972063279142527769999401414339354615342470318284039679666183678832957607497430305151/181898940354585647583007812500000000000000000000000000000000000000000000000000000000000000000000000000000000000000 : ℝ) * (x + 4966977771/6250000000) ^ 3 * (-x) ^ 9 + ((273471941460525613612131140105449125828630475101507073293672241038381286670131877342640727189969030941/5820766091346740722656250000000000000000000000000000000000000000000000000000000000000000000000000000000 : ℝ) * (x + 4966977771/6250000000) ^ 4 * (-x) ^ 8 + ((1409483541937455291372315114791363634875832749630227901699926215540461455820347921355357661/18626451492309570312500000000000000000000000000000000000000000000000000000000000000000000000 : ℝ) * (x + 4966977771/6250000000) ^ 5 * (-x) ^ 7 + ((10589133194830706558520385639390765302335000310206074848008367845575920716173737/119209289550781250000000000000000000000000000000000000000000000000000000000000000 : ℝ) * (x + 4966977771/6250000000) ^ 6 * (-x) ^ 6 + ((146141433904946222729971108109636312634950858099933353347135520982133/1907348632812500000000000000000000000000000000000000000000000000000000 : ℝ) * (x + 4966977771/6250000000) ^ 7 * (-x) ^ 5 + ((36784264818360431546541164108320597808069904990753399648117/762939453125000000000000000000000000000000000000000000000000 : ℝ) * (x + 4966977771/6250000000) ^ 8 * (-x) ^ 4 + ((263461004646305153300914100216929790522239795241/12207031250000000000000000000000000000000000000000 : ℝ) * (x + 4966977771/6250000000) ^ 9 * (-x) ^ 3 + ((3980099400638601888908311341459/610351562500000000000000000000000 : ℝ) * (x + 4966977771/6250000000) ^ 10 * (-x) ^ 2 + ((46614314464849900857/39062500000000000000000 : ℝ) * (x + 4966977771/6250000000) ^ 11 * (-x) ^ 1 + ((1/10000 : ℝ) * (x + 4966977771/6250000000) ^ 12 * (-x) ^ 0)))))))))))) := by
    simp only [pt385p, pt385E, p391p, p391E, cuSp, cuE, niSp, niE]
    ring
  have hsum : (0:ℝ) ≤ (16341543511746492453677519024076368186613620853426432098758128987193142147349367594831069439808611030417563211488533015932079244697437152689/177635683940025046467781066894531250000000000000000000000000000000000000000000000000000000000000000000000000000000000000000000000000000000000000 : ℝ) * (x + 4966977771/6250000000) ^ 0 * (-x) ^ 12 + ((15779125058984357731399980830125705614678495997912812369424754454531874544622596223411392518715057684572544164411897933540579119321/14210854715202003717422485351562500000000000000000000000000000000000000000000000000000000000000000000000000000000000000000000000000000 : ℝ) * (x + 4966977771/6250000000) ^ 1 * (-x) ^ 11 + ((14009693420924154299212658751386031505402031716733738840890639881478293182340656626355377345627520141139109324278927100431/2273736754432320594787597656250000000000000000000000000000000000000000000000000000000000000000000000000000000000000000000000 : ℝ) * (x + 4966977771/6250000000) ^ 2 * (-x) ^ 10 + ((3769113023666408839113422266972063279142527769999401414339354615342470318284039679666183678832957607497430305151/181898940354585647583007812500000000000000000000000000000000000000000000000000000000000000000000000000000000000000 : ℝ) * (x + 4966977771/6250000000) ^ 3 * (-x) ^ 9 + ((273471941460525613612131140105449125828630475101507073293672241038381286670131877342640727189969030941/5820766091346740722656250000000000000000000000000000000000000000000000000000000000000000000000000000000 : ℝ) * (x + 4966977771/6250000000) ^ 4 * (-x) ^ 8 + ((1409483541937455291372315114791363634875832749630227901699926215540461455820347921355357661/18626451492309570312500000000000000000000000000000000000000000000000000000000000000000000000 : ℝ) * (x + 4966977771/6250000000) ^ 5 * (-x) ^ 7 + ((10589133194830706558520385639390765302335000310206074848008367845575920716173737/119209289550781250000000000000000000000000000000000000000000000000000000000000000 : ℝ) * (x + 4966977771/6250000000) ^ 6 * (-x) ^ 6 + ((146141433904946222729971108109636312634950858099933353347135520982133/1907348632812500000000000000000000000000000000000000000000000000000000 : ℝ) * (x + 4966977771/6250000000) ^ 7 * (-x) ^ 5 + ((36784264818360431546541164108320597808069904990753399648117/762939453125000000000000000000000000000000000000000000000000 : ℝ) * (x + 4966977771/6250000000) ^ 8 * (-x) ^ 4 + ((263461004646305153300914100216929790522239795241/12207031250000000000000000000000000000000000000000 : ℝ) * (x + 4966977771/6250000000) ^ 9 * (-x) ^ 3 + ((3980099400638601888908311341459/610351562500000000000000000000000 : ℝ) * (x + 4966977771/6250000000) ^ 10 * (-x) ^ 2 + ((46614314464849900857/39062500000000000000000 : ℝ) * (x + 4966977771/6250000000) ^ 11 * (-x) ^ 1 + ((1/10000 : ℝ) * (x + 4966977771/6250000000) ^ 12 * (-x) ^ 0)))))))))))) := by
    repeat refine add_nonneg (hterm _ (by norm_num) _ _) ?_
    exact hterm _ (by norm_num) _ _
  have hL : (0:ℝ) < (4966977771/6250000000 : ℝ) ^ 12 := by positivity
  by_contra hc
  push_neg at hc
  have hneg : (1/10000 - cuE x) * (4966977771/6250000000 : ℝ) ^ 12 < 0 := mul_neg_of_neg_of_pos (by linarith) hL
  rw [key] at hneg
  linarith


lemma cuE_ge (x : ℝ) (h1 : (-4966977771/6250000000 : ℝ) ≤ x) (h2 : x ≤ 0) :
    -(1/10000) ≤ cuE x := by
  have hu : (0:ℝ) ≤ (x + 4966977771/6250000000) := by linarith
  have hv : (0:ℝ) ≤ (-x) := by linarith
  have hterm : ∀ c : ℝ, 0 ≤ c → ∀ k m : ℕ,
      0 ≤ c * (x + 4966977771/6250000000) ^ k * (-x) ^ m :=
    fun c hc k m => mul_nonneg (mul_nonneg hc (pow_nonneg hu k)) (pow_nonneg hv m)
  have key : (cuE x + 1/10000) * (4966977771/6250000000 : ℝ) ^ 12 =
      (19185593276258516839878694354829881813386379146573567901241871012806857852650632405168930560191388969582436788511466984067920755302562847311/177635683940025046467781066894531250000000000000000000000000000000000000000000000000000000000000000000000000000000000000000000000000000000000000 : ℝ) * (x + 4966977771/6250000000) ^ 0 * (-x) ^ 12 + ((18326926257500451190413984013624294385321504002087187630575245545468125455377403776588607481284942315427455835588102066459420880679/14210854715202003717422485351562500000000000000000000000000000000000000000000000000000000000000000000000000000000000000000000000000000 : ℝ) * (x + 4966977771/6250000000) ^ 1 * (-x) ^ 11 + ((16003631737582477551983630311113968494597968283266261159109360118521706817659343373644622654372479858860890675721072899569/2273736754432320594787597656250000000000000000000000000000000000000000000000000000000000000000000000000000000000000000000000 : ℝ) * (x + 4966977771/6250000000) ^ 2 * (-x) ^ 10 + ((4234440351935359654538921483027936720857472230000598585660645384657529681715960320333816321167042392502569694849/181898940354585647583007812500000000000000000000000000000000000000000000000000000000000000000000000000000000000000 : ℝ) * (x + 4966977771/6250000000) ^ 3 * (-x) ^ 9 + ((302783901582801717930837609894550874171369524898492926706327758961618713329868122657359272810030969059/5820766091346740722656250000000000000000000000000000000000000000000000000000000000000000000000000000000 : ℝ) * (x + 4966977771/6250000000) ^ 4 * (-x) ^ 8 + ((1540946374444380646127684885208636365124167250369772098300073784459538544179652078644642339/18626451492309570312500000000000000000000000000000000000000000000000000000000000000000000000 : ℝ) * (x + 4966977771/6250000000) ^ 5 * (-x) ^ 7 + ((11440743514153668441479614360609234697664999689793925151991632154424079283826263/119209289550781250000000000000000000000000000000000000000000000000000000000000000 : ℝ) * (x + 4966977771/6250000000) ^ 6 * (-x) ^ 6 + ((155982589532553777270028891890363687365049141900066646652864479017867/1907348632812500000000000000000000000000000000000000000000000000000000 : ℝ) * (x + 4966977771/6250000000) ^ 7 * (-x) ^ 5 + ((38746741041014568453458835891679402191930095009246600351883/762939453125000000000000000000000000000000000000000000000000 : ℝ) * (x + 4966977771/6250000000) ^ 8 * (-x) ^ 4 + ((273648370353694846699085899783070209477760204759/12207031250000000000000000000000000000000000000000 : ℝ) * (x + 4966977771/6250000000) ^ 9 * (-x) ^ 3 + ((4076541224361398111091688658541/610351562500000000000000000000000 : ℝ) * (x + 4966977771/6250000000) ^ 10 * (-x) ^ 2 + ((47135685535150099143/39062500000000000000000 : ℝ) * (x + 4966977771/6250000000) ^ 11 * (-x) ^ 1 + ((1/10000 : ℝ) * (x + 4966977771/6250000000) ^ 12 * (-x) ^ 0)))))))))))) := by
    simp only [pt385p, pt385E, p391p, p391E, cuSp, cuE, niSp, niE]
    ring
  have hsum : (0:ℝ) ≤ (19185593276258516839878694354829881813386379146573567901241871012806857852650632405168930560191388969582436788511466984067920755302562847311/177635683940025046467781066894531250000000000000000000000000000000000000000000000000000000000000000000000000000000000000000000000000000000000000 : ℝ) * (x + 4966977771/6250000000) ^ 0 * (-x) ^ 12 + ((18326926257500451190413984013624294385321504002087187630575245545468125455377403776588607481284942315427455835588102066459420880679/14210854715202003717422485351562500000000000000000000000000000000000000000000000000000000000000000000000000000000000000000000000000000 : ℝ) * (x + 4966977771/6250000000) ^ 1 * (-x) ^ 11 + ((16003631737582477551983630311113968494597968283266261159109360118521706817659343373644622654372479858860890675721072899569/2273736754432320594787597656250000000000000000000000000000000000000000000000000000000000000000000000000000000000000000000000 : ℝ) * (x + 4966977771/6250000000) ^ 2 * (-x) ^ 10 + ((4234440351935359654538921483027936720857472230000598585660645384657529681715960320333816321167042392502569694849/181898940354585647583007812500000000000000000000000000000000000000000000000000000000000000000000000000000000000000 : ℝ) * (x + 4966977771/6250000000) ^ 3 * (-x) ^ 9 + ((302783901582801717930837609894550874171369524898492926706327758961618713329868122657359272810030969059/5820766091346740722656250000000000000000000000000000000000000000000000000000000000000000000000000000000 : ℝ) * (x + 4966977771/6250000000) ^ 4 * (-x) ^ 8 + ((1540946374444380646127684885208636365124167250369772098300073784459538544179652078644642339/18626451492309570312500000000000000000000000000000000000000000000000000000000000000000000000 : ℝ) * (x + 4966977771/6250000000) ^ 5 * (-x) ^ 7 + ((11440743514153668441479614360609234697664999689793925151991632154424079283826263/119209289550781250000000000000000000000000000000000000000000000000000000000000000 : ℝ) * (x + 4966977771/6250000000) ^ 6 * (-x) ^ 6 + ((155982589532553777270028891890363687365049141900066646652864479017867/1907348632812500000000000000000000000000000000000000000000000000000000 : ℝ) * (x + 4966977771/6250000000) ^ 7 * (-x) ^ 5 + ((38746741041014568453458835891679402191930095009246600351883/762939453125000000000000000000000000000000000000000000000000 : ℝ) * (x + 4966977771/6250000000) ^ 8 * (-x) ^ 4 + ((273648370353694846699085899783070209477760204759/12207031250000000000000000000000000000000000000000 : ℝ) * (x + 4966977771/6250000000) ^ 9 * (-x) ^ 3 + ((4076541224361398111091688658541/610351562500000000000000000000000 : ℝ) * (x + 4966977771/6250000000) ^ 10 * (-x) ^ 2 + ((47135685535150099143/39062500000000000000000 : ℝ) * (x + 4966977771/6250000000) ^ 11 * (-x) ^ 1 + ((1/10000 : ℝ) * (x + 4966977771/6250000000) ^ 12 * (-x) ^ 0)))))))))))) := by
    repeat refine add_nonneg (hterm _ (by norm_num) _ _) ?_
    exact hterm _ (by norm_num) _ _
  have hL : (0:ℝ) < (4966977771/6250000000 : ℝ) ^ 12 := by positivity
  by_contra hc
  push_neg at hc
  have hneg : (cuE x + 1/10000) * (4966977771/6250000000 : ℝ) ^ 12 < 0 := mul_neg_of_neg_of_pos (by linarith) hL
  rw [key] at hneg
  linarith


lemma cuSp_lower (x : ℝ) (h1 : (-4966977771/6250000000 : ℝ) ≤ x) (h2 : x ≤ 0) :
    0 ≤ cuSp x + 180 := by
  have hu : (0:ℝ) ≤ (x + 4966977771/6250000000) := by linarith
  have hv : (0:ℝ) ≤ (-x) := by linarith
  have hterm : ∀ c : ℝ, 0 ≤ c → ∀ k m : ℕ,
      0 ≤ c * (x + 4966977771/6250000000) ^ k * (-x) ^ m :=
    fun c hc k m => mul_nonneg (mul_nonneg hc (pow_nonneg hu k)) (pow_nonneg hv m)
  have key : (cuSp x + 180) * (4966977771/6250000000 : ℝ) ^ 4 =
      (26659309736884177523334110180543533328607/15258789062500000000000000000000000000000000 : ℝ) * (x + 4966977771/6250000000) ^ 0 * (-x) ^ 4 + ((211732864002115219355388537506545341/1220703125000000000000000000000000 : ℝ) * (x + 4966977771/6250000000) ^ 1 * (-x) ^ 3 + ((20602804718779988215436217/39062500000000000000000 : ℝ) * (x + 4966977771/6250000000) ^ 2 * (-x) ^ 2 + ((333837290869623/625000000000 : ℝ) * (x + 4966977771/6250000000) ^ 3 * (-x) ^ 1 + ((180 : ℝ) * (x + 4966977771/6250000000) ^ 4 * (-x) ^ 0)))) := by
    simp only [pt385p, pt385E, p391p, p391E, cuSp, cuE, niSp, niE]
    ring
  have hsum : (0:ℝ) ≤ (26659309736884177523334110180543533328607/15258789062500000000000000000000000000000000 : ℝ) * (x + 4966977771/6250000000) ^ 0 * (-x) ^ 4 + ((211732864002115219355388537506545341/1220703125000000000000000000000000 : ℝ) * (x + 4966977771/6250000000) ^ 1 * (-x) ^ 3 + ((20602804718779988215436217/39062500000000000000000 : ℝ) * (x + 4966977771/6250000000) ^ 2 * (-x) ^ 2 + ((333837290869623/625000000000 : ℝ) * (x + 4966977771/6250000000) ^ 3 * (-x) ^ 1 + ((180 : ℝ) * (x + 4966977771/6250000000) ^ 4 * (-x) ^ 0)))) := by
    repeat refine add_nonneg (hterm _ (by norm_num) _ _) ?_
    exact hterm _ (by norm_num) _ _
  have hL : (0:ℝ) < (4966977771/6250000000 : ℝ) ^ 4 := by positivity
  by_contra hc
  push_neg at hc
  have hneg : (cuSp x + 180) * (4966977771/6250000000 : ℝ) ^ 4 < 0 := mul_neg_of_neg_of_pos (by linarith) hL
  rw [key] at hneg
  linarith


lemma cuSp_upper (x : ℝ) (h1 : (-4966977771/6250000000 : ℝ) ≤ x) (h2 : x ≤ 0) :
    0 ≤ -(cuSp x) := by
  have hu : (0:ℝ) ≤ (x + 4966977771/6250000000) := by linarith
  have hv : (0:ℝ) ≤ (-x) := by linarith
  have hterm : ∀ c : ℝ, 0 ≤ c → ∀ k m : ℕ,
      0 ≤ c * (x + 4966977771/6250000000) ^ k * (-x) ^ m :=
    fun c hc k m => mul_nonneg (mul_nonneg hc (pow_nonneg hu k)) (pow_nonneg hv m)
  have key : (-(cuSp x)) * (4966977771/6250000000 : ℝ) ^ 4 =
      (2746555371940263115822476665889819456466671393/15258789062500000000000000000000000000000000 : ℝ) * (x + 4966977771/6250000000) ^ 0 * (-x) ^ 4 + ((667173385997884780644611462493454659/1220703125000000000000000000000000 : ℝ) * (x + 4966977771/6250000000) ^ 1 * (-x) ^ 3 + ((21584695281220011784563783/39062500000000000000000 : ℝ) * (x + 4966977771/6250000000) ^ 2 * (-x) ^ 2 + ((116162709130377/625000000000 : ℝ) * (x + 4966977771/6250000000) ^ 3 * (-x) ^ 1 + ((0 : ℝ) * (x + 4966977771/6250000000) ^ 4 * (-x) ^ 0)))) := by
    simp only [pt385p, pt385E, p391p, p391E, cuSp, cuE, niSp, niE]
    ring
  have hsum : (0:ℝ) ≤ (2746555371940263115822476665889819456466671393/15258789062500000000000000000000000000000000 : ℝ) * (x + 4966977771/6250000000) ^ 0 * (-x) ^ 4 + ((667173385997884780644611462493454659/1220703125000000000000000000000000 : ℝ) * (x + 4966977771/6250000000) ^ 1 * (-x) ^ 3 + ((21584695281220011784563783/39062500000000000000000 : ℝ) * (x + 4966977771/6250000000) ^ 2 * (-x) ^ 2 + ((116162709130377/625000000000 : ℝ) * (x + 4966977771/6250000000) ^ 3 * (-x) ^ 1 + ((0 : ℝ) * (x + 4966977771/6250000000) ^ 4 * (-x) ^ 0)))) := by
    repeat refine add_nonneg (hterm _ (by norm_num) _ _) ?_
    exact hterm _ (by norm_num) _ _
  have hL : (0:ℝ) < (4966977771/6250000000 : ℝ) ^ 4 := by positivity
  by_contra hc
  push_neg at hc
  have hneg : (-(cuSp x)) * (4966977771/6250000000 : ℝ) ^ 4 < 0 := mul_neg_of_neg_of_pos (by linarith) hL
  rw [key] at hneg
  linarith


lemma niE_le (x : ℝ) (h1 : (0:ℝ) ≤ x) (h2 : x ≤ 192144649/312500000) :
    niE x ≤ 1/10000 := by
  have hu : (0:ℝ) ≤ x := by linarith
  have hv : (0:ℝ) ≤ (192144649/312500000 - x) := by linarith
  have hterm : ∀ c : ℝ, 0 ≤ c → ∀ k m : ℕ,
      0 ≤ c * x ^ k * (192144649/312500000 - x) ^ m :=
    fun c hc k m => mul_nonneg (mul_nonneg hc (pow_nonneg hu k)) (pow_nonneg hv m)
  have key : (1/10000 - niE x) * (192144649/312500000 : ℝ) ^ 9 =
      (57/500000 : ℝ) * x ^ 0 * (192144649/312500000 - x) ^ 9 + ((323760737311921/305175781250000000 : ℝ) * x ^ 1 * (192144649/312500000 - x) ^ 8 + ((18181190196062689159155626619/4768371582031250000000000000000 : ℝ) * x ^ 2 * (192144649/312500000 - x) ^ 7 + ((17714117410934450401803014405198644535877/2328306436538696289062500000000000000000000 : ℝ) * x ^ 3 * (192144649/312500000 - x) ^ 6 + ((480842737651262710353027633195816154930993466971933/46566128730773925781250000000000000000000000000000000 : ℝ) * x ^ 4 * (192144649/312500000 - x) ^ 5 + ((3137075891811728776306689516053136149052025865950904642309903/291038304567337036132812500000000000000000000000000000000000000 : ℝ) * x ^ 5 * (192144649/312500000 - x) ^ 4 + ((12297064040985491671824242500692260966322800177582635071022297987621027/1455191522836685180664062500000000000000000000000000000000000000000000000 : ℝ) * x ^ 6 * (192144649/312500000 - x) ^ 3 + ((9730741606301469641327798865352463244694885256509125460474066099590771843441219/2273736754432320594787597656250000000000000000000000000000000000000000000000000000 : ℝ) * x ^ 7 * (192144649/312500000 - x) ^ 2 + ((791314414629864641411376413173107446849185125758559183631032147006376614951058527447533/710542735760100185871124267578125000000000000000000000000000000000000000000000000000000000 : ℝ) * x ^ 8 * (192144649/312500000 - x) ^ 1 + ((99302752559137824709219292839452061959012471674559714314605526945270475198565771689678845864309/1110223024625156540423631668090820312500000000000000000000000000000000000000000000000000000000000000 : ℝ) * x ^ 9 * (192144649/312500000 - x) ^ 0))))))))) := by
    simp only [pt385p, pt385E, p391p, p391E, cuSp, cuE, niSp, niE]
    ring
  have hsum : (0:ℝ) ≤ (57/500000 : ℝ) * x ^ 0 * (192144649/312500000 - x) ^ 9 + ((323760737311921/305175781250000000 : ℝ) * x ^ 1 * (192144649/312500000 - x) ^ 8 + ((18181190196062689159155626619/4768371582031250000000000000000 : ℝ) * x ^ 2 * (192144649/312500000 - x) ^ 7 + ((17714117410934450401803014405198644535877/2328306436538696289062500000000000000000000 : ℝ) * x ^ 3 * (192144649/312500000 - x) ^ 6 + ((480842737651262710353027633195816154930993466971933/46566128730773925781250000000000000000000000000000000 : ℝ) * x ^ 4 * (192144649/312500000 - x) ^ 5 + ((3137075891811728776306689516053136149052025865950904642309903/291038304567337036132812500000000000000000000000000000000000000 : ℝ) * x ^ 5 * (192144649/312500000 - x) ^ 4 + ((12297064040985491671824242500692260966322800177582635071022297987621027/1455191522836685180664062500000000000000000000000000000000000000000000000 : ℝ) * x ^ 6 * (192144649/312500000 - x) ^ 3 + ((9730741606301469641327798865352463244694885256509125460474066099590771843441219/2273736754432320594787597656250000000000000000000000000000000000000000000000000000 : ℝ) * x ^ 7 * (192144649/312500000 - x) ^ 2 + ((791314414629864641411376413173107446849185125758559183631032147006376614951058527447533/710542735760100185871124267578125000000000000000000000000000000000000000000000000000000000 : ℝ) * x ^ 8 * (192144649/312500000 - x) ^ 1 + ((99302752559137824709219292839452061959012471674559714314605526945270475198565771689678845864309/1110223024625156540423631668090820312500000000000000000000000000000000000000000000000000000000000000 : ℝ) * x ^ 9 * (192144649/312500000 - x) ^ 0))))))))) := by
    repeat refine add_nonneg (hterm _ (by norm_num) _ _) ?_
    exact hterm _ (by norm_num) _ _
  have hL : (0:ℝ) < (192144649/312500000 : ℝ) ^ 9 := by positivity
  by_contra hc
  push_neg at hc
  have hneg : (1/10000 - niE x) * (192144649/312500000 : ℝ) ^ 9 < 0 := mul_neg_of_neg_of_pos (by linarith) hL
  rw [key] at hneg
  linarith


lemma niE_ge (x : ℝ) (h1 : (0:ℝ) ≤ x) (h2 : x ≤ 192144649/312500000) :
    -(1/10000) ≤ niE x := by
  have hu : (0:ℝ) ≤ x := by linarith
  have hv : (0:ℝ) ≤ (192144649/312500000 - x) := by linarith
  have hterm : ∀ c : ℝ, 0 ≤ c → ∀ k m : ℕ,
      0 ≤ c * x ^ k * (192144649/312500000 - x) ^ m :=
    fun c hc k m => mul_nonneg (mul_nonneg hc (pow_nonneg hu k)) (pow_nonneg hv m)
  have key : (niE x + 1/10000) * (192144649/312500000 : ℝ) ^ 9 =
      (43/500000 : ℝ) * x ^ 0 * (192144649/312500000 - x) ^ 9 + ((225555668938079/305175781250000000 : ℝ) * x ^ 1 * (192144649/312500000 - x) ^ 8 + ((16151085194562310840844373381/4768371582031250000000000000000 : ℝ) * x ^ 2 * (192144649/312500000 - x) ^ 7 + ((21401430722915647254446985594801355464123/2328306436538696289062500000000000000000000 : ℝ) * x ^ 3 * (192144649/312500000 - x) ^ 6 + ((692623706364240219334472366804183845069006533028067/46566128730773925781250000000000000000000000000000000 : ℝ) * x ^ 4 * (192144649/312500000 - x) ^ 5 + ((4197089383285164534240185483946863850947974134049095357690097/291038304567337036132812500000000000000000000000000000000000000 : ℝ) * x ^ 5 * (192144649/312500000 - x) ^ 4 + ((12150153542670819363332007499307739033677199822417364928977702012378973/1455191522836685180664062500000000000000000000000000000000000000000000000 : ℝ) * x ^ 6 * (192144649/312500000 - x) ^ 3 + ((6640163025611238641142904259647536755305114743490874539525933900409228156558781/2273736754432320594787597656250000000000000000000000000000000000000000000000000000 : ℝ) * x ^ 7 * (192144649/312500000 - x) ^ 2 + ((487662509738315693156647268467517553150814874241440816368967852993623385048941472552467/710542735760100185871124267578125000000000000000000000000000000000000000000000000000000000 : ℝ) * x ^ 8 * (192144649/312500000 - x) ^ 1 + ((122741852365893483375507040778712000540987528325440285685394473054729524801434228310321154135691/1110223024625156540423631668090820312500000000000000000000000000000000000000000000000000000000000000 : ℝ) * x ^ 9 * (192144649/312500000 - x) ^ 0))))))))) := by
    simp only [pt385p, pt385E, p391p, p391E, cuSp, cuE, niSp, niE]
    ring
  have hsum : (0:ℝ) ≤ (43/500000 : ℝ) * x ^ 0 * (192144649/312500000 - x) ^ 9 + ((225555668938079/305175781250000000 : ℝ) * x ^ 1 * (192144649/312500000 - x) ^ 8 + ((16151085194562310840844373381/4768371582031250000000000000000 : ℝ) * x ^ 2 * (192144649/312500000 - x) ^ 7 + ((21401430722915647254446985594801355464123/2328306436538696289062500000000000000000000 : ℝ) * x ^ 3 * (192144649/312500000 - x) ^ 6 + ((692623706364240219334472366804183845069006533028067/46566128730773925781250000000000000000000000000000000 : ℝ) * x ^ 4 * (192144649/312500000 - x) ^ 5 + ((4197089383285164534240185483946863850947974134049095357690097/291038304567337036132812500000000000000000000000000000000000000 : ℝ) * x ^ 5 * (192144649/312500000 - x) ^ 4 + ((12150153542670819363332007499307739033677199822417364928977702012378973/1455191522836685180664062500000000000000000000000000000000000000000000000 : ℝ) * x ^ 6 * (192144649/312500000 - x) ^ 3 + ((6640163025611238641142904259647536755305114743490874539525933900409228156558781/2273736754432320594787597656250000000000000000000000000000000000000000000000000000 : ℝ) * x ^ 7 * (192144649/312500000 - x) ^ 2 + ((487662509738315693156647268467517553150814874241440816368967852993623385048941472552467/710542735760100185871124267578125000000000000000000000000000000000000000000000000000000000 : ℝ) * x ^ 8 * (192144649/312500000 - x) ^ 1 + ((122741852365893483375507040778712000540987528325440285685394473054729524801434228310321154135691/1110223024625156540423631668090820312500000000000000000000000000000000000000000000000000000000000000 : ℝ) * x ^ 9 * (192144649/312500000 - x) ^ 0))))))))) := by
    repeat refine add_nonneg (hterm _ (by norm_num) _ _) ?_
    exact hterm _ (by norm_num) _ _
  have hL : (0:ℝ) < (192144649/312500000 : ℝ) ^ 9 := by positivity
  by_contra hc
  push_neg at hc
  have hneg : (niE x + 1/10000) * (192144649/312500000 : ℝ) ^ 9 < 0 := mul_neg_of_neg_of_pos (by linarith) hL
  rw [key] at hneg
  linarith


lemma niSp_cap (x : ℝ) (h1 : (0:ℝ) ≤ x) (h2 : x ≤ 192144649/312500000) :
    0 ≤ 80.005 - niSp x := by
  have hu : (0:ℝ) ≤ x := by linarith
  have hv : (0:ℝ) ≤ (192144649/312500000 - x) := by linarith
  have hterm : ∀ c : ℝ, 0 ≤ c → ∀ k m : ℕ,
      0 ≤ c * x ^ k * (192144649/312500000 - x) ^ m :=
    fun c hc k m => mul_nonneg (mul_nonneg hc (pow_nonneg hu k)) (pow_nonneg hv m)
  have key : (80.005 - niSp x) * (192144649/312500000 : ℝ) ^ 3 =
      (16001/200 : ℝ) * x ^ 0 * (192144649/312500000 - x) ^ 3 + ((184833641241/1220703125 : ℝ) * x ^ 1 * (192144649/312500000 - x) ^ 2 + ((3537970265247637645951/48828125000000000000 : ℝ) * x ^ 2 * (192144649/312500000 - x) ^ 1 + ((286625305797921399289633669/76293945312500000000000000000 : ℝ) * x ^ 3 * (192144649/312500000 - x) ^ 0))) := by
    simp only [pt385p, pt385E, p391p, p391E, cuSp, cuE, niSp, niE]
    ring
  have hsum : (0:ℝ) ≤ (16001/200 : ℝ) * x ^ 0 * (192144649/312500000 - x) ^ 3 + ((184833641241/1220703125 : ℝ) * x ^ 1 * (192144649/312500000 - x) ^ 2 + ((3537970265247637645951/48828125000000000000 : ℝ) * x ^ 2 * (192144649/312500000 - x) ^ 1 + ((286625305797921399289633669/76293945312500000000000000000 : ℝ) * x ^ 3 * (192144649/312500000 - x) ^ 0))) := by
    repeat refine add_nonneg (hterm _ (by norm_num) _ _) ?_
    exact hterm _ (by norm_num) _ _
  have hL : (0:ℝ) < (192144649/312500000 : ℝ) ^ 3 := by positivity
  by_contra hc
  push_neg at hc
  have hneg : (80.005 - niSp x) * (192144649/312500000 : ℝ) ^ 3 < 0 := mul_neg_of_neg_of_pos (by linarith) hL
  rw [key] at hneg
  linarith

/-! Round-trip machinery for claim C1: evaluation of the series loop,
square-root algebra for the quadratic-formula inverse branches, and the
plumbing of the checked `to_base`/`from_base` pipeline. -/

lemma seriesLoop_four (d1 d2 d3 d4 x : ℝ) :
    seriesLoop 0 0 [d1, d2, d3, d4] x =
      d1 * x + d2 * x ^ 2 + d3 * x ^ 3 + d4 * x ^ 4 := by
  simp only [seriesLoop]
  norm_num

lemma seriesLoop_three (d1 d2 d3 x : ℝ) :
    seriesLoop 0 0 [d1, d2, d3] x = d1 * x + d2 * x ^ 2 + d3 * x ^ 3 := by
  simp only [seriesLoop]
  norm_num

lemma sqrt_le_of_sq (a b : ℝ) (hb : 0 ≤ b) (h : a ≤ b ^ 2) :
    Real.sqrt a ≤ b := by
  calc Real.sqrt a ≤ Real.sqrt (b ^ 2) := Real.sqrt_le_sqrt h
    _ = b := Real.sqrt_sq hb

lemma le_sqrt_of_sq (a b : ℝ) (hb : 0 ≤ b) (h : b ^ 2 ≤ a) :
    b ≤ Real.sqrt a := by
  calc b = Real.sqrt (b ^ 2) := (Real.sqrt_sq hb).symm
    _ ≤ Real.sqrt a := Real.sqrt_le_sqrt h

/-- If `s` squares to the discriminant, then `(s - A)/(2B)` is an exact root
of the forward quadratic `R0*(1 + A*t + B*t^2) = v`. -/
lemma quad_root_eval (R0 A B v s t : ℝ) (hR0 : R0 ≠ 0) (hB : B ≠ 0)
    (ht : t = (s - A) / (2 * B))
    (hs : s ^ 2 = A ^ 2 - 4 * B * (1 - v / R0)) :
    R0 * (1 + A * t + B * t ^ 2) = v := by
  have h2B : (2 : ℝ) * B ≠ 0 := by
    intro hc
    exact hB (by linarith)
  have h2 : 2 * B * t + A = s := by
    rw [ht]
    field_simp
  have hq : 4 * B * (B * t ^ 2 + A * t + (1 - v / R0)) = 0 := by
    have hs' : (2 * B * t + A) ^ 2 = A ^ 2 - 4 * B * (1 - v / R0) := by
      rw [h2]
      exact hs
    linear_combination hs'
  have h4B : (4 : ℝ) * B ≠ 0 := by
    intro hc
    exact hB (by linarith)
  have hq2 : B * t ^ 2 + A * t + (1 - v / R0) = 0 :=
    (mul_eq_zero.mp hq).resolve_left h4B
  have h5 : 1 + A * t + B * t ^ 2 = v / R0 := by linarith
  rw [h5]
  field_simp

/-- The quadratic branch of `PtResistConverter._to_base` inverts the forward
quadratic exactly, with the root confined to `[0, tmax]`. -/
lemma pt_quad_branch (p : RtdParams) (v tmax : ℝ) (hR0 : p.R0 ≠ 0)
    (hB : p.B < 0) (hA : 0 ≤ p.A)
    (htmax : 0 ≤ p.A + 2 * p.B * tmax)
    (hbr : 1 ≤ v / p.R0)
    (hd : (p.A + 2 * p.B * tmax) ^ 2 ≤ p.A ^ 2 - 4 * p.B * (1 - v / p.R0)) :
    ∃ t, ptToBaseRaw p v = .ok t ∧ 0 ≤ t ∧ t ≤ tmax ∧
      p.R0 * (1 + p.A * t + p.B * t ^ 2) = v := by
  have hd0 : (0 : ℝ) ≤ p.A ^ 2 - 4 * p.B * (1 - v / p.R0) :=
    le_trans (sq_nonneg _) hd
  have hdA : p.A ^ 2 - 4 * p.B * (1 - v / p.R0) ≤ p.A ^ 2 := by
    nlinarith [hbr, hB]
  have hsA : Real.sqrt (p.A ^ 2 - 4 * p.B * (1 - v / p.R0)) ≤ p.A :=
    sqrt_le_of_sq _ _ hA hdA
  have hsl : p.A + 2 * p.B * tmax ≤
      Real.sqrt (p.A ^ 2 - 4 * p.B * (1 - v / p.R0)) :=
    le_sqrt_of_sq _ _ htmax hd
  have h2B : 2 * p.B < 0 := by linarith
  refine ⟨(Real.sqrt (p.A ^ 2 - 4 * p.B * (1 - v / p.R0)) - p.A) / (2 * p.B),
    ?_, ?_, ?_, ?_⟩
  · rw [ptToBaseRaw, if_pos hbr, mathSqrt, if_neg (not_lt.mpr hd0)]
  · rw [div_nonneg_iff]
    right
    exact ⟨by linarith, by linarith⟩
  · rw [div_le_iff_of_neg h2B]
    linarith
  · exact quad_root_eval p.R0 p.A p.B v _ _ hR0 (ne_of_lt hB) rfl
      (Real.sq_sqrt hd0)

/-- The quadratic branch of `NiResistConverter._to_base` (positive `B`)
inverts the forward quadratic exactly, with the root confined to
`[tmin, tmax]`. -/
lemma ni_quad_branch (p : RtdParams) (v tmin tmax : ℝ) (hR0 : p.R0 ≠ 0)
    (hB : 0 < p.B)
    (hbr : v ≤ 161.72)
    (hlo : 0 ≤ p.A + 2 * p.B * tmin)
    (hhi : 0 ≤ p.A + 2 * p.B * tmax)
    (hd1 : (p.A + 2 * p.B * tmin) ^ 2 ≤ p.A ^ 2 - 4 * p.B * (1 - v / p.R0))
    (hd2 : p.A ^ 2 - 4 * p.B * (1 - v / p.R0) ≤ (p.A + 2 * p.B * tmax) ^ 2) :
    ∃ t, niToBaseRaw p v = .ok t ∧ tmin ≤ t ∧ t ≤ tmax ∧
      p.R0 * (1 + p.A * t + p.B * t ^ 2) = v := by
  have hd0 : (0 : ℝ) ≤ p.A ^ 2 - 4 * p.B * (1 - v / p.R0) :=
    le_trans (sq_nonneg _) hd1
  have hsl : p.A + 2 * p.B * tmin ≤
      Real.sqrt (p.A ^ 2 - 4 * p.B * (1 - v / p.R0)) :=
    le_sqrt_of_sq _ _ hlo hd1
  have hsh : Real.sqrt (p.A ^ 2 - 4 * p.B * (1 - v / p.R0)) ≤
      p.A + 2 * p.B * tmax :=
    sqrt_le_of_sq _ _ hhi hd2
  have h2B : 0 < 2 * p.B := by linarith
  refine ⟨(Real.sqrt (p.A ^ 2 - 4 * p.B * (1 - v / p.R0)) - p.A) / (2 * p.B),
    ?_, ?_, ?_, ?_⟩
  · rw [niToBaseRaw, if_pos hbr, mathSqrt, if_neg (not_lt.mpr hd0)]
  · rw [le_div_iff₀ h2B]
    linarith
  · rw [div_le_iff₀ h2B]
    linarith
  · exact quad_root_eval p.R0 p.A p.B v _ _ hR0 (ne_of_gt hB) rfl
      (Real.sq_sqrt hd0)

lemma pt_series_branch (p : RtdParams) (v : ℝ) (hbr : ¬ 1 ≤ v / p.R0) :
    ptToBaseRaw p v = .ok (seriesLoop 0 0 p.D (v / p.R0 - 1)) := by
  rw [ptToBaseRaw, if_neg hbr]

lemma ni_series_branch (p : RtdParams) (v : ℝ) (hbr : ¬ v ≤ 161.72) :
    niToBaseRaw p v = .ok (100 + seriesLoop 0 0 p.D (v / p.R0 - 1.6172)) := by
  rw [niToBaseRaw, if_neg hbr]

/-- For a nonnegative root the forward map agrees with the quadratic branch:
at `t = 0` the quartic and the quadratic branch coincide. -/
lemma ptFromBaseRaw_of_nonneg (p : RtdParams) (t v : ℝ) (ht : 0 ≤ t)
    (h : p.R0 * (1 + p.A * t + p.B * t ^ 2) = v) :
    ptFromBaseRaw p t = v := by
  rw [ptFromBaseRaw]
  split
  next hc =>
    have ht0 : t = 0 := le_antisymm hc.2 ht
    subst ht0
    linear_combination h
  next => exact h

lemma ptFromBaseRaw_quartic (p : RtdParams) (t : ℝ) (h : -200 ≤ t ∧ t ≤ 0) :
    ptFromBaseRaw p t =
      p.R0 * (1 + p.A * t + p.B * t ^ 2 + p.C * (t - 100) * t ^ 3) := by
  rw [ptFromBaseRaw, if_pos h]

lemma niFromBaseRaw_quad (p : RtdParams) (t : ℝ) (h : -60 ≤ t ∧ t ≤ 100) :
    niFromBaseRaw p t = p.R0 * (1 + p.A * t + p.B * t ^ 2) := by
  rw [niFromBaseRaw, if_pos h]

lemma niFromBaseRaw_cubic (p : RtdParams) (t : ℝ)
    (h : ¬ (-60 ≤ t ∧ t ≤ 100)) :
    niFromBaseRaw p t =
      p.R0 * (1 + p.A * t + p.B * t ^ 2 + p.C * (t - 100) * t ^ 2) := by
  rw [niFromBaseRaw, if_neg h]

lemma cuFromBaseRaw_of_nonneg (p : RtdParams) (lo hi t v : ℝ)
    (hchk : check_limits t (some lo) (some hi) = .ok ())
    (ht : 0 ≤ t) (h : p.R0 * (1 + p.A * t) = v) :
    cuFromBaseRaw p lo hi t = .ok v := by
  rw [cuFromBaseRaw]
  simp only [hchk]
  split
  next hc =>
    have ht0 : t = 0 := le_antisymm hc.2 ht
    subst ht0
    exact congrArg Except.ok (by linear_combination h)
  next => exact congrArg Except.ok h

lemma cuFromBaseRaw_cubic (p : RtdParams) (lo hi t : ℝ)
    (hchk : check_limits t (some lo) (some hi) = .ok ())
    (h : -180 ≤ t ∧ t ≤ 0) :
    cuFromBaseRaw p lo hi t =
      .ok (p.R0 * (1 + p.A * t + p.B * t * (t + 6.7) + p.C * t ^ 3)) := by
  rw [cuFromBaseRaw]
  simp only [hchk]
  rw [if_pos h]

lemma cuToBaseRaw_linear (p : RtdParams) (clo chi v : ℝ)
    (hchk : check_limits v (some clo) (some chi) = .ok ())
    (hbr : 1 ≤ v / p.R0) :
    cuToBaseRaw p clo chi v = .ok ((v / p.R0 - 1) / p.A) := by
  rw [cuToBaseRaw]
  simp only [hchk]
  rw [if_pos hbr]

lemma cuToBaseRaw_series (p : RtdParams) (clo chi v : ℝ)
    (hchk : check_limits v (some clo) (some chi) = .ok ())
    (hbr : ¬ 1 ≤ v / p.R0) :
    cuToBaseRaw p clo chi v = .ok (seriesLoop 0 0 p.D (v / p.R0 - 1)) := by
  rw [cuToBaseRaw]
  simp only [hchk]
  rw [if_neg hbr]

lemma pt_core (p : RtdParams) (lo hi v t : ℝ)
    (hchk : check_limits v (some (ptFromBaseRaw p lo))
      (some (ptFromBaseRaw p hi)) = .ok ())
    (htb : ptToBaseRaw p v = .ok t)
    (hchk2 : check_limits t (some lo) (some hi) = .ok ()) :
    roundTrip (PtResistConverter p lo hi) v = .ok (ptFromBaseRaw p t) := by
  simp only [roundTrip, Conv.to_base, Conv.from_base, PtResistConverter,
    hchk, htb, hchk2]

lemma ni_core (p : RtdParams) (lo hi v t : ℝ)
    (hchk : check_limits v (some (niFromBaseRaw p lo))
      (some (niFromBaseRaw p hi)) = .ok ())
    (htb : niToBaseRaw p v = .ok t)
    (hchk2 : check_limits t (some lo) (some hi) = .ok ()) :
    roundTrip (NiResistConverter p lo hi) v = .ok (niFromBaseRaw p t) := by
  simp only [roundTrip, Conv.to_base, Conv.from_base, NiResistConverter,
    hchk, htb, hchk2]

lemma cu_core (p : RtdParams) (lo hi v t r : ℝ)
    (hchk : check_limits v (some (cuFromBaseVal p lo))
      (some (cuFromBaseVal p hi)) = .ok ())
    (htb : cuToBaseRaw p (cuFromBaseVal p lo) (cuFromBaseVal p hi) v = .ok t)
    (hfb : cuFromBaseRaw p lo hi t = .ok r)
    (hchk2 : check_limits t (some lo) (some hi) = .ok ()) :
    roundTrip (CuResistConverter p lo hi) v = .ok r := by
  simp only [roundTrip, Conv.to_base, Conv.from_base, CuResistConverter,
    hchk, htb, hchk2, hfb]

lemma linear_roundTrip (coeff offset v : ℝ) (hc : coeff ≠ 0) :
    roundTrip (LinearConverter coeff offset none none) v = .ok v := by
  simp only [roundTrip, linear_to_base_eval, linear_from_base_eval,
    Except.ok.injEq]
  field_simp

/-! Exact values of the converted bounds stored by the resistance-curve
converters (the forward polynomial at the default base bounds). -/

lemma ptParams_lo_eval (R0 : ℝ) :
    ptFromBaseRaw (ptParams R0) (-200) = R0 * (231501/1250000) := by
  rw [ptFromBaseRaw, if_pos (by norm_num : (-200 : ℝ) ≤ -200 ∧ (-200 : ℝ) ≤ 0)]
  simp only [ptParams]
  ring_nf

lemma ptParams_hi_eval (R0 : ℝ) :
    ptFromBaseRaw (ptParams R0) 850 = R0 * (3123849/800000) := by
  rw [ptFromBaseRaw, if_neg (by norm_num : ¬ ((-200 : ℝ) ≤ 850 ∧ (850 : ℝ) ≤ 0))]
  simp only [ptParams]
  ring_nf

lemma pParams_lo_eval (R0 : ℝ) :
    ptFromBaseRaw (pParams R0) (-200) = R0 * (43111/250000) := by
  rw [ptFromBaseRaw, if_pos (by norm_num : (-200 : ℝ) ≤ -200 ∧ (-200 : ℝ) ≤ 0)]
  simp only [pParams]
  ring_nf

lemma pParams_hi_eval (R0 : ℝ) :
    ptFromBaseRaw (pParams R0) 850 = R0 * (15806551/4000000) := by
  rw [ptFromBaseRaw, if_neg (by norm_num : ¬ ((-200 : ℝ) ≤ 850 ∧ (850 : ℝ) ≤ 0))]
  simp only [pParams]
  ring_nf

lemma cuVal_lo_eval : cuFromBaseVal cuParams (-180) = 1283022229/62500000 := by
  rw [cuFromBaseVal, if_pos (by norm_num : (-180 : ℝ) ≤ -180 ∧ (-180 : ℝ) ≤ 0)]
  simp only [cuParams]
  norm_num

lemma cuVal_hi_eval : cuFromBaseVal cuParams 200 = 928/5 := by
  rw [cuFromBaseVal, if_neg (by norm_num : ¬ ((-180 : ℝ) ≤ 200 ∧ (200 : ℝ) ≤ 0))]
  simp only [cuParams]
  norm_num

lemma niParams_lo_eval : niFromBaseRaw niParams (-60) = 8681777/125000 := by
  rw [niFromBaseRaw, if_pos (by norm_num : (-60 : ℝ) ≤ -60 ∧ (-60 : ℝ) ≤ 100)]
  simp only [niParams]
  norm_num

lemma niParams_hi_eval : niFromBaseRaw niParams 180 = 697519649/3125000 := by
  rw [niFromBaseRaw, if_neg (by norm_num : ¬ ((-60 : ℝ) ≤ 180 ∧ (180 : ℝ) ≤ 100))]
  simp only [niParams]
  norm_num

/-- Checked round trip of the `Pt100`/`Pt50` converters: exact on the
quadratic branch, within the certified series bound on the fitted branch. -/
lemma pt385_roundTrip (R0 v : ℝ) (h0 : 0 < R0) (h100 : R0 ≤ 100)
    (hl : R0 * (231501/1250000) ≤ v) (hh : v ≤ R0 * (3123849/800000)) :
    ∃ r, roundTrip (PtResistConverter (ptParams R0) (-200) 850) v = .ok r ∧
      |r - v| ≤ 1/100 := by
  have hR0 : R0 ≠ 0 := ne_of_gt h0
  have hwlo : 231501/1250000 ≤ v / R0 := (le_div_iff₀ h0).mpr (by linarith)
  have hwhi : v / R0 ≤ 3123849/800000 := (div_le_iff₀ h0).mpr (by linarith)
  have hchk1 : check_limits v (some (ptFromBaseRaw (ptParams R0) (-200)))
      (some (ptFromBaseRaw (ptParams R0) 850)) = .ok () := by
    rw [ptParams_lo_eval, ptParams_hi_eval]
    exact check_limits_ok_of_le hl hh
  by_cases hbr : 1 ≤ v / (ptParams R0).R0
  · obtain ⟨t, htb, ht0, ht850, heval⟩ :=
      pt_quad_branch (ptParams R0) v 850 hR0
        (by norm_num [ptParams]) (by norm_num [ptParams])
        (by norm_num [ptParams]) hbr
        (by simp only [ptParams]; nlinarith [hwhi])
    have hfb : ptFromBaseRaw (ptParams R0) t = v :=
      ptFromBaseRaw_of_nonneg _ t v ht0 heval
    have hchk2 : check_limits t (some (-200)) (some 850) = .ok () :=
      check_limits_ok_of_le (by linarith) ht850
    refine ⟨v, ?_, by norm_num⟩
    rw [pt_core (ptParams R0) (-200) 850 v t hchk1 htb hchk2, hfb]
  · have hbr' : ¬ 1 ≤ v / R0 := hbr
    have hxlo : (-1018499/1250000 : ℝ) ≤ v / R0 - 1 := by linarith
    have hxhi : v / R0 - 1 ≤ 0 := by
      push_neg at hbr'
      linarith
    have htb := pt_series_branch (ptParams R0) v hbr
    have hsl : seriesLoop 0 0 (ptParams R0).D (v / (ptParams R0).R0 - 1) =
        pt385p (v / R0 - 1) := by
      simp only [ptParams, pt385p]
      rw [seriesLoop_four]
    rw [hsl] at htb
    have h200 : (-200 : ℝ) ≤ pt385p (v / R0 - 1) := by
      have := pt385p_lower (v / R0 - 1) hxlo hxhi
      linarith
    have hneg : pt385p (v / R0 - 1) ≤ 0 := by
      have := pt385p_upper (v / R0 - 1) hxlo hxhi
      linarith
    have hchk2 : check_limits (pt385p (v / R0 - 1)) (some (-200))
        (some 850) = .ok () :=
      check_limits_ok_of_le h200 (by linarith)
    have hfb : ptFromBaseRaw (ptParams R0) (pt385p (v / R0 - 1)) =
        v + R0 * pt385E (v / R0 - 1) := by
      rw [ptFromBaseRaw_quartic _ _ ⟨h200, hneg⟩]
      simp only [ptParams, pt385E]
      field_simp
      ring
    refine ⟨v + R0 * pt385E (v / R0 - 1), ?_, ?_⟩
    · rw [pt_core (ptParams R0) (-200) 850 v _ hchk1 htb hchk2, hfb]
    · have h1 := pt385E_le (v / R0 - 1) hxlo hxhi
      have h2 := pt385E_ge (v / R0 - 1) hxlo hxhi
      rw [abs_le]
      constructor
      · nlinarith [h2, h0.le, h100]
      · nlinarith [h1, h0.le, h100]

/-- Checked round trip of the `P100`/`P50` converters: exact on the
quadratic branch, within the certified series bound on the fitted branch. -/
lemma p391_roundTrip (R0 v : ℝ) (h0 : 0 < R0) (h100 : R0 ≤ 100)
    (hl : R0 * (43111/250000) ≤ v) (hh : v ≤ R0 * (15806551/4000000)) :
    ∃ r, roundTrip (PtResistConverter (pParams R0) (-200) 850) v = .ok r ∧
      |r - v| ≤ 1/100 := by
  have hR0 : R0 ≠ 0 := ne_of_gt h0
  have hwlo : 43111/250000 ≤ v / R0 := (le_div_iff₀ h0).mpr (by linarith)
  have hwhi : v / R0 ≤ 15806551/4000000 := (div_le_iff₀ h0).mpr (by linarith)
  have hchk1 : check_limits v (some (ptFromBaseRaw (pParams R0) (-200)))
      (some (ptFromBaseRaw (pParams R0) 850)) = .ok () := by
    rw [pParams_lo_eval, pParams_hi_eval]
    exact check_limits_ok_of_le hl hh
  by_cases hbr : 1 ≤ v / (pParams R0).R0
  · obtain ⟨t, htb, ht0, ht850, heval⟩ :=
      pt_quad_branch (pParams R0) v 850 hR0
        (by norm_num [pParams]) (by norm_num [pParams])
        (by norm_num [pParams]) hbr
        (by simp only [pParams]; nlinarith [hwhi])
    have hfb : ptFromBaseRaw (pParams R0) t = v :=
      ptFromBaseRaw_of_nonneg _ t v ht0 heval
    have hchk2 : check_limits t (some (-200)) (some 850) = .ok () :=
      check_limits_ok_of_le (by linarith) ht850
    refine ⟨v, ?_, by norm_num⟩
    rw [pt_core (pParams R0) (-200) 850 v t hchk1 htb hchk2, hfb]
  · have hbr' : ¬ 1 ≤ v / R0 := hbr
    have hxlo : (-206889/250000 : ℝ) ≤ v / R0 - 1 := by linarith
    have hxhi : v / R0 - 1 ≤ 0 := by
      push_neg at hbr'
      linarith
    have htb := pt_series_branch (pParams R0) v hbr
    have hsl : seriesLoop 0 0 (pParams R0).D (v / (pParams R0).R0 - 1) =
        p391p (v / R0 - 1) := by
      simp only [pParams, p391p]
      rw [seriesLoop_four]
    rw [hsl] at htb
    have h200 : (-200 : ℝ) ≤ p391p (v / R0 - 1) := by
      have := p391p_lower (v / R0 - 1) hxlo hxhi
      linarith
    have hneg : p391p (v / R0 - 1) ≤ 0 := by
      have := p391p_upper (v / R0 - 1) hxlo hxhi
      linarith
    have hchk2 : check_limits (p391p (v / R0 - 1)) (some (-200))
        (some 850) = .ok () :=
      check_limits_ok_of_le h200 (by linarith)
    have hfb : ptFromBaseRaw (pParams R0) (p391p (v / R0 - 1)) =
        v + R0 * p391E (v / R0 - 1) := by
      rw [ptFromBaseRaw_quartic _ _ ⟨h200, hneg⟩]
      simp only [pParams, p391E]
      field_simp
      ring
    refine ⟨v + R0 * p391E (v / R0 - 1), ?_, ?_⟩
    · rw [pt_core (pParams R0) (-200) 850 v _ hchk1 htb hchk2, hfb]
    · have h1 := p391E_le (v / R0 - 1) hxlo hxhi
      have h2 := p391E_ge (v / R0 - 1) hxlo hxhi
      rw [abs_le]
      constructor
      · nlinarith [h2, h0.le, h100]
      · nlinarith [h1, h0.le, h100]

/-- Checked round trip of the `Cu100` converter: exact on the linear branch,
within the certified series bound on the fitted branch. -/
lemma cu_roundTrip (v : ℝ) (hl : 1283022229/62500000 ≤ v) (hh : v ≤ 928/5) :
    ∃ r, roundTrip (CuResistConverter cuParams (-180) 200) v = .ok r ∧
      |r - v| ≤ 1/100 := by
  have hchk1 : check_limits v (some (cuFromBaseVal cuParams (-180)))
      (some (cuFromBaseVal cuParams 200)) = .ok () := by
    rw [cuVal_lo_eval, cuVal_hi_eval]
    exact check_limits_ok_of_le hl hh
  by_cases hbr : 1 ≤ v / cuParams.R0
  · have hbr' : 1 ≤ v / 100 := hbr
    have htb := cuToBaseRaw_linear cuParams (cuFromBaseVal cuParams (-180))
      (cuFromBaseVal cuParams 200) v hchk1 hbr
    have htval : (v / cuParams.R0 - 1) / cuParams.A =
        (v / 100 - 1) / (4.28e-3 : ℝ) := rfl
    have ht0 : 0 ≤ (v / 100 - 1) / (4.28e-3 : ℝ) := by
      apply div_nonneg (by linarith) (by norm_num)
    have ht200 : (v / 100 - 1) / (4.28e-3 : ℝ) ≤ 200 := by
      rw [div_le_iff₀ (by norm_num : (0:ℝ) < 4.28e-3)]
      have : v / 100 ≤ 928/500 := by linarith
      linarith
    have heval : cuParams.R0 * (1 + cuParams.A *
        ((v / cuParams.R0 - 1) / cuParams.A)) = v := by
      simp only [cuParams]
      field_simp
      ring
    have hchk2 : check_limits ((v / cuParams.R0 - 1) / cuParams.A)
        (some (-180)) (some 200) = .ok () := by
      rw [htval]
      exact check_limits_ok_of_le (by linarith) ht200
    have hfb : cuFromBaseRaw cuParams (-180) 200
        ((v / cuParams.R0 - 1) / cuParams.A) = .ok v := by
      refine cuFromBaseRaw_of_nonneg cuParams (-180) 200 _ v hchk2 ?_ heval
      rw [htval]
      exact ht0
    refine ⟨v, ?_, by norm_num⟩
    exact cu_core cuParams (-180) 200 v _ v hchk1 htb hfb hchk2
  · have hbr' : ¬ 1 ≤ v / 100 := hbr
    push_neg at hbr'
    have hxlo : (-4966977771/6250000000 : ℝ) ≤ v / 100 - 1 := by linarith
    have hxhi : v / 100 - 1 ≤ 0 := by linarith
    have htb := cuToBaseRaw_series cuParams (cuFromBaseVal cuParams (-180))
      (cuFromBaseVal cuParams 200) v hchk1 hbr
    have hsl : seriesLoop 0 0 cuParams.D (v / cuParams.R0 - 1) =
        cuSp (v / 100 - 1) := by
      simp only [cuParams, cuSp]
      rw [seriesLoop_four]
    rw [hsl] at htb
    have h180 : (-180 : ℝ) ≤ cuSp (v / 100 - 1) := by
      have := cuSp_lower (v / 100 - 1) hxlo hxhi
      linarith
    have hneg : cuSp (v / 100 - 1) ≤ 0 := by
      have := cuSp_upper (v / 100 - 1) hxlo hxhi
      linarith
    have hchk2 : check_limits (cuSp (v / 100 - 1)) (some (-180))
        (some 200) = .ok () :=
      check_limits_ok_of_le h180 (by linarith)
    have hfb : cuFromBaseRaw cuParams (-180) 200 (cuSp (v / 100 - 1)) =
        .ok (v + 100 * cuE (v / 100 - 1)) := by
      rw [cuFromBaseRaw_cubic cuParams (-180) 200 _ hchk2 ⟨h180, hneg⟩]
      simp only [cuParams, cuE]
      norm_num
      ring
    refine ⟨v + 100 * cuE (v / 100 - 1), ?_, ?_⟩
    · exact cu_core cuParams (-180) 200 v _ _ hchk1 htb hfb hchk2
    · have h1 := cuE_le (v / 100 - 1) hxlo hxhi
      have h2 := cuE_ge (v / 100 - 1) hxlo hxhi
      rw [abs_le]
      constructor
      · nlinarith [h2]
      · nlinarith [h1]

/-- `round(180.005, 2)` lands on the even tie `180.0`, so values up to
`180.005` pass the upper `base_hi = 180` check of the nickel converter. -/
lemma round2_ni_cap : round2 (180.005 : ℝ) = 180 := by
  rw [round2]
  have h : (180.005 : ℝ) * 100 = ((18000 : ℤ) : ℝ) + 1/2 := by norm_num
  rw [h, pyRound_half_even 18000 ⟨9000, by norm_num⟩]
  norm_num

lemma round2_180 : round2 (180 : ℝ) = 180 := by
  rw [round2_eq 18000 180 (by norm_num)]
  norm_num

/-- Checked round trip of the `Ni100` converter: exact on the quadratic
branch below `t = 100`, and within the certified bounds both in the small
overshoot window `(161.7186, 161.72]` and on the fitted series branch. -/
lemma ni_roundTrip (v : ℝ) (hl : 8681777/125000 ≤ v)
    (hh : v ≤ 697519649/3125000) :
    ∃ r, roundTrip (NiResistConverter niParams (-60) 180) v = .ok r ∧
      |r - v| ≤ 1/100 := by
  have hchk1 : check_limits v (some (niFromBaseRaw niParams (-60)))
      (some (niFromBaseRaw niParams 180)) = .ok () := by
    rw [niParams_lo_eval, niParams_hi_eval]
    exact check_limits_ok_of_le hl hh
  by_cases hbr : v ≤ (161.72 : ℝ)
  · obtain ⟨t, htb, htlo, hthi, heval⟩ :=
      ni_quad_branch niParams v (-60) (1000021/10000)
        (by norm_num [niParams]) (by norm_num [niParams]) hbr
        (by norm_num [niParams]) (by norm_num [niParams])
        (by simp only [niParams]; nlinarith [hl])
        (by simp only [niParams]; nlinarith [hbr])
    have hchk2 : check_limits t (some (-60)) (some 180) = .ok () :=
      check_limits_ok_of_le htlo (by linarith)
    by_cases hc : t ≤ 100
    · have hfb : niFromBaseRaw niParams t = v := by
        rw [niFromBaseRaw_quad niParams t ⟨htlo, hc⟩]
        exact heval
      refine ⟨v, ?_, by norm_num⟩
      rw [ni_core niParams (-60) 180 v t hchk1 htb hchk2, hfb]
    · push_neg at hc
      have hfb : niFromBaseRaw niParams t =
          v + 100 * (9.2004e-9 * (t - 100) * t ^ 2) := by
        rw [niFromBaseRaw_cubic niParams t (fun hcc => absurd hcc.2
          (not_le.mpr hc))]
        simp only [niParams] at heval ⊢
        linear_combination heval
      refine ⟨v + 100 * (9.2004e-9 * (t - 100) * t ^ 2), ?_, ?_⟩
      · rw [ni_core niParams (-60) 180 v t hchk1 htb hchk2, hfb]
      · have hsq : t ^ 2 ≤ (1000021/10000 : ℝ) ^ 2 := by nlinarith [hc, hthi]
        have hprod : (t - 100) * t ^ 2 ≤
            (21/10000 : ℝ) * (1000021/10000 : ℝ) ^ 2 :=
          mul_le_mul (by linarith) hsq (sq_nonneg t) (by norm_num)
        rw [abs_le]
        constructor
        · nlinarith [sq_nonneg t, hc]
        · nlinarith [hprod]
  · push_neg at hbr
    have hx0 : 0 < v / 100 - 1.6172 := by linarith
    have hx1 : (0 : ℝ) ≤ v / 100 - 1.6172 := le_of_lt hx0
    have hx2 : v / 100 - 1.6172 ≤ 192144649/312500000 := by linarith
    have htb := ni_series_branch niParams v (not_le.mpr hbr)
    have hsl : seriesLoop 0 0 niParams.D (v / niParams.R0 - 1.6172) =
        niSp (v / 100 - 1.6172) := by
      simp only [niParams, niSp]
      rw [seriesLoop_three]
    rw [hsl] at htb
    have hq : 0 < 144.096 - 25.502 * (v / 100 - 1.6172) +
        4.4876 * (v / 100 - 1.6172) ^ 2 := by
      nlinarith [sq_nonneg (v / 100 - 1.6172), hx2]
    have hp0 : 0 < niSp (v / 100 - 1.6172) := by
      rw [niSp]
      nlinarith [mul_pos hx0 hq]
    have hcap : niSp (v / 100 - 1.6172) ≤ 80.005 := by
      have := niSp_cap (v / 100 - 1.6172) hx1 hx2
      linarith
    have hchk2 : check_limits (100 + niSp (v / 100 - 1.6172)) (some (-60))
        (some 180) = .ok () := by
      refine check_limits_ok_round (round2_mono (by linarith)) ?_
      rw [round2_180]
      calc round2 (100 + niSp (v / 100 - 1.6172)) ≤ round2 (180.005 : ℝ) :=
            round2_mono (by linarith)
        _ = 180 := round2_ni_cap
    have hfb : niFromBaseRaw niParams (100 + niSp (v / 100 - 1.6172)) =
        v + 100 * niE (v / 100 - 1.6172) := by
      rw [niFromBaseRaw_cubic niParams _ (fun hcc => absurd hcc.2
        (not_le.mpr (by linarith)))]
      simp only [niParams, niE]
      ring
    refine ⟨v + 100 * niE (v / 100 - 1.6172), ?_, ?_⟩
    · rw [ni_core niParams (-60) 180 v _ hchk1 htb hchk2, hfb]
    · have h1 := niE_le (v / 100 - 1.6172) hx1 hx2
      have h2 := niE_ge (v / 100 - 1.6172) hx1 hx2
      rw [abs_le]
      constructor
      · nlinarith [h2]
      · nlinarith [h1]

/-- **C1**: for every converter the program constructs, `from_base(to_base(v))`
returns `v` again for every `v` in the declared domain: exactly (`.ok v`) for
every `LinearConverter`/`MultConverter` (all built unbounded), and for every
resistance-curve converter of `ThermoResistor._get_converters`, for every `v`
between its stored converted bounds, the checked round trip succeeds and
returns a value within `1/100` ohm of `v` (the fitted inverse series is only
approximate; the quadratic/linear inverse branches are exact). -/
theorem claim_C1 :
    (∀ coeff offset v : ℝ, coeff ≠ 0 →
      roundTrip (LinearConverter coeff offset none none) v = .ok v) ∧
    (∀ u : MUnit, ∀ c : Conv, thermoResistorRegistry u = some c →
      ∀ lo hi : ℝ, c.converted_low = some lo → c.converted_hi = some hi →
      ∀ v : ℝ, lo ≤ v → v ≤ hi →
      ∃ r : ℝ, roundTrip c v = .ok r ∧ |r - v| ≤ 1/100) := by
  constructor
  · exact fun coeff offset v hc => linear_roundTrip coeff offset v hc
  · intro u c hc lo hi hlo hhi v hvl hvh
    cases u <;>
      simp only [thermoResistorRegistry, Option.some.injEq, reduceCtorEq] at hc
    case rC =>
      subst hc
      simp only [MultConverter, LinearConverter, Option.map_none',
        reduceCtorEq] at hlo
    case rF =>
      subst hc
      simp only [LinearConverter, Option.map_none', reduceCtorEq] at hlo
    case rK =>
      subst hc
      simp only [LinearConverter, Option.map_none', reduceCtorEq] at hlo
    case rP100 =>
      subst hc
      simp only [PtResistConverter, Option.some.injEq] at hlo hhi
      rw [pParams_lo_eval] at hlo
      rw [pParams_hi_eval] at hhi
      exact p391_roundTrip 100 v (by norm_num) (by norm_num) (by linarith)
        (by linarith)
    case rP50 =>
      subst hc
      simp only [PtResistConverter, Option.some.injEq] at hlo hhi
      rw [pParams_lo_eval] at hlo
      rw [pParams_hi_eval] at hhi
      exact p391_roundTrip 50 v (by norm_num) (by norm_num) (by linarith)
        (by linarith)
    case rPt100 =>
      subst hc
      simp only [PtResistConverter, Option.some.injEq] at hlo hhi
      rw [ptParams_lo_eval] at hlo
      rw [ptParams_hi_eval] at hhi
      exact pt385_roundTrip 100 v (by norm_num) (by norm_num) (by linarith)
        (by linarith)
    case rPt50 =>
      subst hc
      simp only [PtResistConverter, Option.some.injEq] at hlo hhi
      rw [ptParams_lo_eval] at hlo
      rw [ptParams_hi_eval] at hhi
      exact pt385_roundTrip 50 v (by norm_num) (by norm_num) (by linarith)
        (by linarith)
    case rNi100 =>
      subst hc
      simp only [NiResistConverter, Option.some.injEq] at hlo hhi
      rw [niParams_lo_eval] at hlo
      rw [niParams_hi_eval] at hhi
      exact ni_roundTrip v (by linarith) (by linarith)
    case rCu100 =>
      subst hc
      simp only [CuResistConverter, Option.some.injEq] at hlo hhi
      rw [cuVal_lo_eval] at hlo
      rw [cuVal_hi_eval] at hhi
      exact cu_roundTrip v (by linarith) (by linarith)

/-- Witness for C1: the linear converter with coefficient `2`, offset `3`
round-trips `10` exactly, and the `Pt100_Ohm` converter round-trips the
in-range resistance `200` ohm to within `1/100` ohm. -/
theorem claim_C1_witness :
    roundTrip (LinearConverter 2 3 none none) 10 = .ok 10 ∧
    ∃ r : ℝ, roundTrip (PtResistConverter (ptParams 100) (-200) 850) 200 =
      .ok r ∧ |r - 200| ≤ 1/100 := by
  constructor
  · exact claim_C1.1 2 3 10 (by norm_num)
  · exact claim_C1.2 .rPt100 _ rfl _ _ rfl rfl 200
      (by rw [ptParams_lo_eval]; norm_num) (by rw [ptParams_hi_eval]; norm_num)

/-- C4 amended: for every two same-subtype instances of the four subtypes
whose constructor takes `(value, unit)` the code computes the base-value
sum/difference and re-expresses it in the left operand's unit; whenever an
instance is returned it has the left operand's subtype and unit, with
`value = from_base_u(sum)` and `base_value = to_base_u(from_base_u(sum))`.
For every two `Temperature` instances the operation always succeeds and the
result's `base_value` is exactly the sum (difference) — all three
temperature unit converters round-trip exactly — and in particular
`Temperature(10, C) + Temperature(283.15, K)` yields value `20.0` in unit
`C`.  The conversion does not always succeed for the other subtypes:
`ThermoResistor(20, Pt100_Ohm)` added to itself raises the range
`ValueError` inside `convert_to` (the summed base temperature
`-393.143…` °C lies below the Ohm converter's `base_low = -200`), and for
two `AnalogSensorMeasure` instances the inherited `__add__` raises a
`TypeError` instead (see the counterexample). -/
theorem claim_C4_amended :
    (∀ (v1 v2 : ℝ) (u1 u2 : MUnit) (m1 m2 : MState),
      mkMeasure .temperature v1 u1 = .ok m1 →
      mkMeasure .temperature v2 u2 = .ok m2 →
      ∃ r s, measureAdd m1 m2 = .ok r ∧ measureSub m1 m2 = .ok s ∧
        r.kind = .temperature ∧ r.unit = u1 ∧
        r.base_value = m1.base_value + m2.base_value ∧
        s.kind = .temperature ∧ s.unit = u1 ∧
        s.base_value = m1.base_value - m2.base_value ∧
        ∃ c, fixedRegistry .temperature u1 = some c ∧
          c.from_base (m1.base_value + m2.base_value) = .ok r.value) ∧
    (∀ a b : MState, mkMeasure .temperature 10 .tC = .ok a →
      mkMeasure .temperature 283.15 .tK = .ok b →
      ∃ r, measureAdd a b = .ok r ∧ r.value = 20 ∧ r.unit = .tC ∧
        r.base_value = 20) ∧
    (∀ m1 m2 : MState, m1.kind = m2.kind → m1.kind ≠ .analogSensor →
      (∀ r : MState, measureAdd m1 m2 = .ok r →
        r.kind = m1.kind ∧ r.unit = m1.unit ∧
        ∃ c v', fixedRegistry m1.kind m1.unit = some c ∧
          c.from_base (m1.base_value + m2.base_value) = .ok v' ∧
          r.value = v' ∧ c.to_base v' = .ok r.base_value) ∧
      (∀ s : MState, measureSub m1 m2 = .ok s →
        s.kind = m1.kind ∧ s.unit = m1.unit ∧
        ∃ c v', fixedRegistry m1.kind m1.unit = some c ∧
          c.from_base (m1.base_value - m2.base_value) = .ok v' ∧
          s.value = v' ∧ c.to_base v' = .ok s.base_value)) ∧
    (mkMeasure .thermoResistor 20 .rPt100 =
        .ok ⟨.thermoResistor, 20, .rPt100, -30714317/156250, 0, 0⟩ ∧
      measureAdd ⟨.thermoResistor, 20, .rPt100, -30714317/156250, 0, 0⟩
        ⟨.thermoResistor, 20, .rPt100, -30714317/156250, 0, 0⟩ =
          .error .valueLow) := by
  have main : ∀ (v1 v2 : ℝ) (u1 u2 : MUnit) (m1 m2 : MState),
      mkMeasure .temperature v1 u1 = .ok m1 →
      mkMeasure .temperature v2 u2 = .ok m2 →
      ∃ r s, measureAdd m1 m2 = .ok r ∧ measureSub m1 m2 = .ok s ∧
        r.kind = .temperature ∧ r.unit = u1 ∧
        r.base_value = m1.base_value + m2.base_value ∧
        s.kind = .temperature ∧ s.unit = u1 ∧
        s.base_value = m1.base_value - m2.base_value ∧
        ∃ c, fixedRegistry .temperature u1 = some c ∧
          c.from_base (m1.base_value + m2.base_value) = .ok r.value := by
    intro v1 v2 u1 u2 m1 m2 h1 h2
    obtain ⟨hk1, hv1, hu1, c1, hr1, hb1⟩ := mkMeasure_ok_elim h1
    obtain ⟨hk2, hv2, hu2, c2, hr2, hb2⟩ := mkMeasure_ok_elim h2
    subst hu1
    obtain ⟨coeff, offset, hceq, hcne⟩ := temp_registry_cases hr1
    subst hceq
    have hadd := measureAdd_eq m1 m2 (by rw [hk1, hk2]) (by rw [hk1]; simp)
    have hsub := measureSub_eq m1 m2 (by rw [hk1, hk2]) (by rw [hk1]; simp)
    rw [hk1] at hadd hsub
    have hbau : baseUnitOf MKind.temperature = .tC := rfl
    rw [hbau] at hadd hsub
    refine ⟨⟨.temperature, (m1.base_value + m2.base_value) * coeff + offset,
        m1.unit, m1.base_value + m2.base_value, 0, 0⟩,
      ⟨.temperature, (m1.base_value - m2.base_value) * coeff + offset,
        m1.unit, m1.base_value - m2.base_value, 0, 0⟩,
      ?_, ?_, rfl, rfl, rfl, rfl, rfl, rfl, ?_⟩
    · rw [hadd, temp_mk_base]
      exact temp_convert_ok m1.unit _ coeff offset hcne hr1
    · rw [hsub, temp_mk_base]
      exact temp_convert_ok m1.unit _ coeff offset hcne hr1
    · exact ⟨_, hr1, by rw [linear_from_base_eval]⟩
  have example_part : ∀ a b : MState, mkMeasure .temperature 10 .tC = .ok a →
      mkMeasure .temperature 283.15 .tK = .ok b →
      ∃ r, measureAdd a b = .ok r ∧ r.value = 20 ∧ r.unit = .tC ∧
        r.base_value = 20 := by
    intro a b h1 h2
    have ha : a = ⟨.temperature, 10, .tC, 10, 0, 0⟩ := by
      rw [temp_mk_base] at h1
      exact ((Except.ok.injEq _ _).mp h1).symm
    have hmkK : mkMeasure .temperature (283.15 : ℝ) .tK =
        .ok ⟨.temperature, 283.15, .tK, 10, 0, 0⟩ := by
      rw [mkMeasure]
      simp only [fixedRegistry, temperatureRegistry, linear_to_base_eval]
      norm_num
    have hb : b = ⟨.temperature, 283.15, .tK, 10, 0, 0⟩ := by
      rw [hmkK] at h2
      exact ((Except.ok.injEq _ _).mp h2).symm
    subst ha
    subst hb
    have hadd := measureAdd_eq ⟨.temperature, 10, .tC, 10, 0, 0⟩
      ⟨.temperature, 283.15, .tK, 10, 0, 0⟩ rfl (by simp)
    refine ⟨⟨.temperature, (10 + 10) * 1 + 0, .tC, 10 + 10, 0, 0⟩, ?_,
      by norm_num, rfl, by norm_num⟩
    rw [hadd]
    simp only [baseUnitOf, temp_mk_base]
    exact temp_convert_ok .tC _ 1 0 one_ne_zero rfl
  have shape : ∀ m1 m2 : MState, m1.kind = m2.kind →
      m1.kind ≠ .analogSensor →
      (∀ r : MState, measureAdd m1 m2 = .ok r →
        r.kind = m1.kind ∧ r.unit = m1.unit ∧
        ∃ c v', fixedRegistry m1.kind m1.unit = some c ∧
          c.from_base (m1.base_value + m2.base_value) = .ok v' ∧
          r.value = v' ∧ c.to_base v' = .ok r.base_value) ∧
      (∀ s : MState, measureSub m1 m2 = .ok s →
        s.kind = m1.kind ∧ s.unit = m1.unit ∧
        ∃ c v', fixedRegistry m1.kind m1.unit = some c ∧
          c.from_base (m1.base_value - m2.base_value) = .ok v' ∧
          s.value = v' ∧ c.to_base v' = .ok s.base_value) := by
    intro m1 m2 hk hna
    have hadd := measureAdd_eq m1 m2 hk hna
    have hsub := measureSub_eq m1 m2 hk hna
    simp only [base_mk m1.kind hna] at hadd hsub
    constructor
    · intro r hr
      rw [hadd] at hr
      obtain ⟨hk', hu', c, hc, v', hv', hval, hb⟩ := convertTo_ok_elim hr
      exact ⟨hk', hu', c, v', hc, hv', hval, hb⟩
    · intro s hs
      rw [hsub] at hs
      obtain ⟨hk', hu', c, hc, v', hv', hval, hb⟩ := convertTo_ok_elim hs
      exact ⟨hk', hu', c, v', hc, hv', hval, hb⟩
  have hchk20 : check_limits 20 (some (ptFromBaseRaw (ptParams 100) (-200)))
      (some (ptFromBaseRaw (ptParams 100) 850)) = .ok () := by
    rw [ptParams_lo_eval, ptParams_hi_eval]
    exact check_limits_ok_of_le (by norm_num) (by norm_num)
  have hbr20 : ¬ (1 : ℝ) ≤ 20 / (ptParams 100).R0 := by
    norm_num [ptParams]
  have hmk20 : mkMeasure .thermoResistor 20 .rPt100 =
      .ok ⟨.thermoResistor, 20, .rPt100, -30714317/156250, 0, 0⟩ := by
    have htb : (PtResistConverter (ptParams 100) (-200) 850).to_base 20 =
        .ok (-30714317/156250) := by
      simp only [Conv.to_base, PtResistConverter, hchk20]
      rw [pt_series_branch (ptParams 100) 20 hbr20]
      congr 1
      simp only [ptParams]
      rw [seriesLoop_four]
      norm_num
    rw [mkMeasure]
    simp only [fixedRegistry, thermoResistorRegistry, htb]
  have hlow : check_limits (-30714317/156250 + -30714317/156250 : ℝ)
      (some (-200 : ℝ)) (some (850 : ℝ)) = .error .valueLow := by
    apply check_limits_low
    have hv : round2 (-30714317/156250 + -30714317/156250 : ℝ) =
        (((-39315 : ℤ) : ℝ) + 1) / 100 := by
      apply round2_eval_gt
      · push_cast
        norm_num
      · push_cast
        norm_num
    have hl : round2 (-200 : ℝ) = ((-20000 : ℤ) : ℝ) / 100 :=
      round2_eq (-20000) (-200) (by norm_num)
    rw [hv, hl]
    push_cast
    norm_num
  have hconv : convertTo ⟨.thermoResistor,
      -30714317/156250 + -30714317/156250, .rC,
      -30714317/156250 + -30714317/156250, 0, 0⟩ .rPt100 =
        .error .valueLow := by
    rw [convertTo]
    have hfb : (PtResistConverter (ptParams 100) (-200) 850).from_base
        (-30714317/156250 + -30714317/156250 : ℝ) = .error .valueLow := by
      simp only [Conv.from_base, PtResistConverter, hlow]
    simp only [fixedRegistry, thermoResistorRegistry, hfb]
  have hbase2 : mkMeasure .thermoResistor
      (-30714317/156250 + -30714317/156250 : ℝ) .rC =
        .ok ⟨.thermoResistor, -30714317/156250 + -30714317/156250, .rC,
          -30714317/156250 + -30714317/156250, 0, 0⟩ := by
    have h := base_mk .thermoResistor (by simp)
      (-30714317/156250 + -30714317/156250 : ℝ)
    simpa only [baseUnitOf] using h
  have hfail : measureAdd ⟨.thermoResistor, 20, .rPt100, -30714317/156250,
      0, 0⟩ ⟨.thermoResistor, 20, .rPt100, -30714317/156250, 0, 0⟩ =
        .error .valueLow := by
    rw [measureAdd_eq _ _ rfl (by simp)]
    simp only [baseUnitOf, hbase2, hconv]
  exact ⟨main, example_part, shape, hmk20, hfail⟩

/-- Witness for the amended C4: the two `Temperature` instances `10 C` and
`283.15 K` exercise the exact-sum clauses and the result-shape clause, and
the `ThermoResistor(20, Pt100_Ohm)` instance added to itself exercises the
range-`ValueError` clause. -/
theorem claim_C4_witness :
    (∃ r s, measureAdd ⟨.temperature, 10, .tC, 10, 0, 0⟩
          ⟨.temperature, 283.15, .tK, 10, 0, 0⟩ = .ok r ∧
        measureSub ⟨.temperature, 10, .tC, 10, 0, 0⟩
          ⟨.temperature, 283.15, .tK, 10, 0, 0⟩ = .ok s ∧
        r.kind = .temperature ∧ r.unit = .tC ∧
        r.base_value = (⟨.temperature, 10, .tC, 10, 0, 0⟩ : MState).base_value +
          (⟨.temperature, 283.15, .tK, 10, 0, 0⟩ : MState).base_value ∧
        s.kind = .temperature ∧ s.unit = .tC ∧
        s.base_value = (⟨.temperature, 10, .tC, 10, 0, 0⟩ : MState).base_value -
          (⟨.temperature, 283.15, .tK, 10, 0, 0⟩ : MState).base_value ∧
        ∃ c, fixedRegistry .temperature .tC = some c ∧
          c.from_base ((⟨.temperature, 10, .tC, 10, 0, 0⟩ : MState).base_value +
            (⟨.temperature, 283.15, .tK, 10, 0, 0⟩ : MState).base_value) =
              .ok r.value) ∧
    (∃ r, measureAdd ⟨.temperature, 10, .tC, 10, 0, 0⟩
        ⟨.temperature, 283.15, .tK, 10, 0, 0⟩ = .ok r ∧
      r.value = 20 ∧ r.unit = .tC ∧ r.base_value = 20) ∧
    (∃ r, measureAdd ⟨.temperature, 10, .tC, 10, 0, 0⟩
        ⟨.temperature, 283.15, .tK, 10, 0, 0⟩ = .ok r ∧
      r.kind = .temperature ∧ r.unit = .tC) ∧
    measureAdd ⟨.thermoResistor, 20, .rPt100, -30714317/156250, 0, 0⟩
      ⟨.thermoResistor, 20, .rPt100, -30714317/156250, 0, 0⟩ =
        .error .valueLow := by
  have h1 : mkMeasure .temperature (10 : ℝ) .tC =
      .ok ⟨.temperature, 10, .tC, 10, 0, 0⟩ := temp_mk_base 10
  have h2 : mkMeasure .temperature (283.15 : ℝ) .tK =
      .ok ⟨.temperature, 283.15, .tK, 10, 0, 0⟩ := by
    rw [mkMeasure]
    simp only [fixedRegistry, temperatureRegistry, linear_to_base_eval]
    norm_num
  refine ⟨claim_C4_amended.1 10 283.15 .tC .tK _ _ h1 h2,
    claim_C4_amended.2.1 _ _ h1 h2, ?_, claim_C4_amended.2.2.2.2⟩
  obtain ⟨r, hr, hv, hu, hb⟩ := claim_C4_amended.2.1 _ _ h1 h2
  obtain ⟨hk', hu', _⟩ :=
    (claim_C4_amended.2.2.1 ⟨.temperature, 10, .tC, 10, 0, 0⟩
      ⟨.temperature, 283.15, .tK, 10, 0, 0⟩ rfl (by simp)).1 r hr
  exact ⟨r, hr, hk', hu'⟩
